import Mathlib

/-!
# Cluster controller: resource reconciliation pass

A shallow embedding of `api/pkg/controller/cluster/resources.go`.

* Go `error` values are modelled by `GoError`; a `nil` error is `none`.
* Go maps from string to string are association lists read with `mapIndex`
  (a missing key reads as the empty string, as in Go).
* The resource store behind `cc.dynamicClient` / `cc.dynamicCache` is an abstract
  state of type `σ`.  The functions of package `resources` that are not part of the
  verified sources (`ReconcileServices`, ..., `GetVerticalPodAutoscalersForAll`,
  `GetClusterRef`) are parameters, collected in `Resources σ`.
* Every call that leaves the controller (a `Reconcile*` call, the request for the
  autoscaler getters, `enqueueAfter`) is appended to a trace, together with the
  error it returned, so that statements about which calls a pass makes, in which
  order and with which arguments, are statements about the trace.
-/

namespace Kubermatic

/-! ## Go values -/

/-- A non-nil Go `error` value.  `status` is a `*errors.StatusError` of apimachinery
(it carries a reason such as `NotFound`), `errorString` is what `errors.New` and
`fmt.Errorf` (with the `%v` verb) build: a fresh value holding only a message. -/
inductive GoError where
  | status (reason : String) (message : String)
  | errorString (message : String)
  deriving DecidableEq, Repr

/-- The `Error()` method. -/
def GoError.Error : GoError → String
  | .status _ message => message
  | .errorString message => message

/-- The call `fmt.Errorf(format, err)` for a format of the shape `"<text>%v"`: the `%v`
verb prints `err.Error()`, and the result is a new error holding only that text. -/
def fmtErrorf (text : String) (err : GoError) : GoError :=
  .errorString (text ++ err.Error)

/-- Indexing a Go `map[string]string`: the zero value `""` for a missing key
(also on a nil map, which is the empty list here). -/
def mapIndex (m : List (String × String)) (key : String) : String :=
  (m.lookup key).getD ""

/-- A `time.Duration`: a number of nanoseconds. -/
abbrev Duration := Int

/-- The constant `time.Second`. -/
def Second : Duration := 1000000000

/-- The result of calling a Go function of type `func(*T) (*T, error)`: either it returns a
pair of a pointer (nil is `none`) and an error (nil is `none`), or it stops with a run-time
nil-pointer dereference. -/
inductive GoResult (α : Type) where
  | ret (value : Option α) (err : Option GoError)
  | nilDeref

/-! ## The cluster object (the fields read by the controller) -/

/-- The part of `kubermaticv1.ClusterHealth` read here. -/
structure ClusterHealth where
  CloudProviderInfrastructure : Bool
  deriving DecidableEq, Repr

/-- The part of `kubermaticv1.ClusterStatus` read here. -/
structure ClusterStatus where
  NamespaceName : String
  Health : ClusterHealth
  deriving DecidableEq, Repr

/-- A `kubermaticv1.NetworkRanges`. -/
structure NetworkRanges where
  CIDRBlocks : List String
  deriving DecidableEq, Repr

/-- A `kubermaticv1.ClusterNetworkingConfig`. -/
structure ClusterNetworkingConfig where
  Services : NetworkRanges
  Pods : NetworkRanges
  deriving DecidableEq, Repr

/-- The part of `kubermaticv1.CloudSpec` read here. -/
structure CloudSpec where
  DatacenterName : String
  deriving DecidableEq, Repr

/-- The part of `kubermaticv1.ClusterSpec` read here. -/
structure ClusterSpec where
  Cloud : CloudSpec
  ClusterNetwork : ClusterNetworkingConfig
  deriving DecidableEq, Repr

/-- A `kubermaticv1.Cluster` (the value behind a non-nil `*Cluster`). -/
structure Cluster where
  Name : String
  UID : String
  Annotations : List (String × String)
  Spec : ClusterSpec
  Status : ClusterStatus
  deriving DecidableEq, Repr

/-- A `metav1.OwnerReference`. -/
structure OwnerReference where
  APIVersion : String
  Kind : String
  Name : String
  UID : String
  Controller : Option Bool
  BlockOwnerDeletion : Option Bool
  deriving DecidableEq, Repr

/-- The part of `provider.DatacenterMeta` that identifies a datacenter. -/
structure DatacenterMeta where
  Location : String
  Seed : String
  Country : String
  IsSeed : Bool
  deriving DecidableEq, Repr

/-- The value built by `resources.NewTemplateData`: it stores its arguments.  The three
listers handed to it are handles on the store and are not part of the value here. -/
structure TemplateData where
  cluster : Option Cluster
  dc : Option DatacenterMeta
  seedDC : String
  overwriteRegistry : String
  nodePortRange : String
  nodeAccessNetwork : String
  etcdDiskSize : String
  monitoringScrapeAnnotationPrefix : String
  inClusterPrometheusRulesFile : String
  inClusterPrometheusDisableDefaultRules : Bool
  inClusterPrometheusDisableDefaultScrapingConfigs : Bool
  inClusterPrometheusScrapingConfigsFile : String
  dockerPullConfigJSON : String
  oidcCAFile : String
  oidcIssuerURL : String
  oidcIssuerClientID : String
  enableEtcdDataCorruptionChecks : Bool
  deriving DecidableEq, Repr

/-- The accessor `data.Cluster()`. -/
def TemplateData.Cluster (data : TemplateData) : Option Cluster := data.cluster

/-- The accessor `data.OIDCCAFile()`. -/
def TemplateData.OIDCCAFile (data : TemplateData) : String := data.oidcCAFile

/-! ## Vertical pod autoscaler objects (`autoscaling.k8s.io/v1beta2`) -/

/-- The type `UpdateMode` with its four constants. -/
inductive UpdateMode where
  | Off
  | Initial
  | Recreate
  | Auto
  deriving DecidableEq, Repr

/-- A `PodUpdatePolicy`: its only field is the optional update mode. -/
structure PodUpdatePolicy where
  UpdateMode : Option UpdateMode
  deriving DecidableEq, Repr

/-- A `CrossVersionObjectReference`. -/
structure CrossVersionObjectReference where
  Kind : String
  Name : String
  APIVersion : String
  deriving DecidableEq, Repr

/-- A `ContainerResourcePolicy`. -/
structure ContainerResourcePolicy where
  ContainerName : String
  Mode : Option String
  MinAllowed : List (String × String)
  MaxAllowed : List (String × String)
  deriving DecidableEq, Repr

/-- A `PodResourcePolicy`. -/
structure PodResourcePolicy where
  ContainerPolicies : List ContainerResourcePolicy
  deriving DecidableEq, Repr

/-- A `VerticalPodAutoscalerSpec`. -/
structure VerticalPodAutoscalerSpec where
  TargetRef : Option CrossVersionObjectReference
  UpdatePolicy : Option PodUpdatePolicy
  ResourcePolicy : Option PodResourcePolicy
  deriving DecidableEq, Repr

/-- The part of `metav1.ObjectMeta` carried along. -/
structure ObjectMeta where
  Name : String
  Namespace : String
  Labels : List (String × String)
  OwnerReferences : List OwnerReference
  deriving DecidableEq, Repr

/-- A `VerticalPodAutoscalerStatus`, kept as the list of its recommendation lines and
conditions. -/
structure VerticalPodAutoscalerStatus where
  Recommendation : List (String × String)
  Conditions : List (String × String)
  deriving DecidableEq, Repr

/-- A `VerticalPodAutoscaler` (the value behind a non-nil pointer). -/
structure VerticalPodAutoscaler where
  ObjectMeta : ObjectMeta
  Spec : VerticalPodAutoscalerSpec
  Status : VerticalPodAutoscalerStatus
  deriving DecidableEq, Repr

/-- The type `resources.VerticalPodAutoscalerCreator`,
`func(*VerticalPodAutoscaler) (*VerticalPodAutoscaler, error)`. -/
abbrev VerticalPodAutoscalerCreator :=
  Option VerticalPodAutoscaler → GoResult VerticalPodAutoscaler

/-- The type `resources.NamedVerticalPodAutoscalerCreatorGetter`,
`func() (string, VerticalPodAutoscalerCreator)`. -/
abbrev NamedVerticalPodAutoscalerCreatorGetter :=
  Unit → String × VerticalPodAutoscalerCreator

/-- The wrapper `disableVPAWrapper` (resources.go, lines 339-354).  The inner creator runs
first; a non-nil error is returned with a nil object.  Otherwise `vpa.Spec` is read, which
needs a non-nil `vpa`; a nil update policy is replaced by an empty one and its update mode
is set to `UpdateModeOff`. -/
def disableVPAWrapper (create : VerticalPodAutoscalerCreator) : VerticalPodAutoscalerCreator :=
  fun vpa =>
    match create vpa with
    | .nilDeref => .nilDeref
    | .ret _ (some err) => .ret none (some err)
    | .ret none none => .nilDeref
    | .ret (some vpa) none =>
      let policy : PodUpdatePolicy :=
        match vpa.Spec.UpdatePolicy with
        | none => { UpdateMode := none }
        | some p => p
      let mode := UpdateMode.Off
      .ret (some { vpa with Spec := { vpa.Spec with
                      UpdatePolicy := some { policy with UpdateMode := some mode } } }) none

/-! ## Creator registries

The creator getters of the packages `apiserver`, `openvpn`, `etcd`, ... are not part of the
verified sources.  A registry entry is therefore the call that builds the getter: the
function called and the arguments it is given. -/

/-- The entries of a `[]resources.NamedServiceCreatorGetter`. -/
inductive NamedServiceCreatorGetter where
  | apiserver_InternalServiceCreator
  | apiserver_ExternalServiceCreator
  | openvpn_ServiceCreator
  | etcd_ServiceCreator (data : TemplateData)
  | dns_ServiceCreator
  | machinecontroller_ServiceCreator
  | metricsserver_ServiceCreator
  deriving DecidableEq, Repr

/-- The entries of a `[]resources.NamedDeploymentCreatorGetter`. -/
inductive NamedDeploymentCreatorGetter where
  | openvpn_DeploymentCreator (data : TemplateData)
  | dns_DeploymentCreator (data : TemplateData)
  | apiserver_DeploymentCreator (data : TemplateData)
  | scheduler_DeploymentCreator (data : TemplateData)
  | controllermanager_DeploymentCreator (data : TemplateData)
  | machinecontroller_DeploymentCreator (data : TemplateData)
  | machinecontroller_WebhookDeploymentCreator (data : TemplateData)
  | metricsserver_DeploymentCreator (data : TemplateData)
  | usercluster_DeploymentCreator (data : TemplateData) (openshift : Bool)
  deriving DecidableEq, Repr

/-- The entries of a `[]resources.NamedSecretCreatorGetter`.  The two first arguments of
`GetInternalKubeconfigCreator` are constants of package `resources`, given by their
identifiers. -/
inductive NamedSecretCreatorGetter where
  | certificates_RootCACreator (data : TemplateData)
  | openvpn_CACreator
  | certificates_FrontProxyCACreator
  | resources_ImagePullSecretCreator (dockerPullConfigJSON : String)
  | apiserver_FrontProxyClientCertificateCreator (data : TemplateData)
  | etcd_TLSCertificateCreator (data : TemplateData)
  | apiserver_EtcdClientCertificateCreator (data : TemplateData)
  | apiserver_TLSServingCertificateCreator (data : TemplateData)
  | apiserver_KubeletClientCertificateCreator (data : TemplateData)
  | apiserver_ServiceAccountKeyCreator
  | openvpn_TLSServingCertificateCreator (data : TemplateData)
  | openvpn_InternalClientCertificateCreator (data : TemplateData)
  | machinecontroller_TLSServingCertificateCreator (data : TemplateData)
  | resources_GetInternalKubeconfigCreator (secretName : String) (certUsername : String)
      (organizations : List String) (data : TemplateData)
  | resources_AdminKubeconfigCreator (data : TemplateData)
  | apiserver_TokenUsersCreator (data : TemplateData)
  | apiserver_DexCACertificateCreator (data : TemplateData)
  deriving DecidableEq, Repr

/-- The entries of a `[]resources.NamedConfigMapCreatorGetter`. -/
inductive NamedConfigMapCreatorGetter where
  | cloudconfig_ConfigMapCreator (data : TemplateData)
  | openvpn_ServerClientConfigsConfigMapCreator (data : TemplateData)
  | dns_ConfigMapCreator (data : TemplateData)
  deriving DecidableEq, Repr

/-- The entries of a `[]resources.NamedStatefulSetCreatorGetter`. -/
inductive NamedStatefulSetCreatorGetter where
  | etcd_StatefulSetCreator (data : TemplateData)
  deriving DecidableEq, Repr

/-- The entries of a `[]resources.NamedPodDisruptionBudgetCreatorGetter`. -/
inductive NamedPodDisruptionBudgetCreatorGetter where
  | etcd_PodDisruptionBudgetCreator (data : TemplateData)
  | apiserver_PodDisruptionBudgetCreator
  | metricsserver_PodDisruptionBudgetCreator
  deriving DecidableEq, Repr

/-- The entries of a `[]resources.NamedCronJobCreatorGetter`. -/
inductive NamedCronJobCreatorGetter where
  | etcd_CronJobCreator (data : TemplateData)
  deriving DecidableEq, Repr

/-- The function `GetServiceCreators` (lines 158-168). -/
def GetServiceCreators (data : TemplateData) : List NamedServiceCreatorGetter :=
  [ .apiserver_InternalServiceCreator,
    .apiserver_ExternalServiceCreator,
    .openvpn_ServiceCreator,
    .etcd_ServiceCreator data,
    .dns_ServiceCreator,
    .machinecontroller_ServiceCreator,
    .metricsserver_ServiceCreator ]

/-- The function `GetDeploymentCreators` (lines 176-193). -/
def GetDeploymentCreators (data : TemplateData) : List NamedDeploymentCreatorGetter :=
  let creators : List NamedDeploymentCreatorGetter :=
    [ .openvpn_DeploymentCreator data,
      .dns_DeploymentCreator data ]
  match data.Cluster with
  | some cluster =>
    if mapIndex cluster.Annotations "kubermatic.io/openshift" = "" then
      let creators := creators ++ [.apiserver_DeploymentCreator data]
      let creators := creators ++ [.scheduler_DeploymentCreator data]
      let creators := creators ++ [.controllermanager_DeploymentCreator data]
      let creators := creators ++ [.machinecontroller_DeploymentCreator data]
      let creators := creators ++ [.machinecontroller_WebhookDeploymentCreator data]
      let creators := creators ++ [.metricsserver_DeploymentCreator data]
      let creators := creators ++ [.usercluster_DeploymentCreator data false]
      creators
    else creators
  | none => creators

/-- The method `GetSecretCreators` (lines 201-234); `dockerPullConfigJSON` is the field of
the controller it reads. -/
def GetSecretCreators (dockerPullConfigJSON : String) (data : TemplateData) :
    List NamedSecretCreatorGetter :=
  let creators : List NamedSecretCreatorGetter :=
    [ .certificates_RootCACreator data,
      .openvpn_CACreator,
      .certificates_FrontProxyCACreator,
      .resources_ImagePullSecretCreator dockerPullConfigJSON,
      .apiserver_FrontProxyClientCertificateCreator data,
      .etcd_TLSCertificateCreator data,
      .apiserver_EtcdClientCertificateCreator data,
      .apiserver_TLSServingCertificateCreator data,
      .apiserver_KubeletClientCertificateCreator data,
      .apiserver_ServiceAccountKeyCreator,
      .openvpn_TLSServingCertificateCreator data,
      .openvpn_InternalClientCertificateCreator data,
      .machinecontroller_TLSServingCertificateCreator data,
      .resources_GetInternalKubeconfigCreator "SchedulerKubeconfigSecretName"
        "SchedulerCertUsername" [] data,
      .resources_GetInternalKubeconfigCreator "KubeletDnatControllerKubeconfigSecretName"
        "KubeletDnatControllerCertUsername" [] data,
      .resources_GetInternalKubeconfigCreator "MachineControllerKubeconfigSecretName"
        "MachineControllerCertUsername" [] data,
      .resources_GetInternalKubeconfigCreator "ControllerManagerKubeconfigSecretName"
        "ControllerManagerCertUsername" [] data,
      .resources_GetInternalKubeconfigCreator "KubeStateMetricsKubeconfigSecretName"
        "KubeStateMetricsCertUsername" [] data,
      .resources_GetInternalKubeconfigCreator "MetricsServerKubeconfigSecretName"
        "MetricsServerCertUsername" [] data,
      .resources_GetInternalKubeconfigCreator "InternalUserClusterAdminKubeconfigSecretName"
        "InternalUserClusterAdminKubeconfigCertUsername" ["system:masters"] data,
      .resources_AdminKubeconfigCreator data,
      .apiserver_TokenUsersCreator data ]
  if data.OIDCCAFile.length > 0 then
    creators ++ [.apiserver_DexCACertificateCreator data]
  else creators

/-- The function `GetConfigMapCreators` (lines 247-253). -/
def GetConfigMapCreators (data : TemplateData) : List NamedConfigMapCreatorGetter :=
  [ .cloudconfig_ConfigMapCreator data,
    .openvpn_ServerClientConfigsConfigMapCreator data,
    .dns_ConfigMapCreator data ]

/-- The function `GetStatefulSetCreators` (lines 266-270). -/
def GetStatefulSetCreators (data : TemplateData) : List NamedStatefulSetCreatorGetter :=
  [ .etcd_StatefulSetCreator data ]

/-- The function `GetPodDisruptionBudgetCreators` (lines 273-279). -/
def GetPodDisruptionBudgetCreators (data : TemplateData) :
    List NamedPodDisruptionBudgetCreatorGetter :=
  [ .etcd_PodDisruptionBudgetCreator data,
    .apiserver_PodDisruptionBudgetCreator,
    .metricsserver_PodDisruptionBudgetCreator ]

/-- The function `GetCronJobCreators` (lines 292-296). -/
def GetCronJobCreators (data : TemplateData) : List NamedCronJobCreatorGetter :=
  [ .etcd_CronJobCreator data ]

/-! ## The controller and the calls it makes -/

/-- A `resources.ObjectModifier` as built at the call sites of this file: the result of
`resources.OwnerRefWrapper` applied to an owner reference. -/
inductive ObjectModifier where
  | OwnerRefWrapper (ref : OwnerReference)
  deriving DecidableEq, Repr

/-- The kinds of objects reconciled by a pass, one per `resources.Reconcile*` function. -/
inductive Kind where
  | Services
  | Secrets
  | StatefulSets
  | ConfigMaps
  | Deployments
  | CronJobs
  | PodDisruptionBudgets
  | VerticalPodAutoscalers
  deriving DecidableEq, Repr

/-- A call of one of the functions `resources.ReconcileServices`, ..., with its arguments:
the registry, the namespace and the object modifiers that follow the two store handles
`cc.dynamicClient` and `cc.dynamicCache`. -/
inductive ReconcileCall where
  | Services (creators : List NamedServiceCreatorGetter) (ns : String)
      (objectModifiers : List ObjectModifier)
  | Secrets (creators : List NamedSecretCreatorGetter) (ns : String)
      (objectModifiers : List ObjectModifier)
  | StatefulSets (creators : List NamedStatefulSetCreatorGetter) (ns : String)
      (objectModifiers : List ObjectModifier)
  | ConfigMaps (creators : List NamedConfigMapCreatorGetter) (ns : String)
      (objectModifiers : List ObjectModifier)
  | Deployments (creators : List NamedDeploymentCreatorGetter) (ns : String)
      (objectModifiers : List ObjectModifier)
  | CronJobs (creators : List NamedCronJobCreatorGetter) (ns : String)
      (objectModifiers : List ObjectModifier)
  | PodDisruptionBudgets (creators : List NamedPodDisruptionBudgetCreatorGetter) (ns : String)
      (objectModifiers : List ObjectModifier)
  | VerticalPodAutoscalers (creators : List NamedVerticalPodAutoscalerCreatorGetter)
      (ns : String) (objectModifiers : List ObjectModifier)

/-- The kind reconciled by a call. -/
def ReconcileCall.kind : ReconcileCall → Kind
  | .Services .. => .Services
  | .Secrets .. => .Secrets
  | .StatefulSets .. => .StatefulSets
  | .ConfigMaps .. => .ConfigMaps
  | .Deployments .. => .Deployments
  | .CronJobs .. => .CronJobs
  | .PodDisruptionBudgets .. => .PodDisruptionBudgets
  | .VerticalPodAutoscalers .. => .VerticalPodAutoscalers

/-- The namespace argument of a call. -/
def ReconcileCall.namespaceArg : ReconcileCall → String
  | .Services _ ns _ => ns
  | .Secrets _ ns _ => ns
  | .StatefulSets _ ns _ => ns
  | .ConfigMaps _ ns _ => ns
  | .Deployments _ ns _ => ns
  | .CronJobs _ ns _ => ns
  | .PodDisruptionBudgets _ ns _ => ns
  | .VerticalPodAutoscalers _ ns _ => ns

/-- The object modifiers of a call. -/
def ReconcileCall.objectModifiers : ReconcileCall → List ObjectModifier
  | .Services _ _ ms => ms
  | .Secrets _ _ ms => ms
  | .StatefulSets _ _ ms => ms
  | .ConfigMaps _ _ ms => ms
  | .Deployments _ _ ms => ms
  | .CronJobs _ _ ms => ms
  | .PodDisruptionBudgets _ _ ms => ms
  | .VerticalPodAutoscalers _ _ ms => ms

/-- The functions of package `resources` called by the controller and not part of the
verified sources, over a store of type `σ`.  A `Reconcile*` function may change the store and
returns an error or nil; `GetVerticalPodAutoscalersForAll` reads the cache and returns the
getters and an error or nil; `GetClusterRef` builds the owner reference of a cluster. -/
structure Resources (σ : Type) where
  Reconcile : ReconcileCall → σ → Option GoError × σ
  GetVerticalPodAutoscalersForAll : List String → List String → String → σ →
    List NamedVerticalPodAutoscalerCreatorGetter × Option GoError
  GetClusterRef : Cluster → OwnerReference

/-- The scope of the variables of a `for ... := range` statement.  It is fixed by the Go
language version the package is compiled as, which the sources do not state: one variable for
the whole loop before Go 1.22, a new variable for every iteration from Go 1.22 on. -/
inductive RangeVarScope where
  | perLoop
  | perIteration
  deriving DecidableEq, Repr

/-- The fields of `Controller` read by the functions of this file (the listers and clients
are handles on the store `σ`), with the package `resources` it calls into.  The last entry,
`rangeVarScope`, is not a field of the Go struct: it is the scope rule for range variables
under which the methods of the controller are compiled. -/
structure Controller (σ : Type) where
  resources : Resources σ
  dcs : List (String × DatacenterMeta)
  dc : String
  overwriteRegistry : String
  nodePortRange : String
  nodeAccessNetwork : String
  etcdDiskSize : String
  monitoringScrapeAnnotationPrefix : String
  inClusterPrometheusRulesFile : String
  inClusterPrometheusDisableDefaultRules : Bool
  inClusterPrometheusDisableDefaultScrapingConfigs : Bool
  inClusterPrometheusScrapingConfigsFile : String
  dockerPullConfigJSON : String
  oidcCAFile : String
  oidcIssuerURL : String
  oidcIssuerClientID : String
  enableEtcdDataCorruptionChecks : Bool
  enableVPA : Bool
  rangeVarScope : RangeVarScope

/-- One observable step of a pass: a `Reconcile*` call and the error it returned, the request
for the autoscaler getters and the error it returned, or a call of `cc.enqueueAfter`. -/
inductive Event where
  | reconcile (call : ReconcileCall) (err : Option GoError)
  | getVerticalPodAutoscalersForAll (deploymentNames : List String)
      (statefulSetNames : List String) (ns : String) (err : Option GoError)
  | enqueueAfter (cluster : Cluster) (duration : Duration)

/-- The state threaded through a pass: the store and the calls made so far. -/
structure PassState (σ : Type) where
  store : σ
  trace : List Event

/-- A Go function of result type `error` run against the pass state. -/
abbrev Step (σ : Type) := PassState σ → Option GoError × PassState σ

/-- Calling `resources.Reconcile*`: the store moves on and the call is recorded. -/
def callReconcile {σ : Type} (cc : Controller σ) (call : ReconcileCall) : Step σ :=
  fun s =>
    let r := cc.resources.Reconcile call s.store
    (r.1, { store := r.2, trace := s.trace ++ [Event.reconcile call r.1] })

/-- The Go idiom `if err := stage; err != nil { return err }` followed by `rest`. -/
def orReturn {σ : Type} (stage : Step σ) (rest : Step σ) : Step σ :=
  fun s =>
    match stage s with
    | (some err, s1) => (some err, s1)
    | (none, s1) => rest s1

/-- The method `getClusterTemplateData` (lines 98-126). -/
def getClusterTemplateData {σ : Type} (cc : Controller σ) (c : Cluster) :
    Except GoError TemplateData :=
  match cc.dcs.lookup c.Spec.Cloud.DatacenterName with
  | none => .error (.errorString ("failed to get datacenter " ++ c.Spec.Cloud.DatacenterName))
  | some dc =>
    .ok { cluster := some c
          dc := some dc
          seedDC := cc.dc
          overwriteRegistry := cc.overwriteRegistry
          nodePortRange := cc.nodePortRange
          nodeAccessNetwork := cc.nodeAccessNetwork
          etcdDiskSize := cc.etcdDiskSize
          monitoringScrapeAnnotationPrefix := cc.monitoringScrapeAnnotationPrefix
          inClusterPrometheusRulesFile := cc.inClusterPrometheusRulesFile
          inClusterPrometheusDisableDefaultRules := cc.inClusterPrometheusDisableDefaultRules
          inClusterPrometheusDisableDefaultScrapingConfigs :=
            cc.inClusterPrometheusDisableDefaultScrapingConfigs
          inClusterPrometheusScrapingConfigsFile := cc.inClusterPrometheusScrapingConfigsFile
          dockerPullConfigJSON := cc.dockerPullConfigJSON
          oidcCAFile := cc.oidcCAFile
          oidcIssuerURL := cc.oidcIssuerURL
          oidcIssuerClientID := cc.oidcIssuerClientID
          enableEtcdDataCorruptionChecks := cc.enableEtcdDataCorruptionChecks }

/-- The method `ensureServices` (lines 170-173). -/
def ensureServices {σ : Type} (cc : Controller σ) (c : Cluster) (data : TemplateData) :
    Step σ :=
  let creators := GetServiceCreators data
  callReconcile cc (.Services creators c.Status.NamespaceName
    [.OwnerRefWrapper (cc.resources.GetClusterRef c)])

/-- The method `ensureDeployments` (lines 195-198). -/
def ensureDeployments {σ : Type} (cc : Controller σ) (cluster : Cluster)
    (data : TemplateData) : Step σ :=
  let creators := GetDeploymentCreators data
  callReconcile cc (.Deployments creators cluster.Status.NamespaceName
    [.OwnerRefWrapper (cc.resources.GetClusterRef cluster)])

/-- The method `ensureSecrets` (lines 236-244). -/
def ensureSecrets {σ : Type} (cc : Controller σ) (c : Cluster) (data : TemplateData) :
    Step σ :=
  fun s =>
    let namedSecretCreatorGetters := GetSecretCreators cc.dockerPullConfigJSON data
    match callReconcile cc (.Secrets namedSecretCreatorGetters c.Status.NamespaceName
        [.OwnerRefWrapper (cc.resources.GetClusterRef c)]) s with
    | (some err, s1) => (some (fmtErrorf "failed to ensure that the Secret exists: " err), s1)
    | (none, s1) => (none, s1)

/-- The method `ensureConfigMaps` (lines 255-263). -/
def ensureConfigMaps {σ : Type} (cc : Controller σ) (c : Cluster) (data : TemplateData) :
    Step σ :=
  fun s =>
    let creators := GetConfigMapCreators data
    match callReconcile cc (.ConfigMaps creators c.Status.NamespaceName
        [.OwnerRefWrapper (cc.resources.GetClusterRef c)]) s with
    | (some err, s1) => (some (fmtErrorf "failed to ensure that the ConfigMap exists: " err), s1)
    | (none, s1) => (none, s1)

/-- The method `ensurePodDisruptionBudgets` (lines 281-289). -/
def ensurePodDisruptionBudgets {σ : Type} (cc : Controller σ) (c : Cluster)
    (data : TemplateData) : Step σ :=
  fun s =>
    let creators := GetPodDisruptionBudgetCreators data
    match callReconcile cc (.PodDisruptionBudgets creators c.Status.NamespaceName
        [.OwnerRefWrapper (cc.resources.GetClusterRef c)]) s with
    | (some err, s1) =>
      (some (fmtErrorf "failed to ensure that the PodDisruptionBudget exists: " err), s1)
    | (none, s1) => (none, s1)

/-- The method `ensureCronJobs` (lines 298-306). -/
def ensureCronJobs {σ : Type} (cc : Controller σ) (c : Cluster) (data : TemplateData) :
    Step σ :=
  fun s =>
    let creators := GetCronJobCreators data
    match callReconcile cc (.CronJobs creators c.Status.NamespaceName
        [.OwnerRefWrapper (cc.resources.GetClusterRef c)]) s with
    | (some err, s1) => (some (fmtErrorf "failed to ensure that the CronJobs exists: " err), s1)
    | (none, s1) => (none, s1)

/-- The method `ensureStatefulSets` (lines 356-360). -/
def ensureStatefulSets {σ : Type} (cc : Controller σ) (c : Cluster) (data : TemplateData) :
    Step σ :=
  let creators := GetStatefulSetCreators data
  callReconcile cc (.StatefulSets creators c.Status.NamespaceName
    [.OwnerRefWrapper (cc.resources.GetClusterRef c)])

/-! ## Autoscaler policies

The loop of `ensureVerticalPodAutoscalers` (lines 326-331) overwrites every entry of the
slice `creators` by a function literal whose body calls `getNameAndCreator`, the range
variable of the loop.  A function literal captures the variable, not its value, and reads it
when it is called; the literals are only called by `resources.ReconcileVerticalPodAutoscalers`,
after the loop has ended.  What they read then depends on the scope of the range variable
(`RangeVarScope`): with one variable per iteration every literal reads the getter of its own
iteration, with one variable for the whole loop every literal reads the getter assigned last.
The model keeps the instances of the range variable apart by a number and covers both
scopes. -/

/-- An entry of the slice `creators` during the loop: a getter returned by
`GetVerticalPodAutoscalersForAll` that is still in place, or the function literal of
lines 327-330, closed over the instance `rangeVar` of the range variable. -/
inductive SliceEntry where
  | getter (g : NamedVerticalPodAutoscalerCreatorGetter)
  | literal (rangeVar : Nat)

/-- The body of the function literal of lines 327-330, given the content of the range
variable `getNameAndCreator` at the time of the call. -/
def wrapLiteral (getNameAndCreator : NamedVerticalPodAutoscalerCreatorGetter) :
    NamedVerticalPodAutoscalerCreatorGetter :=
  fun _ =>
    let r := getNameAndCreator ()
    (r.1, disableVPAWrapper r.2)

/-- The memory of the loop: the slice `creators` and the content of every instance of the
range variable `getNameAndCreator`. -/
structure RangeLoop where
  creators : List SliceEntry
  getNameAndCreator : Nat → NamedVerticalPodAutoscalerCreatorGetter

/-- The instance of the range variable that iteration `i` declares or assigns: always the
same one when the variable belongs to the loop, a new one when it belongs to the
iteration. -/
def rangeVariable : RangeVarScope → Nat → Nat
  | .perLoop, _ => 0
  | .perIteration, i => i

/-- One iteration of the loop, at index `i`: the range variable of the iteration receives
`creators[i]`, then `creators[i]` is overwritten by the function literal, which captures
that variable.  (An entry is read before it is overwritten, so what is read is always a
getter.) -/
def rangeIteration (scope : RangeVarScope) (st : RangeLoop) (i : Nat) : RangeLoop :=
  match st.creators.get? i with
  | some (.getter g) =>
    { creators := st.creators.set i (.literal (rangeVariable scope i)),
      getNameAndCreator := fun v =>
        if v = rangeVariable scope i then g else st.getNameAndCreator v }
  | _ => st

/-- Calling an entry of the slice once the loop has ended, with the final content of the
instances of the range variable. -/
def SliceEntry.call (getNameAndCreator : Nat → NamedVerticalPodAutoscalerCreatorGetter) :
    SliceEntry → NamedVerticalPodAutoscalerCreatorGetter
  | .getter g => g
  | .literal v => wrapLiteral (getNameAndCreator v)

/-- The loop of lines 326-331 run to its end, and the getters the slice then holds.  On an
empty slice the body never runs. -/
def disableAll (scope : RangeVarScope)
    (creators : List NamedVerticalPodAutoscalerCreatorGetter) :
    List NamedVerticalPodAutoscalerCreatorGetter :=
  match creators with
  | [] => []
  | g0 :: _ =>
    let final := (List.range creators.length).foldl (rangeIteration scope)
      { creators := creators.map SliceEntry.getter, getNameAndCreator := fun _ => g0 }
    final.creators.map (SliceEntry.call final.getNameAndCreator)

/-- The method `ensureVerticalPodAutoscalers` (lines 308-335). -/
def ensureVerticalPodAutoscalers {σ : Type} (cc : Controller σ) (c : Cluster)
    (_data : TemplateData) : Step σ :=
  fun s =>
    let controlPlaneDeploymentNames :=
      [ "dns-resolver",
        "machine-controller",
        "machine-controller-webhook",
        "openvpn-server" ]
    let controlPlaneDeploymentNames :=
      if mapIndex c.Annotations "kubermatic.io/openshift" = "" then
        controlPlaneDeploymentNames ++
          ["apiserver", "controller-manager", "scheduler", "metrics-server"]
      else controlPlaneDeploymentNames
    let r := cc.resources.GetVerticalPodAutoscalersForAll controlPlaneDeploymentNames ["etcd"]
      c.Status.NamespaceName s.store
    let s1 : PassState σ :=
      { store := s.store
        trace := s.trace ++ [Event.getVerticalPodAutoscalersForAll controlPlaneDeploymentNames
          ["etcd"] c.Status.NamespaceName r.2] }
    match r.2 with
    | some err =>
      (some (fmtErrorf "failed to create the functions to handle VPA resources: " err), s1)
    | none =>
      let creators := if !cc.enableVPA then disableAll cc.rangeVarScope r.1 else r.1
      callReconcile cc (.VerticalPodAutoscalers creators c.Status.NamespaceName
        [.OwnerRefWrapper (cc.resources.GetClusterRef c)]) s1

/-- The method `cc.enqueueAfter`: the cluster is handed to the work queue again after the
given delay; the store is not touched. -/
def enqueueAfter {σ : Type} (cluster : Cluster) (duration : Duration) (s : PassState σ) :
    PassState σ :=
  { s with trace := s.trace ++ [Event.enqueueAfter cluster duration] }

/-- The method `ensureResourcesAreDeployed` (lines 32-96). -/
def ensureResourcesAreDeployed {σ : Type} (cc : Controller σ) (cluster : Cluster) : Step σ :=
  fun s =>
    match getClusterTemplateData cc cluster with
    | .error err => (some err, s)
    | .ok data =>
      (orReturn (if mapIndex cluster.Annotations "kubermatic.io/openshift" = "" then
                   ensureServices cc cluster data else fun s => (none, s)) <|
       orReturn (if mapIndex cluster.Annotations "kubermatic.io/openshift" = "" then
                   ensureSecrets cc cluster data else fun s => (none, s)) <|
       orReturn (ensureStatefulSets cc cluster data) <|
       fun s =>
         if !cluster.Status.Health.CloudProviderInfrastructure then
           (none, enqueueAfter cluster (1 * Second) s)
         else
           (orReturn (if mapIndex cluster.Annotations "kubermatic.io/openshift" = "" then
                        ensureConfigMaps cc cluster data else fun s => (none, s)) <|
            orReturn (ensureDeployments cc cluster data) <|
            orReturn (ensureCronJobs cc cluster data) <|
            orReturn (ensurePodDisruptionBudgets cc cluster data) <|
            orReturn (ensureVerticalPodAutoscalers cc cluster data) <|
            fun s => (none, s)) s) s

/-! ## Reading a trace -/

/-- The kind of a `Reconcile*` call; `none` for the other events. -/
def Event.kind? : Event → Option Kind
  | .reconcile call _ => some call.kind
  | _ => none

/-- The error an event returned; `none` when it returned nil (a requeue returns nothing). -/
def Event.err : Event → Option GoError
  | .reconcile _ err => err
  | .getVerticalPodAutoscalersForAll _ _ _ err => err
  | .enqueueAfter _ _ => none

/-- The kinds of the `Reconcile*` calls of a trace, in the order of the calls. -/
def reconcileKinds (trace : List Event) : List Kind :=
  trace.filterMap Event.kind?

/-- The requeues of a trace: cluster and delay, in the order of the calls. -/
def requeues (trace : List Event) : List (Cluster × Duration) :=
  trace.filterMap fun ev =>
    match ev with
    | .enqueueAfter cluster duration => some (cluster, duration)
    | _ => none

/-- The names the getters of a registry of autoscaler policies resolve to. -/
def getterNames (creators : List NamedVerticalPodAutoscalerCreatorGetter) : List String :=
  creators.map fun g => (g ()).1

/-! ## Runs of a plan of stages

The relations below describe what a stage and a sequence of stages append to the trace;
the pass is shown to be such a run, and the statements about a pass follow from it. -/

/-- The error a pass returns when the `Reconcile*` call of a stage fails with `e`: four of the
`ensure*` methods build a new error around the message, the others return `e` itself. -/
def surfaced : Kind → GoError → GoError
  | .Secrets, e => fmtErrorf "failed to ensure that the Secret exists: " e
  | .ConfigMaps, e => fmtErrorf "failed to ensure that the ConfigMap exists: " e
  | .PodDisruptionBudgets, e => fmtErrorf "failed to ensure that the PodDisruptionBudget exists: " e
  | .CronJobs, e => fmtErrorf "failed to ensure that the CronJobs exists: " e
  | _, e => e

/-- The store after the `Reconcile*` calls of a trace have been applied to it in order:
nothing else changes the store. -/
def replay {σ : Type} (cc : Controller σ) (trace : List Event) (store : σ) : σ :=
  trace.foldl (fun st ev =>
    match ev with
    | .reconcile call _ => (cc.resources.Reconcile call st).2
    | _ => st) store

/-- What one stage of kind `k` appends to the trace and returns, when every call it makes
satisfies `ok`. -/
inductive StageRun (ok : ReconcileCall → Prop) : Kind → List Event → Option GoError → Prop
  | reconciled (call : ReconcileCall) (r : Option GoError) (h : ok call) :
      StageRun ok call.kind [Event.reconcile call r] (r.map (surfaced call.kind))
  | requested (d s : List String) (n : String) (call : ReconcileCall) (r : Option GoError)
      (h : ok call) (hk : call.kind = Kind.VerticalPodAutoscalers) :
      StageRun ok Kind.VerticalPodAutoscalers
        [Event.getVerticalPodAutoscalersForAll d s n none, Event.reconcile call r] r
  | requestFailed (d s : List String) (n : String) (e e1 : GoError) :
      StageRun ok Kind.VerticalPodAutoscalers
        [Event.getVerticalPodAutoscalersForAll d s n (some e)] (some e1)

/-- What a sequence of stages appends to the trace and returns: the stages run in order, the
first error ends the run, and `tail` is what follows the last stage. -/
inductive PlanRun (ok : ReconcileCall → Prop) (tail : List Event) :
    List Kind → List Event → Option GoError → Prop
  | done : PlanRun ok tail [] tail none
  | abort (k : Kind) (ks : List Kind) (evs : List Event) (e : GoError)
      (h : StageRun ok k evs (some e)) : PlanRun ok tail (k :: ks) evs (some e)
  | next (k : Kind) (ks : List Kind) (evs evs2 : List Event) (res : Option GoError)
      (h : StageRun ok k evs none) (h2 : PlanRun ok tail ks evs2 res) :
      PlanRun ok tail (k :: ks) (evs ++ evs2) res

/-- A step appends events related to its result by `R`, and leaves the store as the replay of
these events. -/
def Runs {σ : Type} (cc : Controller σ) (f : Step σ)
    (R : List Event → Option GoError → Prop) : Prop :=
  ∀ s : PassState σ, ∃ evs, (f s).2.trace = s.trace ++ evs ∧
    (f s).2.store = replay cc evs s.store ∧ R evs (f s).1

/-- The arguments every `Reconcile*` call of a pass on `cluster` carries: the namespace of the
cluster and the owner-reference wrapper built from the reference of the cluster. -/
def ArgsOf {σ : Type} (cc : Controller σ) (cluster : Cluster) (call : ReconcileCall) : Prop :=
  call.namespaceArg = cluster.Status.NamespaceName ∧
  call.objectModifiers = [ObjectModifier.OwnerRefWrapper (cc.resources.GetClusterRef cluster)]

/-- The stages of a pass on `cluster`, in the order of `ensureResourcesAreDeployed`: eight
kinds, of which Services, Secrets and ConfigMaps are left out for a cluster whose
`kubermatic.io/openshift` annotation is not empty. -/
def stagePlan (cluster : Cluster) : List Kind :=
  if mapIndex cluster.Annotations "kubermatic.io/openshift" = "" then
    [.Services, .Secrets, .StatefulSets, .ConfigMaps, .Deployments, .CronJobs,
     .PodDisruptionBudgets, .VerticalPodAutoscalers]
  else
    [.StatefulSets, .Deployments, .CronJobs, .PodDisruptionBudgets, .VerticalPodAutoscalers]

/-- The stages that come before the gate on the cloud provider infrastructure. -/
def stagePlanBeforeGate (cluster : Cluster) : List Kind :=
  if mapIndex cluster.Annotations "kubermatic.io/openshift" = "" then
    [.Services, .Secrets, .StatefulSets]
  else
    [.StatefulSets]

/-- The names the getters handed to `ReconcileVerticalPodAutoscalers` resolve to, for every
such call of a trace. -/
def handedOverNames (trace : List Event) : List (List String) :=
  trace.filterMap fun ev =>
    match ev with
    | .reconcile (.VerticalPodAutoscalers creators _ _) _ => some (getterNames creators)
    | _ => none

/-! ## Fixtures: a controller, clusters and a store on which the pass can be run -/

/-- A getter of an autoscaler policy with the given name whose creator returns its input. -/
def exampleGetter (name : String) : NamedVerticalPodAutoscalerCreatorGetter :=
  fun _ => (name, fun vpa => .ret vpa none)

/-- A package `resources` over a store that counts the calls made: every call succeeds, the
getters asked for are one per name, and the owner reference is the controller reference of
the cluster. -/
def exampleResources : Resources Nat where
  Reconcile := fun _ st => (none, st + 1)
  GetVerticalPodAutoscalersForAll := fun d s _ _ => ((d ++ s).map exampleGetter, none)
  GetClusterRef := fun c =>
    { APIVersion := "kubermatic.k8s.io/v1", Kind := "Cluster", Name := c.Name, UID := c.UID,
      Controller := some true, BlockOwnerDeletion := some true }

/-- A controller that knows the datacenter `dc-1`; the autoscaler feature is switched off,
and range variables belong to the iteration. -/
def exampleController (resources : Resources Nat) : Controller Nat where
  resources := resources
  dcs := [("dc-1", { Location := "Hamburg", Seed := "seed-1", Country := "DE", IsSeed := false })]
  dc := "seed-1"
  overwriteRegistry := ""
  nodePortRange := "30000-32767"
  nodeAccessNetwork := "10.254.0.0/16"
  etcdDiskSize := "5Gi"
  monitoringScrapeAnnotationPrefix := "monitoring.kubermatic.io"
  inClusterPrometheusRulesFile := ""
  inClusterPrometheusDisableDefaultRules := false
  inClusterPrometheusDisableDefaultScrapingConfigs := false
  inClusterPrometheusScrapingConfigsFile := ""
  dockerPullConfigJSON := ""
  oidcCAFile := ""
  oidcIssuerURL := ""
  oidcIssuerClientID := ""
  enableEtcdDataCorruptionChecks := false
  enableVPA := false
  rangeVarScope := .perIteration

/-- A cluster in datacenter `dc-1` with the given annotations and infrastructure health. -/
def exampleCluster (annotations : List (String × String)) (ready : Bool) : Cluster where
  Name := "abcd"
  UID := "1234"
  Annotations := annotations
  Spec := { Cloud := { DatacenterName := "dc-1" },
            ClusterNetwork := { Services := { CIDRBlocks := ["10.10.10.0/24"] },
                                Pods := { CIDRBlocks := ["172.25.0.0/16"] } } }
  Status := { NamespaceName := "cluster-abcd", Health := { CloudProviderInfrastructure := ready } }

/-- A package `resources` like `exampleResources`, except that the `Reconcile*` call for
the kind `k` fails with the error `e` and leaves the store as it is. -/
def failingResources (k : Kind) (e : GoError) : Resources Nat where
  Reconcile := fun call st => if call.kind = k then (some e, st) else (none, st + 1)
  GetVerticalPodAutoscalersForAll := exampleResources.GetVerticalPodAutoscalersForAll
  GetClusterRef := exampleResources.GetClusterRef

/-- The template data `getClusterTemplateData` builds for a cluster of datacenter `dc-1`
under `exampleController`. -/
def exampleTemplateData (cluster : Cluster) : TemplateData where
  cluster := some cluster
  dc := some { Location := "Hamburg", Seed := "seed-1", Country := "DE", IsSeed := false }
  seedDC := "seed-1"
  overwriteRegistry := ""
  nodePortRange := "30000-32767"
  nodeAccessNetwork := "10.254.0.0/16"
  etcdDiskSize := "5Gi"
  monitoringScrapeAnnotationPrefix := "monitoring.kubermatic.io"
  inClusterPrometheusRulesFile := ""
  inClusterPrometheusDisableDefaultRules := false
  inClusterPrometheusDisableDefaultScrapingConfigs := false
  inClusterPrometheusScrapingConfigsFile := ""
  dockerPullConfigJSON := ""
  oidcCAFile := ""
  oidcIssuerURL := ""
  oidcIssuerClientID := ""
  enableEtcdDataCorruptionChecks := false

/-- An autoscaler policy for the etcd stateful set with update mode `Auto`. -/
def exampleVPA : VerticalPodAutoscaler where
  ObjectMeta := { Name := "etcd", Namespace := "cluster-abcd", Labels := [],
                  OwnerReferences := [] }
  Spec := { TargetRef := some { Kind := "StatefulSet", Name := "etcd", APIVersion := "apps/v1" },
            UpdatePolicy := some { UpdateMode := some UpdateMode.Auto },
            ResourcePolicy := none }
  Status := { Recommendation := [], Conditions := [] }

/-! ## Networks (Go package `net`)

The creators below call `net.ParseCIDR` and `IP.String` of the Go standard library.  Reading
the text of a CIDR block and printing an address that is not four bytes long are parameters
(`NetText`); what `ParseCIDR` does with the address and the prefix length it has read, and the
dotted form of a four-byte address, are written out. -/

/-- A `net.IPNet`: the address of a network and its mask, as slices of bytes. -/
structure IPNet where
  IP : List Nat
  Mask : List Nat
  deriving DecidableEq, Repr

/-- The parts of package `net` that deal with text.  `parse s` is what `net.ParseCIDR` reads
from `s`: the bytes of the address before the slash (four for a dotted IPv4 address, sixteen
for an IPv6 address) and the prefix length after it, or the `*net.ParseError` it returns.
`formatOther` is `IP.String` on a slice that is not four bytes long. -/
structure NetText where
  parse : String → Except GoError (List Nat × Nat)
  formatOther : List Nat → String

/-- The bytes of `net.CIDRMask(ones, 8*l)`: `l` bytes whose first `ones` bits are set. -/
def cidrMaskBytes : Nat → Nat → List Nat
  | 0, _ => []
  | l + 1, n =>
    if n ≥ 8 then 255 :: cidrMaskBytes l (n - 8)
    else (255 - 255 / 2 ^ n) :: cidrMaskBytes l 0

/-- The function `net.CIDRMask(ones, bits)` for `bits` a multiple of eight. -/
def CIDRMask (ones bits : Nat) : List Nat :=
  cidrMaskBytes (bits / 8) ones

/-- The method `IP.Mask` on an address and a mask of the same length: the bytes are
combined by a bitwise and. -/
def IP_Mask (ip mask : List Nat) : List Nat :=
  List.zipWith (fun a b => a &&& b) ip mask

/-- The second result and the error of `net.ParseCIDR(s)`: the network implied by the
address and the prefix length read from `s`. -/
def ParseCIDR (net : NetText) (s : String) : Except GoError IPNet :=
  match net.parse s with
  | .error err => .error err
  | .ok (ip, n) =>
    let m := CIDRMask n (8 * ip.length)
    .ok { IP := IP_Mask ip m, Mask := m }

/-- The method `IP.String`: the dotted decimal form of a four-byte slice. -/
def IP_String (net : NetText) (ip : List Nat) : String :=
  match ip with
  | [a, b, c, d] => toString a ++ "." ++ toString b ++ "." ++ toString c ++ "." ++ toString d
  | _ => net.formatOther ip

/-! ### The network of a block, as the claims word it

The definitions of this part do not follow the sources: they say by plain arithmetic on the
32-bit number of an IPv4 address what the network address and the netmask of a block are
(the first `n` bits of the mask are set, the host bits of the address are cleared), and are
compared with what `ParseCIDR` computes. -/

/-- The 32-bit number of the four bytes of an IPv4 address, most significant byte first. -/
def ipv4Value : List Nat → Nat
  | [a, b, c, d] => a * 2 ^ 24 + b * 2 ^ 16 + c * 2 ^ 8 + d
  | _ => 0

/-- The four bytes of a 32-bit number, most significant byte first. -/
def ipv4Bytes (v : Nat) : List Nat :=
  [v / 2 ^ 24 % 256, v / 2 ^ 16 % 256, v / 2 ^ 8 % 256, v % 256]

/-- The netmask of the prefix length `n`: the 32-bit number whose first `n` bits are set and
whose last `32 - n` bits are clear. -/
def specNetmask (n : Nat) : List Nat :=
  ipv4Bytes (2 ^ 32 - 2 ^ (32 - n))

/-- The network address of the block `ip/n`: the address with its last `32 - n` bits, the
host bits, cleared. -/
def specNetworkAddress (ip : List Nat) (n : Nat) : List Nat :=
  ipv4Bytes (ipv4Value ip - ipv4Value ip % 2 ^ (32 - n))

/-- The dotted decimal form of a list of bytes. -/
def dottedDecimal (bytes : List Nat) : String :=
  ".".intercalate (bytes.map toString)

/-! ## Objects built by the creators -/

/-- A `corev1.ConfigMap` (the value behind a non-nil pointer); a nil `Data` map is `none`. -/
structure ConfigMap where
  ObjectMeta : ObjectMeta
  Data : Option (List (String × String))
  BinaryData : Option (List (String × List Nat))
  deriving DecidableEq, Repr

/-- A `rbacv1.PolicyRule`. -/
structure PolicyRule where
  Verbs : List String
  APIGroups : List String
  Resources : List String
  ResourceNames : List String
  NonResourceURLs : List String
  deriving DecidableEq, Repr

/-- A `rbacv1.ClusterRole` (the value behind a non-nil pointer); the aggregation rule is kept
as the list of its label selectors. -/
structure ClusterRole where
  ObjectMeta : ObjectMeta
  Rules : List PolicyRule
  AggregationRule : Option (List (List (String × String)))
  deriving DecidableEq, Repr

/-- A `CustomResourceDefinitionNames`. -/
structure CustomResourceDefinitionNames where
  Plural : String
  Singular : String
  ShortNames : List String
  Kind : String
  ListKind : String
  Categories : List String
  deriving DecidableEq, Repr

/-- A `CustomResourceSubresourceScale`. -/
structure CustomResourceSubresourceScale where
  SpecReplicasPath : String
  StatusReplicasPath : String
  LabelSelectorPath : Option String
  deriving DecidableEq, Repr

/-- A `CustomResourceSubresources`; the status subresource is an empty struct. -/
structure CustomResourceSubresources where
  Status : Option Unit
  Scale : Option CustomResourceSubresourceScale
  deriving DecidableEq, Repr

/-- A `CustomResourceDefinitionSpec` of `apiextensions/v1beta1`; the validation schema, the
list of versions and the printer columns, which the creators do not touch, are kept as text. -/
structure CustomResourceDefinitionSpec where
  Group : String
  Version : String
  Names : CustomResourceDefinitionNames
  Scope : String
  Validation : Option String
  Subresources : Option CustomResourceSubresources
  Versions : List String
  AdditionalPrinterColumns : List String
  deriving DecidableEq, Repr

/-- A `CustomResourceDefinition` (the value behind a non-nil pointer); the status, which the
creators do not touch, is kept as its list of conditions. -/
structure CustomResourceDefinition where
  ObjectMeta : ObjectMeta
  Spec : CustomResourceDefinitionSpec
  Status : List (String × String)
  deriving DecidableEq, Repr

/-- The constant `apiextensionsv1beta1.NamespaceScoped`. -/
def NamespaceScoped : String := "Namespaced"

/-- The assignment `m[key] = value` on a Go `map[string]string`: the entry of `key` is
replaced where it stands, or added when the map has none. -/
def mapSet (m : List (String × String)) (key value : String) : List (String × String) :=
  match m with
  | [] => [(key, value)]
  | (k, v) :: rest => if k = key then (key, value) :: rest else (k, v) :: mapSet rest key value

/-- The constants and the function of the packages `resources`, `openvpn` and
`metricsserver` that the creators use and that are not part of the verified sources:
the names under which the objects are stored, the constant `name` of package `openvpn`, the
constant `Name` of package `metricsserver`, and `resources.BaseAppLabel` (its second
argument is the map of additional labels, nil is `none`). -/
structure ResourceConstants where
  OpenVPNClientConfigsConfigMapName : String
  MetricsServerClusterRoleName : String
  KubeletDnatControllerClusterRoleName : String
  MachineCRDName : String
  MachineSetCRDName : String
  MachineDeploymentCRDName : String
  ClusterCRDName : String
  openvpn_name : String
  metricsserver_Name : String
  BaseAppLabel : String → Option (List (String × String)) → List (String × String)

/-! ## Creators of the user cluster and of OpenVPN -/

/-- The accessor `data.NodeAccessNetwork()`. -/
def TemplateData.NodeAccessNetwork (data : TemplateData) : String := data.nodeAccessNetwork

/-- The type `resources.ConfigMapCreator`, `func(*ConfigMap) (*ConfigMap, error)`. -/
abbrev ConfigMapCreator := Option ConfigMap → GoResult ConfigMap

/-- The type `resources.ClusterRoleCreator`, `func(*ClusterRole) (*ClusterRole, error)`. -/
abbrev ClusterRoleCreator := Option ClusterRole → GoResult ClusterRole

/-- The type `resources.CustomResourceDefinitionCreator`. -/
abbrev CustomResourceDefinitionCreator :=
  Option CustomResourceDefinition → GoResult CustomResourceDefinition

/-- The call `fmt.Sprintf("iroute %s %s", n.IP.String(), net.IP(n.Mask).String())`. -/
def irouteLine (net : NetText) (n : IPNet) : String :=
  "iroute " ++ IP_String net n.IP ++ " " ++ IP_String net n.Mask

/-- The getter `openvpn.ServerClientConfigsConfigMapCreator` (configmap.go, lines 20-70):
the name of the ConfigMap and its creator.  The creator writes `cm.Labels` first, which needs
a non-nil `cm`, and reads `data.Cluster().Spec`, which needs a non-nil cluster. -/
def ServerClientConfigsConfigMapCreator (consts : ResourceConstants) (net : NetText)
    (data : TemplateData) : Unit → String × ConfigMapCreator :=
  fun _ =>
    (consts.OpenVPNClientConfigsConfigMapName, fun cm =>
      match cm with
      | none => .nilDeref
      | some cm =>
        let cm : ConfigMap := { cm with ObjectMeta := { cm.ObjectMeta with
          Labels := consts.BaseAppLabel consts.openvpn_name none } }
        let iroutes : List String := []
        -- iroute for pod network
        match data.Cluster with
        | none => .nilDeref
        | some cluster =>
          if cluster.Spec.ClusterNetwork.Pods.CIDRBlocks.length < 1 then
            .ret none (some (.errorString
              "cluster.Spec.ClusterNetwork.Pods.CIDRBlocks must contain at least one entry"))
          else
            match ParseCIDR net (cluster.Spec.ClusterNetwork.Pods.CIDRBlocks.headD "") with
            | .error err => .ret none (some err)
            | .ok podNet =>
              let iroutes := iroutes ++ [irouteLine net podNet]
              -- iroute for service network
              if cluster.Spec.ClusterNetwork.Services.CIDRBlocks.length < 1 then
                .ret none (some (.errorString
                  "cluster.Spec.ClusterNetwork.Services.CIDRBlocks must contain at least one entry"))
              else
                match ParseCIDR net
                    (cluster.Spec.ClusterNetwork.Services.CIDRBlocks.headD "") with
                | .error err => .ret none (some err)
                | .ok serviceNet =>
                  let iroutes := iroutes ++ [irouteLine net serviceNet]
                  match ParseCIDR net data.NodeAccessNetwork with
                  | .error err =>
                    .ret none (some (fmtErrorf ("failed to parse node access network " ++
                      data.NodeAccessNetwork ++ ": ") err))
                  | .ok nodeAccessNetwork =>
                    let iroutes := iroutes ++ [irouteLine net nodeAccessNetwork]
                    let cmData : List (String × String) :=
                      match cm.Data with
                      | none => []
                      | some d => d
                    -- trailing newline
                    let iroutes := iroutes ++ [""]
                    .ret (some { cm with
                      Data := some (mapSet cmData "user-cluster-client"
                        (String.intercalate "\n" iroutes)) }) none)

/-- The getter `dnatcontroller.ClusterRoleCreator` (dnat-controller/clusterrole.go,
lines 10-23). -/
def dnatcontroller_ClusterRoleCreator (consts : ResourceConstants) :
    Unit → String × ClusterRoleCreator :=
  fun _ =>
    (consts.KubeletDnatControllerClusterRoleName, fun cr =>
      match cr with
      | none => .nilDeref
      | some cr =>
        .ret (some { cr with
          Rules := [
            { APIGroups := [""],
              Resources := ["nodes"],
              Verbs := ["list", "get", "watch"],
              ResourceNames := [], NonResourceURLs := [] } ] }) none)

/-- The getter `metricsserver.ClusterRoleCreator` (metrics-server/clusterrole.go,
lines 10-41). -/
def metricsserver_ClusterRoleCreator (consts : ResourceConstants) :
    Unit → String × ClusterRoleCreator :=
  fun _ =>
    (consts.MetricsServerClusterRoleName, fun cr =>
      match cr with
      | none => .nilDeref
      | some cr =>
        let cr : ClusterRole := { cr with ObjectMeta := { cr.ObjectMeta with
          Labels := consts.BaseAppLabel consts.metricsserver_Name none } }
        .ret (some { cr with
          Rules := [
            { APIGroups := [""],
              Resources := ["pods", "nodes", "nodes/stats", "namespaces"],
              Verbs := ["get", "list", "watch"],
              ResourceNames := [], NonResourceURLs := [] },
            { APIGroups := ["extensions"],
              Resources := ["deployments"],
              Verbs := ["get", "list", "watch"],
              ResourceNames := [], NonResourceURLs := [] } ] }) none)

/-- The constant `clusterAPIGroup` of crds.go. -/
def clusterAPIGroup : String := "cluster.k8s.io"

/-- The constant `clusterAPIVersion` of crds.go. -/
def clusterAPIVersion : String := "v1alpha1"

/-- The getter `machinecontroller.MachineCRDCreator` (crds.go, lines 16-33). -/
def MachineCRDCreator (consts : ResourceConstants) :
    Unit → String × CustomResourceDefinitionCreator :=
  fun _ =>
    (consts.MachineCRDName, fun crd =>
      match crd with
      | none => .nilDeref
      | some crd =>
        .ret (some { crd with Spec := { crd.Spec with
          Group := clusterAPIGroup
          Version := clusterAPIVersion
          Scope := NamespaceScoped
          Names := { crd.Spec.Names with
            Kind := "Machine"
            ListKind := "MachineList"
            Plural := "machines"
            Singular := "machine"
            ShortNames := ["ma"] } } }) none)

/-- The getter `machinecontroller.MachineSetCRDCreator` (crds.go, lines 36-53). -/
def MachineSetCRDCreator (consts : ResourceConstants) :
    Unit → String × CustomResourceDefinitionCreator :=
  fun _ =>
    (consts.MachineSetCRDName, fun crd =>
      match crd with
      | none => .nilDeref
      | some crd =>
        .ret (some { crd with Spec := { crd.Spec with
          Group := clusterAPIGroup
          Version := clusterAPIVersion
          Scope := NamespaceScoped
          Names := { crd.Spec.Names with
            Kind := "MachineSet"
            ListKind := "MachineSetList"
            Plural := "machinesets"
            Singular := "machineset"
            ShortNames := ["ms"] }
          Subresources := some { Status := some (), Scale := none } } }) none)

/-- The getter `machinecontroller.MachineDeploymentCRDCreator` (crds.go, lines 56-73). -/
def MachineDeploymentCRDCreator (consts : ResourceConstants) :
    Unit → String × CustomResourceDefinitionCreator :=
  fun _ =>
    (consts.MachineDeploymentCRDName, fun crd =>
      match crd with
      | none => .nilDeref
      | some crd =>
        .ret (some { crd with Spec := { crd.Spec with
          Group := clusterAPIGroup
          Version := clusterAPIVersion
          Scope := NamespaceScoped
          Names := { crd.Spec.Names with
            Kind := "MachineDeployment"
            ListKind := "MachineDeploymentList"
            Plural := "machinedeployments"
            Singular := "machinedeployment"
            ShortNames := ["md"] }
          Subresources := some { Status := some (), Scale := none } } }) none)

/-- The getter `machinecontroller.ClusterCRDCreator` (crds.go, lines 76-93). -/
def ClusterCRDCreator (consts : ResourceConstants) :
    Unit → String × CustomResourceDefinitionCreator :=
  fun _ =>
    (consts.ClusterCRDName, fun crd =>
      match crd with
      | none => .nilDeref
      | some crd =>
        .ret (some { crd with Spec := { crd.Spec with
          Group := clusterAPIGroup
          Version := clusterAPIVersion
          Scope := NamespaceScoped
          Names := { crd.Spec.Names with
            Kind := "Cluster"
            ListKind := "ClusterList"
            Plural := "clusters"
            Singular := "cluster"
            ShortNames := ["cl"] }
          Subresources := some { Status := some (), Scale := none } } }) none)

/-! ## The namespace of a cluster -/

/-- A `corev1.Namespace` (the value behind a non-nil pointer). -/
structure Namespace where
  ObjectMeta : ObjectMeta
  deriving DecidableEq, Repr

/-- A `PatchCurrentUserSettingsParams`: the patch body, the timeout, the context and the HTTP
client (nil is `none`). -/
structure PatchCurrentUserSettingsParams where
  Patch : String
  timeout : Int
  Context : Option String
  HTTPClient : Option String
  deriving DecidableEq, Repr

/-- A `runtime.ClientOperation` as `PatchCurrentUserSettings` builds it; the reader is a
`PatchCurrentUserSettingsReader` and is given by the formats it holds. -/
structure ClientOperation where
  ID : String
  Method : String
  PathPattern : String
  ProducesMediaTypes : List String
  ConsumesMediaTypes : List String
  Schemes : List String
  Params : PatchCurrentUserSettingsParams
  Reader : String
  AuthInfo : Option String
  Context : Option String
  Client : Option String
  deriving DecidableEq, Repr

/-- The first result of `transport.Submit`, an `interface{}`: a
`*PatchCurrentUserSettingsOK` with its payload, or a value of another type. -/
inductive SubmitValue where
  | patchCurrentUserSettingsOK (payload : String)
  | other (typeName : String)
  deriving DecidableEq, Repr

/-- A `settings.Client` over a transport of state `τ`: the method `Submit` of the transport,
the formats, and the result of `NewPatchCurrentUserSettingsParams()`, which is defined in
another file of the package. -/
structure SettingsClient (τ : Type) where
  transport_Submit : ClientOperation → τ → (Option SubmitValue × Option GoError) × τ
  formats : String
  NewPatchCurrentUserSettingsParams : PatchCurrentUserSettingsParams

/-- What a call of `PatchCurrentUserSettings` ends in: it returns a result (the payload of
the `*PatchCurrentUserSettingsOK`, nil is `none`) and an error, or the type assertion on the
result of the transport fails at run time. -/
inductive SettingsOutcome where
  | ret (ok : Option String) (err : Option GoError)
  | typeAssertionFailed
  deriving DecidableEq, Repr

/-- The state of the transport and the operations submitted to it so far. -/
structure TransportState (τ : Type) where
  transport : τ
  submitted : List ClientOperation

/-- The method `Client.PatchCurrentUserSettings` (settings_client.go, lines 30-54). -/
def PatchCurrentUserSettings {τ : Type} (a : SettingsClient τ)
    (params : Option PatchCurrentUserSettingsParams) (authInfo : Option String)
    (s : TransportState τ) : SettingsOutcome × TransportState τ :=
  let params : PatchCurrentUserSettingsParams :=
    match params with
    | none => a.NewPatchCurrentUserSettingsParams
    | some p => p
  let op : ClientOperation :=
    { ID := "patchCurrentUserSettings",
      Method := "GET",
      PathPattern := "/api/v1/me",
      ProducesMediaTypes := ["application/json"],
      ConsumesMediaTypes := ["application/json"],
      Schemes := ["https"],
      Params := params,
      Reader := a.formats,
      AuthInfo := authInfo,
      Context := params.Context,
      Client := params.HTTPClient }
  let r := a.transport_Submit op s.transport
  let s1 : TransportState τ := { transport := r.2, submitted := s.submitted ++ [op] }
  match r.1.2 with
  | some err => (.ret none (some err), s1)
  | none =>
    match r.1.1 with
    | some (.patchCurrentUserSettingsOK payload) => (.ret (some payload) none, s1)
    | _ => (.typeAssertionFailed, s1)

/-! ## Kubeconfigs (package `resources`, file kubeconfig.go)

The function `GetInternalKubeconfigCreator` is not among the sources: only its test
(kubeconfig_test.go) is.  It is modelled below from what the design document says of a
creator of a secret and from the way the test calls it; the generation of a kubeconfig is a
parameter.  The function `getBaseKubeconfig` is not among the sources either, and the design
document does not describe it: it is not modelled. -/

/-- An `x509.Certificate`, given by its DER bytes (`Raw`). -/
structure Certificate where
  Raw : List Nat
  deriving DecidableEq, Repr

/-- A `triple.KeyPair`: a certificate and its private key. -/
structure KeyPair where
  Cert : Certificate
  Key : List Nat
  deriving DecidableEq, Repr

/-- A `corev1.Secret` (the value behind a non-nil pointer); a nil `Data` map is `none`. -/
structure Secret where
  ObjectMeta : ObjectMeta
  Data : Option (List (String × List Nat))
  deriving DecidableEq, Repr

/-- The assignment `m[key] = value` on a Go `map[string][]byte`. -/
def mapSetBytes (m : List (String × List Nat)) (key : String) (value : List Nat) :
    List (String × List Nat) :=
  match m with
  | [] => [(key, value)]
  | (k, v) :: rest =>
    if k = key then (key, value) :: rest else (k, v) :: mapSetBytes rest key value

/-- The data provider handed to the creator of an internal kubeconfig, as the test
implements it by `fakeDataProvider`: the root CA, the URL of the API server inside the
cluster, the name of the cluster and its owner reference. -/
structure SecretDataProvider where
  GetRootCA : Except GoError KeyPair
  InClusterApiserverURL : Except GoError String
  ClusterName : String
  GetClusterRef : OwnerReference

/-- What the model of the creator takes from kubeconfig.go, which is not among the sources:
the constant `KubeconfigSecretKey`, the key of the payload in the secret, and the generation
of a new kubeconfig for a data provider, a common name and a list of organisations
(`random` is what the generation of the key and the certificate reads from the random
source; it may fail). -/
structure KubeconfigHelpers where
  KubeconfigSecretKey : String
  generateKubeconfig : SecretDataProvider → String → List String → List Nat →
    Except GoError (List Nat)

/-- Modelled from the spec: `GetInternalKubeconfigCreator` is missing from the sources.  The
design document says of a creator that it receives the stored object, or none, and returns
the desired object or an error, and of the creator of such a secret that key and
certificate material is stable: it is not generated again on every pass.  The test calls
`GetInternalKubeconfigCreator(name, commonName, organizations)` with the data provider and a
secret that may be nil.  The model: a payload found under the kubeconfig key of the stored
secret is kept and the secret is returned as it is; when there is none, a kubeconfig is
generated and stored under that key, and an error of the generation is returned.  What the
creator does with `name` is not described; the model leaves the metadata alone.  `random`
stands for the random source read during the call. -/
def GetInternalKubeconfigCreator (helpers : KubeconfigHelpers) (name commonName : String)
    (organizations : List String) (data : SecretDataProvider) (se : Option Secret)
    (random : List Nat) : GoResult Secret :=
  let se : Secret :=
    match se with
    | none => { ObjectMeta := { Name := "", Namespace := "", Labels := [],
                                OwnerReferences := [] }, Data := none }
    | some se => se
  let seData : List (String × List Nat) :=
    match se.Data with
    | none => []
    | some d => d
  match seData.lookup helpers.KubeconfigSecretKey with
  | some _ => .ret (some se) none
  | none =>
    match helpers.generateKubeconfig data commonName organizations random with
    | .error err => .ret none (some err)
    | .ok fresh =>
      .ret (some { se with
        Data := some (mapSetBytes seData helpers.KubeconfigSecretKey fresh) }) none

/-- The payload of a secret: `Data[KubeconfigSecretKey]`, empty when the key is missing. -/
def kubeconfigPayload (helpers : KubeconfigHelpers) (se : Secret) : List Nat :=
  ((se.Data.getD []).lookup helpers.KubeconfigSecretKey).getD []

/-! ## Fixtures for the creators -/

/-- The value of a decimal digit. -/
def digitValue (c : Char) : Option Nat :=
  if c.isDigit then some (c.toNat - 48) else none

/-- The number written by a list of decimal digits, read after `acc`. -/
def readDigits (acc : Nat) : List Char → Option Nat
  | [] => some acc
  | c :: cs =>
    match digitValue c with
    | none => none
    | some d => readDigits (10 * acc + d) cs

/-- The number written by a non-empty list of decimal digits. -/
def readDecimal (cs : List Char) : Option Nat :=
  match cs with
  | [] => none
  | _ => readDigits 0 cs

/-- The pieces of a text between the occurrences of a separator. -/
def splitAtChar (sep : Char) : List Char → List (List Char)
  | [] => [[]]
  | c :: cs =>
    if c = sep then [] :: splitAtChar sep cs
    else
      match splitAtChar sep cs with
      | [] => [[c]]
      | w :: ws => (c :: w) :: ws

/-- A reader of CIDR blocks written as a dotted IPv4 address, a slash and a prefix length of at
most 32; any other text is refused with a parse error. -/
def exampleParse (s : String) : Except GoError (List Nat × Nat) :=
  match splitAtChar '/' s.data with
  | [addr, len] =>
    match (splitAtChar '.' addr).map readDecimal, readDecimal len with
    | [some a, some b, some c, some d], some n =>
      if a ≤ 255 ∧ b ≤ 255 ∧ c ≤ 255 ∧ d ≤ 255 ∧ n ≤ 32 then .ok ([a, b, c, d], n)
      else .error (.errorString ("invalid CIDR address: " ++ s))
    | _, _ => .error (.errorString ("invalid CIDR address: " ++ s))
  | _ => .error (.errorString ("invalid CIDR address: " ++ s))

/-- The text side of package `net` restricted to IPv4. -/
def exampleNet : NetText where
  parse := exampleParse
  formatOther := fun _ => "?"

/-- The constants of the repository as the creators see them. -/
def exampleConstants : ResourceConstants where
  OpenVPNClientConfigsConfigMapName := "openvpn-client-configs"
  MetricsServerClusterRoleName := "system:metrics-server"
  KubeletDnatControllerClusterRoleName := "system:kubermatic-kubeletdnat-controller"
  MachineCRDName := "machines.cluster.k8s.io"
  MachineSetCRDName := "machinesets.cluster.k8s.io"
  MachineDeploymentCRDName := "machinedeployments.cluster.k8s.io"
  ClusterCRDName := "clusters.cluster.k8s.io"
  openvpn_name := "openvpn-server"
  metricsserver_Name := "metrics-server"
  BaseAppLabel := fun name additional =>
    match additional with
    | none => [("app", name)]
    | some more => ("app", name) :: more

/-- An object metadata with a name only. -/
def exampleMeta (name : String) : ObjectMeta :=
  { Name := name, Namespace := "", Labels := [], OwnerReferences := [] }

/-- A stored ConfigMap with two entries, one of them an outdated client configuration. -/
def exampleConfigMap : ConfigMap where
  ObjectMeta := exampleMeta "openvpn-client-configs"
  Data := some [("user-cluster-client", "iroute 10.0.0.0 255.0.0.0\n"), ("other", "kept")]
  BinaryData := none

/-- An empty ClusterRole that holds a rule granting every verb. -/
def exampleClusterRole : ClusterRole where
  ObjectMeta := exampleMeta "role"
  Rules := [{ Verbs := ["*"], APIGroups := ["*"], Resources := ["*"], ResourceNames := [],
              NonResourceURLs := [] }]
  AggregationRule := none

/-- An empty CustomResourceDefinition. -/
def exampleCRD : CustomResourceDefinition where
  ObjectMeta := exampleMeta "crd"
  Spec := { Group := "", Version := "", Scope := "", Validation := none, Subresources := none,
            Versions := [], AdditionalPrinterColumns := [],
            Names := { Plural := "", Singular := "", ShortNames := [], Kind := "",
                       ListKind := "", Categories := [] } }
  Status := []

/-- A cluster like `exampleCluster` with the given CIDR blocks of pods and services. -/
def exampleNetworkCluster (pods services : List String) : Cluster :=
  { exampleCluster [] true with
    Spec := { Cloud := { DatacenterName := "dc-1" },
              ClusterNetwork := { Services := { CIDRBlocks := services },
                                  Pods := { CIDRBlocks := pods } } } }

/-- The template data of a cluster whose pod blocks are `10.1.2.3/16` and a second block
that is not a CIDR block, and whose only service block is `10.10.10.0/24`; the node access
network is `10.254.0.0/16`. -/
def exampleNetworkData : TemplateData :=
  exampleTemplateData (exampleNetworkCluster ["10.1.2.3/16", "not a block"] ["10.10.10.0/24"])

/-- The ConfigMap the OpenVPN creator returns for `exampleNetworkData` on
`exampleConfigMap`. -/
def exampleConfigMapResult : ConfigMap where
  ObjectMeta := { Name := "openvpn-client-configs", Namespace := "",
                  Labels := [("app", "openvpn-server")], OwnerReferences := [] }
  Data := some [("user-cluster-client",
                 "iroute 10.1.0.0 255.255.0.0\niroute 10.10.10.0 255.255.255.0\niroute 10.254.0.0 255.255.0.0\n"),
                ("other", "kept")]
  BinaryData := none

/-- Template data of a cluster whose first pod block and first service block have prefix
lengths that do not end on a byte and whose addresses have host bits set; so has the node
access network, `172.31.203.9/21`. -/
def exampleOddNetworkData : TemplateData :=
  { exampleTemplateData (exampleNetworkCluster ["192.168.77.5/13", "not a block"]
      ["10.10.10.77/27"]) with
    nodeAccessNetwork := "172.31.203.9/21" }

/-- The ConfigMap the OpenVPN creator returns for `exampleOddNetworkData` on
`exampleConfigMap`. -/
def exampleOddConfigMapResult : ConfigMap where
  ObjectMeta := { Name := "openvpn-client-configs", Namespace := "",
                  Labels := [("app", "openvpn-server")], OwnerReferences := [] }
  Data := some [("user-cluster-client",
                 "iroute 192.168.0.0 255.248.0.0\niroute 10.10.10.64 255.255.255.224\niroute 172.31.200.0 255.255.248.0\n"),
                ("other", "kept")]
  BinaryData := none

/-- A package `resources` like `exampleResources`, except that building the getters of the
autoscaler policies fails with the error `e`. -/
def failingGetterResources (e : GoError) : Resources Nat where
  Reconcile := exampleResources.Reconcile
  GetVerticalPodAutoscalersForAll := fun _ _ _ _ => ([], some e)
  GetClusterRef := exampleResources.GetClusterRef

/-- A settings client whose transport counts the operations and answers each with the
given result. -/
def exampleSettingsClient (answer : Option SubmitValue × Option GoError) :
    SettingsClient Nat where
  transport_Submit := fun _ t => (answer, t + 1)
  formats := "default"
  NewPatchCurrentUserSettingsParams :=
    { Patch := "", timeout := 30000000000, Context := none, HTTPClient := none }

/-- A root CA. -/
def exampleCA : KeyPair :=
  { Cert := { Raw := [48, 130, 5, 120] }, Key := [1, 2, 3] }

/-- A stand-in for the generation of a kubeconfig: the bytes of the certificate of the root
CA followed by the bytes read from the random source, of which at least one is needed. -/
def exampleKubeconfigHelpers : KubeconfigHelpers where
  KubeconfigSecretKey := "kubeconfig"
  generateKubeconfig := fun data _ _ random =>
    match data.GetRootCA, random with
    | .error err, _ => .error err
    | .ok _, [] => .error (.errorString "no random bytes")
    | .ok ca, r :: rs => .ok (ca.Cert.Raw ++ r :: rs)

/-- The data provider of the test: the root CA, an empty URL, an empty cluster and an empty
owner reference. -/
def fakeDataProvider (caPair : KeyPair) : SecretDataProvider where
  GetRootCA := .ok caPair
  InClusterApiserverURL := .ok ""
  ClusterName := ""
  GetClusterRef := { APIVersion := "", Kind := "", Name := "", UID := "",
                     Controller := none, BlockOwnerDeletion := none }

/-- The secret the modelled creator returns for `fakeDataProvider exampleCA` on an absent
secret when it reads the random bytes 7, 7. -/
def exampleSecret : Secret where
  ObjectMeta := { Name := "", Namespace := "", Labels := [], OwnerReferences := [] }
  Data := some [("kubeconfig", [48, 130, 5, 120, 7, 7])]

/-! ## The Kubermatic API of the master cluster (package `kubermatic`, file api.go)

The file api.go builds the Deployment, the PodDisruptionBudget and the Service of the
Kubermatic API.  The configuration type `operatorv1alpha1.KubermaticConfiguration`, the
name constants of the package and its helpers `featureGates`, `dockerImage` and
`mergeServicePort` are declared in files that are not part of the verified sources: the
configuration is modelled by the fields that api.go reads, the constants and the helpers
are parameters.  The helper `i32ptr(n)` returns a pointer to `n`, which is `some n`. -/

/-- An `intstr.IntOrString`: an integer or a string. -/
inductive IntOrString where
  | int (IntVal : Int)
  | str (StrVal : String)
  deriving DecidableEq, Repr

/-- The function `intstr.FromInt`. -/
def intstr_FromInt (val : Int) : IntOrString := .int val

/-- A `metav1.LabelSelector`; the requirements of `MatchExpressions` are kept as text. -/
structure LabelSelector where
  MatchLabels : List (String × String)
  MatchExpressions : List String
  deriving DecidableEq, Repr

/-- A `corev1.HTTPGetAction`. -/
structure HTTPGetAction where
  Path : String
  Port : IntOrString
  Host : String
  Scheme : String
  deriving DecidableEq, Repr

/-- A `corev1.Probe`; of the embedded `Handler` the member `HTTPGet` is kept. -/
structure Probe where
  HTTPGet : Option HTTPGetAction
  InitialDelaySeconds : Int
  TimeoutSeconds : Int
  PeriodSeconds : Int
  SuccessThreshold : Int
  FailureThreshold : Int
  deriving DecidableEq, Repr

/-- A `corev1.SecretVolumeSource`. -/
structure SecretVolumeSource where
  SecretName : String
  DefaultMode : Option Int
  deriving DecidableEq, Repr

/-- A `corev1.Volume`; of the embedded `VolumeSource` the member `Secret` is kept. -/
structure Volume where
  Name : String
  Secret : Option SecretVolumeSource
  deriving DecidableEq, Repr

/-- A `corev1.VolumeMount`. -/
structure VolumeMount where
  Name : String
  ReadOnly : Bool
  MountPath : String
  SubPath : String
  deriving DecidableEq, Repr

/-- A `corev1.ContainerPort`. -/
structure ContainerPort where
  Name : String
  ContainerPort : Int
  Protocol : String
  deriving DecidableEq, Repr

/-- A `corev1.ResourceRequirements`: resource name to quantity, the quantity kept as the
text handed to `resource.MustParse`. -/
structure ResourceRequirements where
  Limits : List (String × String)
  Requests : List (String × String)
  deriving DecidableEq, Repr

/-- A `corev1.Container` (the fields written by api.go). -/
structure Container where
  Name : String
  Image : String
  Command : List String
  Args : List String
  Ports : List ContainerPort
  Resources : ResourceRequirements
  VolumeMounts : List VolumeMount
  ReadinessProbe : Option Probe
  TerminationMessagePath : String
  TerminationMessagePolicy : String
  ImagePullPolicy : String
  deriving DecidableEq, Repr

/-- A `corev1.LocalObjectReference`. -/
structure LocalObjectReference where
  Name : String
  deriving DecidableEq, Repr

/-- A `corev1.PodSpec`: the fields written by api.go, and two that it leaves alone. -/
structure PodSpec where
  Volumes : List Volume
  Containers : List Container
  RestartPolicy : String
  NodeSelector : List (String × String)
  ServiceAccountName : String
  ImagePullSecrets : List LocalObjectReference
  deriving DecidableEq, Repr

/-- A `corev1.PodTemplateSpec`; `Labels` and `Annotations` are the fields of its embedded
`ObjectMeta` that api.go writes (as `d.Spec.Template.Labels`). -/
structure PodTemplateSpec where
  Labels : List (String × String)
  Annotations : List (String × String)
  Spec : PodSpec
  deriving DecidableEq, Repr

/-- An `appsv1.DeploymentSpec`; `Replicas` and `Selector` are pointers. -/
structure DeploymentSpec where
  Replicas : Option Int
  Selector : Option LabelSelector
  Template : PodTemplateSpec
  MinReadySeconds : Int
  deriving DecidableEq, Repr

/-- An `appsv1.DeploymentStatus` (two of its counters). -/
structure DeploymentStatus where
  Replicas : Int
  ReadyReplicas : Int
  deriving DecidableEq, Repr

/-- An `appsv1.Deployment`. -/
structure Deployment where
  ObjectMeta : ObjectMeta
  Spec : DeploymentSpec
  Status : DeploymentStatus
  deriving DecidableEq, Repr

/-- A `policyv1beta1.PodDisruptionBudgetSpec`; the three fields are pointers. -/
structure PodDisruptionBudgetSpec where
  MinAvailable : Option IntOrString
  Selector : Option LabelSelector
  MaxUnavailable : Option IntOrString
  deriving DecidableEq, Repr

/-- A `policyv1beta1.PodDisruptionBudget`. -/
structure PodDisruptionBudget where
  ObjectMeta : ObjectMeta
  Spec : PodDisruptionBudgetSpec
  deriving DecidableEq, Repr

/-- A `corev1.ServicePort`. -/
structure ServicePort where
  Name : String
  Protocol : String
  Port : Int
  TargetPort : IntOrString
  NodePort : Int
  deriving DecidableEq, Repr

/-- A `corev1.ServiceSpec`; the field `Type` of the source is `Type_` here. -/
structure ServiceSpec where
  Ports : List ServicePort
  Selector : List (String × String)
  ClusterIP : String
  Type_ : String
  deriving DecidableEq, Repr

/-- A `corev1.Service`. -/
structure Service where
  ObjectMeta : ObjectMeta
  Spec : ServiceSpec
  deriving DecidableEq, Repr

/-- The constant `corev1.URISchemeHTTP`. -/
def URISchemeHTTP : String := "HTTP"

/-- The constant `corev1.ProtocolTCP`. -/
def ProtocolTCP : String := "TCP"

/-- The constant `corev1.ResourceCPU`. -/
def ResourceCPU : String := "cpu"

/-- The constant `corev1.ResourceMemory`. -/
def ResourceMemory : String := "memory"

/-- The constant `corev1.TerminationMessageReadFile`. -/
def TerminationMessageReadFile : String := "File"

/-- The constant `corev1.ServiceTypeNodePort`. -/
def ServiceTypeNodePort : String := "NodePort"

/-- The field `cfg.Spec.Auth`, with the members read by api.go. -/
structure KubermaticAuthConfiguration where
  ClientID : String
  TokenIssuer : String
  IssuerRedirectURL : String
  IssuerClientID : String
  IssuerClientSecret : String
  IssuerCookieKey : String
  ServiceAccountKey : String
  SkipTokenIssuerTLSVerify : Bool
  deriving DecidableEq, Repr

/-- The field `cfg.Spec.API.Image`: api.go reads `PullPolicy` and hands the whole value to
`dockerImage`; what only `dockerImage` reads is kept as one text, `Reference`. -/
structure KubermaticImage where
  Reference : String
  PullPolicy : String
  deriving DecidableEq, Repr

/-- The field `cfg.Spec.API`. -/
structure KubermaticAPIConfiguration where
  Image : KubermaticImage
  deriving DecidableEq, Repr

/-- The field `cfg.Spec.UI`. -/
structure KubermaticUIConfiguration where
  Presets : String
  deriving DecidableEq, Repr

/-- The field `cfg.Spec` with the members read by api.go: `FeatureGates` is a
`map[string]bool`, `MasterFiles` a map of file name to content, `ExposeStrategy` a type
whose underlying type is string. -/
structure KubermaticConfigurationSpec where
  Domain : String
  Auth : KubermaticAuthConfiguration
  FeatureGates : List (String × Bool)
  UI : KubermaticUIConfiguration
  API : KubermaticAPIConfiguration
  ExposeStrategy : String
  MasterFiles : List (String × String)
  Datacenters : String
  deriving DecidableEq, Repr

/-- An `operatorv1alpha1.KubermaticConfiguration`. -/
structure KubermaticConfiguration where
  ObjectMeta : ObjectMeta
  Spec : KubermaticConfigurationSpec
  deriving DecidableEq, Repr

/-- The declarations of package `kubermatic` that api.go uses and that are not part of the
verified sources: the label keys, the object and secret names, and the helpers
`featureGates`, `dockerImage` and `mergeServicePort`. -/
structure KubermaticPackage where
  nameLabel : String
  versionLabel : String
  apiDeploymentName : String
  apiServiceName : String
  serviceAccountName : String
  dockercfgSecretName : String
  kubeconfigSecretName : String
  masterFilesSecretName : String
  presetsSecretName : String
  datacentersSecretName : String
  featureGates : KubermaticConfiguration → String
  dockerImage : KubermaticImage → String
  mergeServicePort : List ServicePort → ServicePort → List ServicePort

/-- The type `reconciling.DeploymentCreator`, `func(*Deployment) (*Deployment, error)`. -/
abbrev DeploymentCreator := Option Deployment → GoResult Deployment

/-- The type `reconciling.PodDisruptionBudgetCreator`. -/
abbrev PodDisruptionBudgetCreator := Option PodDisruptionBudget → GoResult PodDisruptionBudget

/-- The type `reconciling.ServiceCreator`, `func(*Service) (*Service, error)`. -/
abbrev ServiceCreator := Option Service → GoResult Service

/-- Indexing a Go `map[string]bool`: `false` for a missing key. -/
def mapIndexBool (m : List (String × Bool)) (key : String) : Bool :=
  (m.lookup key).getD false

/-- The verb `%v` of `fmt.Sprintf` on a bool. -/
def sprintBool (b : Bool) : String := if b then "true" else "false"

/-- The function `apiPodLabels` (api.go, lines 16-21). -/
def apiPodLabels (pkg : KubermaticPackage) : List (String × String) :=
  [(pkg.nameLabel, "kubermatic-api"), (pkg.versionLabel, "v1")]

/-- The getter `APIDeploymentCreator` (api.go, lines 23-214): the name of the Deployment and
its creator.  The creator writes `d.Spec.Replicas` first, which needs a non-nil `d`, and
then reads `cfg.Spec`, which needs a non-nil `cfg`. -/
def APIDeploymentCreator (pkg : KubermaticPackage) (ns : String)
    (cfg : Option KubermaticConfiguration) : Unit → String × DeploymentCreator :=
  fun _ =>
    (pkg.apiDeploymentName, fun d =>
      let probe : Probe :=
        { InitialDelaySeconds := 3
          TimeoutSeconds := 2
          PeriodSeconds := 10
          SuccessThreshold := 1
          FailureThreshold := 3
          HTTPGet := some
            { Path := "/api/v1/healthz"
              Scheme := URISchemeHTTP
              Port := intstr_FromInt 8080
              Host := "" } }
      let specLabels := apiPodLabels pkg
      match d with
      | none => .nilDeref
      | some d =>
        let d : Deployment := { d with Spec := { d.Spec with Replicas := some 2 } }
        let d : Deployment := { d with Spec := { d.Spec with
          Selector := some { MatchLabels := specLabels, MatchExpressions := [] } } }
        let d : Deployment := { d with Spec := { d.Spec with Template := { d.Spec.Template with
          Labels := specLabels } } }
        let d : Deployment := { d with Spec := { d.Spec with Template := { d.Spec.Template with
          Annotations :=
            [("prometheus.io/scrape", "true"),
             ("prometheus.io/port", "8085"),
             ("fluentbit.io/parser", "glog")] } } }
        let d : Deployment := { d with Spec := { d.Spec with Template := { d.Spec.Template with
          Spec := { d.Spec.Template.Spec with ServiceAccountName := pkg.serviceAccountName } } } }
        let d : Deployment := { d with Spec := { d.Spec with Template := { d.Spec.Template with
          Spec := { d.Spec.Template.Spec with
            ImagePullSecrets := [{ Name := pkg.dockercfgSecretName }] } } } }
        match cfg with
        | none => .nilDeref
        | some cfg =>
          let args : List String :=
            ["-v=2",
             "-logtostderr",
             "-address=0.0.0.0:8080",
             "-internal-address=0.0.0.0:8085",
             "-kubeconfig=/opt/.kube/kubeconfig",
             "-oidc-url=" ++ cfg.Spec.Auth.TokenIssuer,
             "-oidc-authenticator-client-id=" ++ cfg.Spec.Auth.ClientID,
             "-oidc-skip-tls-verify=" ++ sprintBool cfg.Spec.Auth.SkipTokenIssuerTLSVerify,
             "-domain=" ++ cfg.Spec.Domain,
             "-service-account-signing-key=" ++ cfg.Spec.Auth.ServiceAccountKey,
             "-expose-strategy=" ++ cfg.Spec.ExposeStrategy,
             "-feature-gates=" ++ pkg.featureGates cfg]
          let args : List String :=
            if mapIndexBool cfg.Spec.FeatureGates "OIDCKubeCfgEndpoint" then
              args ++
                ["-oidc-issuer-redirect-uri=" ++ cfg.Spec.Auth.IssuerRedirectURL,
                 "-oidc-issuer-client-id=" ++ cfg.Spec.Auth.IssuerClientID,
                 "-oidc-issuer-client-secret=" ++ cfg.Spec.Auth.IssuerClientSecret,
                 "-oidc-issuer-cookie-hash-key=" ++ cfg.Spec.Auth.IssuerCookieKey]
            else args
          let volumes : List Volume :=
            [{ Name := "kubeconfig"
               Secret := some { DefaultMode := some 420, SecretName := pkg.kubeconfigSecretName } }]
          let volumeMounts : List VolumeMount :=
            [{ MountPath := "/opt/.kube/", Name := "kubeconfig", ReadOnly := true, SubPath := "" }]
          let (args, volumes, volumeMounts) :=
            if 0 < cfg.Spec.MasterFiles.length then
              (args ++
                ["-versions=/opt/master-files/versions.yaml",
                 "-updates=/opt/master-files/updates.yaml",
                 "-master-resources=/opt/master-files"],
               volumes ++
                [{ Name := "master-files"
                   Secret := some
                     { DefaultMode := some 420, SecretName := pkg.masterFilesSecretName } }],
               volumeMounts ++
                [{ MountPath := "/opt/master-files/", Name := "master-files", ReadOnly := true,
                   SubPath := "" }])
            else (args, volumes, volumeMounts)
          let (args, volumes, volumeMounts) :=
            if cfg.Spec.UI.Presets ≠ "" then
              (args ++ ["-presets=/opt/presets/presets.yaml"],
               volumes ++
                [{ Name := "presets"
                   Secret := some
                     { DefaultMode := some 420, SecretName := pkg.presetsSecretName } }],
               volumeMounts ++
                [{ MountPath := "/opt/presets/", Name := "presets", ReadOnly := true,
                   SubPath := "" }])
            else (args, volumes, volumeMounts)
          let (args, volumes, volumeMounts) :=
            if cfg.Spec.Datacenters ≠ "" then
              (args ++ ["-datacenters=/opt/datacenters/datacenters.yaml"],
               volumes ++
                [{ Name := "datacenters"
                   Secret := some
                     { DefaultMode := some 420, SecretName := pkg.datacentersSecretName } }],
               volumeMounts ++
                [{ MountPath := "/opt/datacenters/", Name := "datacenters", ReadOnly := true,
                   SubPath := "" }])
            else (args, volumes, volumeMounts)
          let d : Deployment := { d with Spec := { d.Spec with Template := { d.Spec.Template with
            Spec := { d.Spec.Template.Spec with Volumes := volumes } } } }
          let d : Deployment := { d with Spec := { d.Spec with Template := { d.Spec.Template with
            Spec := { d.Spec.Template.Spec with
              Containers :=
                [{ Name := "api"
                   Image := pkg.dockerImage cfg.Spec.API.Image
                   ImagePullPolicy := cfg.Spec.API.Image.PullPolicy
                   Command := ["kubermatic-api"]
                   Args := args
                   Ports :=
                     [{ Name := "metrics", ContainerPort := 8085, Protocol := ProtocolTCP },
                      { Name := "http", ContainerPort := 8080, Protocol := ProtocolTCP }]
                   VolumeMounts := volumeMounts
                   Resources :=
                     { Requests := [(ResourceCPU, "100m"), (ResourceMemory, "64Mi")]
                       Limits := [(ResourceCPU, "250m"), (ResourceMemory, "128Mi")] }
                   TerminationMessagePolicy := TerminationMessageReadFile
                   TerminationMessagePath := "/dev/termination-log"
                   ReadinessProbe := some probe }] } } } }
          .ret (some d) none)

/-- The getter `APIPDBCreator` (api.go, lines 216-231); neither `ns` nor `cfg` is read. -/
def APIPDBCreator (pkg : KubermaticPackage) (ns : String)
    (cfg : Option KubermaticConfiguration) : Unit → String × PodDisruptionBudgetCreator :=
  let name := "kubermatic-api-v1"
  fun _ =>
    (name, fun pdb =>
      let min := intstr_FromInt 1
      match pdb with
      | none => .nilDeref
      | some pdb =>
        let pdb : PodDisruptionBudget :=
          { pdb with Spec := { pdb.Spec with MinAvailable := some min } }
        let pdb : PodDisruptionBudget :=
          { pdb with Spec := { pdb.Spec with
            Selector := some { MatchLabels := apiPodLabels pkg, MatchExpressions := [] } } }
        .ret (some pdb) none)

/-- The getter `APIServiceCreator` (api.go, lines 233-256); neither `ns` nor `cfg` is
read. -/
def APIServiceCreator (pkg : KubermaticPackage) (ns : String)
    (cfg : Option KubermaticConfiguration) : Unit → String × ServiceCreator :=
  fun _ =>
    (pkg.apiServiceName, fun s =>
      match s with
      | none => .nilDeref
      | some s =>
        let s : Service := { s with Spec := { s.Spec with Type_ := ServiceTypeNodePort } }
        let s : Service := { s with Spec := { s.Spec with Selector := apiPodLabels pkg } }
        let s : Service := { s with Spec := { s.Spec with
          Ports := pkg.mergeServicePort s.Spec.Ports
            { Name := "http"
              Port := 80
              TargetPort := intstr_FromInt 8080
              Protocol := ProtocolTCP
              NodePort := 0 } } }
        let s : Service := { s with Spec := { s.Spec with
          Ports := pkg.mergeServicePort s.Spec.Ports
            { Name := "metrics"
              Port := 8085
              TargetPort := intstr_FromInt 8085
              Protocol := ProtocolTCP
              NodePort := 0 } } }
        .ret (some s) none)

/-- Whether a list of command-line arguments holds an argument of the form `-name=value`,
the form in which api.go writes every flag that takes a value. -/
def hasFlag (args : List String) (name : String) : Bool :=
  args.any (fun a => ("-" ++ name ++ "=").data.isPrefixOf a.data)

/-! ## Fixtures for the API creators -/

/-- A package with the names used by the operator and simple helpers: the feature gates
printed as the enabled names joined by commas, the image printed as its reference, and a
port merged by replacing the port of the same name or appending it. -/
def examplePackage : KubermaticPackage where
  nameLabel := "app.kubernetes.io/name"
  versionLabel := "app.kubernetes.io/version"
  apiDeploymentName := "kubermatic-api"
  apiServiceName := "kubermatic-api"
  serviceAccountName := "kubermatic"
  dockercfgSecretName := "dockercfg"
  kubeconfigSecretName := "kubeconfig"
  masterFilesSecretName := "master-files"
  presetsSecretName := "presets"
  datacentersSecretName := "datacenters"
  featureGates := fun cfg =>
    ",".intercalate ((cfg.Spec.FeatureGates.filter (fun g => g.2)).map (fun g => g.1))
  dockerImage := fun img => img.Reference
  mergeServicePort := fun ports port =>
    if ports.any (fun p => p.Name == port.Name) then
      ports.map (fun p => if p.Name == port.Name then port else p)
    else ports ++ [port]

/-- A configuration with presets and datacenters, without master files, and with the
feature gate `OIDCKubeCfgEndpoint` off. -/
def exampleConfiguration : KubermaticConfiguration where
  ObjectMeta := exampleMeta "kubermatic"
  Spec :=
    { Domain := "example.com"
      Auth :=
        { ClientID := "kubermatic"
          TokenIssuer := "https://example.com/dex"
          IssuerRedirectURL := "https://example.com/api/v1/kubeconfig"
          IssuerClientID := "kubermaticIssuer"
          IssuerClientSecret := "secret"
          IssuerCookieKey := "cookie"
          ServiceAccountKey := "key"
          SkipTokenIssuerTLSVerify := false }
      FeatureGates := [("OIDCKubeCfgEndpoint", false)]
      UI := { Presets := "presets: []" }
      API := { Image := { Reference := "quay.io/kubermatic/api:v2.13.0", PullPolicy := "IfNotPresent" } }
      ExposeStrategy := "NodePort"
      MasterFiles := []
      Datacenters := "datacenters: []" }

/-- A stored Deployment of the API from an older version: one replica, another selector,
a volume and a container that the creator replaces. -/
def exampleDeployment : Deployment where
  ObjectMeta := exampleMeta "kubermatic-api"
  Spec :=
    { Replicas := some 1
      Selector := some { MatchLabels := [("app", "old-api")], MatchExpressions := [] }
      Template :=
        { Labels := [("app", "old-api")]
          Annotations := []
          Spec :=
            { Volumes := [{ Name := "old", Secret := none }]
              Containers := []
              RestartPolicy := "Always"
              NodeSelector := []
              ServiceAccountName := ""
              ImagePullSecrets := [] } }
      MinReadySeconds := 0 }
  Status := { Replicas := 1, ReadyReplicas := 1 }

/-- An empty PodDisruptionBudget. -/
def examplePodDisruptionBudget : PodDisruptionBudget where
  ObjectMeta := exampleMeta "kubermatic-api-v1"
  Spec := { MinAvailable := none, Selector := none, MaxUnavailable := none }

/-- An empty Service. -/
def exampleService : Service where
  ObjectMeta := exampleMeta "kubermatic-api"
  Spec := { Ports := [], Selector := [], ClusterIP := "", Type_ := "" }

/-! ## Lemmas -/

theorem replay_append {σ : Type} (cc : Controller σ) (a b : List Event) (st : σ) :
    replay cc (a ++ b) st = replay cc b (replay cc a st) := by
  simp [replay, List.foldl_append]

theorem orReturn_runs {σ : Type} (cc : Controller σ) (ok : ReconcileCall → Prop)
    (tail : List Event) (k : Kind) (ks : List Kind) (f g : Step σ)
    (hf : Runs cc f (StageRun ok k)) (hg : Runs cc g (PlanRun ok tail ks)) :
    Runs cc (orReturn f g) (PlanRun ok tail (k :: ks)) := by
  intro s
  obtain ⟨evs, ht, hs, hr⟩ := hf s
  cases hres : (f s).1 with
  | some e =>
    have hfs : f s = (some e, (f s).2) := by rw [← hres]
    refine ⟨evs, ?_, ?_, ?_⟩
    · simp only [orReturn]; rw [hfs]; exact ht
    · simp only [orReturn]; rw [hfs]; exact hs
    · simp only [orReturn]; rw [hfs]; rw [hres] at hr; exact PlanRun.abort k ks evs e hr
  | none =>
    have hfs : f s = (none, (f s).2) := by rw [← hres]
    obtain ⟨evs2, ht2, hs2, hr2⟩ := hg (f s).2
    refine ⟨evs ++ evs2, ?_, ?_, ?_⟩
    · simp only [orReturn]; rw [hfs]; simp only []; rw [ht2, ht, List.append_assoc]
    · simp only [orReturn]; rw [hfs]; simp only []; rw [hs2, hs, replay_append]
    · simp only [orReturn]; rw [hfs]; simp only []; rw [hres] at hr
      exact PlanRun.next k ks evs evs2 _ hr hr2

theorem callReconcile_runs {σ : Type} (cc : Controller σ) (ok : ReconcileCall → Prop)
    (call : ReconcileCall) (h : ok call) (hk : surfaced call.kind = id) :
    Runs cc (callReconcile cc call) (StageRun ok call.kind) := by
  intro s
  refine ⟨[Event.reconcile call (cc.resources.Reconcile call s.store).1], rfl, rfl, ?_⟩
  have := @StageRun.reconciled ok call (cc.resources.Reconcile call s.store).1 h
  rw [hk] at this
  simpa [callReconcile] using this

theorem wrapped_runs {σ : Type} (cc : Controller σ) (ok : ReconcileCall → Prop)
    (call : ReconcileCall) (h : ok call) (f : Step σ)
    (hf : ∀ s, f s = ((callReconcile cc call s).1.map (surfaced call.kind),
      (callReconcile cc call s).2)) :
    Runs cc f (StageRun ok call.kind) := by
  intro s
  refine ⟨[Event.reconcile call (cc.resources.Reconcile call s.store).1], ?_, ?_, ?_⟩
  · rw [hf]; rfl
  · rw [hf]; rfl
  · rw [hf]
    exact @StageRun.reconciled ok call (cc.resources.Reconcile call s.store).1 h

theorem ensureServices_runs {σ : Type} (cc : Controller σ) (c : Cluster) (data : TemplateData) :
    Runs cc (ensureServices cc c data) (StageRun (ArgsOf cc c) Kind.Services) :=
  wrapped_runs cc _ (.Services (GetServiceCreators data) c.Status.NamespaceName
    [.OwnerRefWrapper (cc.resources.GetClusterRef c)]) ⟨rfl, rfl⟩ _ (by
      intro s
      simp only [ensureServices, callReconcile, ReconcileCall.kind]
      generalize cc.resources.Reconcile _ _ = r
      rcases r with ⟨_ | e, st⟩ <;> simp [surfaced])

theorem ensureStatefulSets_runs {σ : Type} (cc : Controller σ) (c : Cluster)
    (data : TemplateData) :
    Runs cc (ensureStatefulSets cc c data) (StageRun (ArgsOf cc c) Kind.StatefulSets) :=
  wrapped_runs cc _ (.StatefulSets (GetStatefulSetCreators data) c.Status.NamespaceName
    [.OwnerRefWrapper (cc.resources.GetClusterRef c)]) ⟨rfl, rfl⟩ _ (by
      intro s
      simp only [ensureStatefulSets, callReconcile, ReconcileCall.kind]
      generalize cc.resources.Reconcile _ _ = r
      rcases r with ⟨_ | e, st⟩ <;> simp [surfaced])

theorem ensureDeployments_runs {σ : Type} (cc : Controller σ) (c : Cluster)
    (data : TemplateData) :
    Runs cc (ensureDeployments cc c data) (StageRun (ArgsOf cc c) Kind.Deployments) :=
  wrapped_runs cc _ (.Deployments (GetDeploymentCreators data) c.Status.NamespaceName
    [.OwnerRefWrapper (cc.resources.GetClusterRef c)]) ⟨rfl, rfl⟩ _ (by
      intro s
      simp only [ensureDeployments, callReconcile, ReconcileCall.kind]
      generalize cc.resources.Reconcile _ _ = r
      rcases r with ⟨_ | e, st⟩ <;> simp [surfaced])

theorem ensureSecrets_runs {σ : Type} (cc : Controller σ) (c : Cluster) (data : TemplateData) :
    Runs cc (ensureSecrets cc c data) (StageRun (ArgsOf cc c) Kind.Secrets) :=
  wrapped_runs cc _ (.Secrets (GetSecretCreators cc.dockerPullConfigJSON data)
    c.Status.NamespaceName [.OwnerRefWrapper (cc.resources.GetClusterRef c)]) ⟨rfl, rfl⟩ _ (by
      intro s
      simp only [ensureSecrets, callReconcile, ReconcileCall.kind]
      generalize cc.resources.Reconcile _ _ = r
      rcases r with ⟨_ | e, st⟩ <;> simp [surfaced])

theorem ensureConfigMaps_runs {σ : Type} (cc : Controller σ) (c : Cluster)
    (data : TemplateData) :
    Runs cc (ensureConfigMaps cc c data) (StageRun (ArgsOf cc c) Kind.ConfigMaps) :=
  wrapped_runs cc _ (.ConfigMaps (GetConfigMapCreators data)
    c.Status.NamespaceName [.OwnerRefWrapper (cc.resources.GetClusterRef c)]) ⟨rfl, rfl⟩ _ (by
      intro s
      simp only [ensureConfigMaps, callReconcile, ReconcileCall.kind]
      generalize cc.resources.Reconcile _ _ = r
      rcases r with ⟨_ | e, st⟩ <;> simp [surfaced])

theorem ensureCronJobs_runs {σ : Type} (cc : Controller σ) (c : Cluster)
    (data : TemplateData) :
    Runs cc (ensureCronJobs cc c data) (StageRun (ArgsOf cc c) Kind.CronJobs) :=
  wrapped_runs cc _ (.CronJobs (GetCronJobCreators data)
    c.Status.NamespaceName [.OwnerRefWrapper (cc.resources.GetClusterRef c)]) ⟨rfl, rfl⟩ _ (by
      intro s
      simp only [ensureCronJobs, callReconcile, ReconcileCall.kind]
      generalize cc.resources.Reconcile _ _ = r
      rcases r with ⟨_ | e, st⟩ <;> simp [surfaced])

theorem ensurePodDisruptionBudgets_runs {σ : Type} (cc : Controller σ) (c : Cluster)
    (data : TemplateData) :
    Runs cc (ensurePodDisruptionBudgets cc c data)
      (StageRun (ArgsOf cc c) Kind.PodDisruptionBudgets) :=
  wrapped_runs cc _ (.PodDisruptionBudgets (GetPodDisruptionBudgetCreators data)
    c.Status.NamespaceName [.OwnerRefWrapper (cc.resources.GetClusterRef c)]) ⟨rfl, rfl⟩ _ (by
      intro s
      simp only [ensurePodDisruptionBudgets, callReconcile, ReconcileCall.kind]
      generalize cc.resources.Reconcile _ _ = r
      rcases r with ⟨_ | e, st⟩ <;> simp [surfaced])

theorem ensureVerticalPodAutoscalers_runs {σ : Type} (cc : Controller σ) (c : Cluster)
    (data : TemplateData) :
    Runs cc (ensureVerticalPodAutoscalers cc c data)
      (StageRun (ArgsOf cc c) Kind.VerticalPodAutoscalers) := by
  intro s
  simp only [ensureVerticalPodAutoscalers]
  generalize (if mapIndex c.Annotations "kubermatic.io/openshift" = "" then _ else _) = names
  generalize cc.resources.GetVerticalPodAutoscalersForAll _ _ _ _ = r
  rcases r with ⟨gs, _ | e⟩
  · refine ⟨[Event.getVerticalPodAutoscalersForAll names ["etcd"] c.Status.NamespaceName none,
        Event.reconcile (.VerticalPodAutoscalers (if !cc.enableVPA then
        disableAll cc.rangeVarScope gs else gs) c.Status.NamespaceName [.OwnerRefWrapper (cc.resources.GetClusterRef c)]) _],
      ?_, ?_, StageRun.requested _ _ _ _ _ ⟨rfl, rfl⟩ rfl⟩
    · simp [callReconcile]
    · simp [callReconcile, replay]
  · exact ⟨[_], rfl, rfl, StageRun.requestFailed _ _ _ e _⟩

theorem orReturn_skip {σ : Type} (rest : Step σ) :
    orReturn (fun s => (none, s)) rest = rest := rfl

theorem done_runs {σ : Type} (cc : Controller σ) (ok : ReconcileCall → Prop) :
    Runs cc (fun s => (none, s)) (PlanRun ok [] []) := by
  intro s
  exact ⟨[], by simp, rfl, PlanRun.done⟩

theorem requeue_runs {σ : Type} (cc : Controller σ) (ok : ReconcileCall → Prop)
    (cluster : Cluster) (d : Duration) :
    Runs cc (fun s => (none, enqueueAfter cluster d s))
      (PlanRun ok [Event.enqueueAfter cluster d] []) := by
  intro s
  exact ⟨[Event.enqueueAfter cluster d], rfl, rfl, PlanRun.done⟩

theorem pass_runs_ready {σ : Type} (cc : Controller σ) (cluster : Cluster)
    (data : TemplateData) (hd : getClusterTemplateData cc cluster = .ok data)
    (hg : cluster.Status.Health.CloudProviderInfrastructure = true) :
    Runs cc (ensureResourcesAreDeployed cc cluster)
      (PlanRun (ArgsOf cc cluster) [] (stagePlan cluster)) := by
  have post : Runs cc
      (orReturn (ensureDeployments cc cluster data) <|
       orReturn (ensureCronJobs cc cluster data) <|
       orReturn (ensurePodDisruptionBudgets cc cluster data) <|
       orReturn (ensureVerticalPodAutoscalers cc cluster data) <|
       fun s => (none, s))
      (PlanRun (ArgsOf cc cluster) []
        [.Deployments, .CronJobs, .PodDisruptionBudgets, .VerticalPodAutoscalers]) :=
    orReturn_runs cc _ _ _ _ _ _ (ensureDeployments_runs cc cluster data) <|
    orReturn_runs cc _ _ _ _ _ _ (ensureCronJobs_runs cc cluster data) <|
    orReturn_runs cc _ _ _ _ _ _ (ensurePodDisruptionBudgets_runs cc cluster data) <|
    orReturn_runs cc _ _ _ _ _ _ (ensureVerticalPodAutoscalers_runs cc cluster data) <|
    done_runs cc _
  unfold ensureResourcesAreDeployed stagePlan
  simp only [hd, hg, Bool.not_true, Bool.false_eq_true, if_false]
  by_cases ha : mapIndex cluster.Annotations "kubermatic.io/openshift" = ""
  · simp only [ha, if_true]
    exact orReturn_runs cc _ _ _ _ _ _ (ensureServices_runs cc cluster data) <|
      orReturn_runs cc _ _ _ _ _ _ (ensureSecrets_runs cc cluster data) <|
      orReturn_runs cc _ _ _ _ _ _ (ensureStatefulSets_runs cc cluster data) <|
      orReturn_runs cc _ _ _ _ _ _ (ensureConfigMaps_runs cc cluster data) post
  · simp only [ha, if_false, orReturn_skip]
    exact orReturn_runs cc _ _ _ _ _ _ (ensureStatefulSets_runs cc cluster data) post

theorem pass_runs_waiting {σ : Type} (cc : Controller σ) (cluster : Cluster)
    (data : TemplateData) (hd : getClusterTemplateData cc cluster = .ok data)
    (hg : cluster.Status.Health.CloudProviderInfrastructure = false) :
    Runs cc (ensureResourcesAreDeployed cc cluster)
      (PlanRun (ArgsOf cc cluster) [Event.enqueueAfter cluster (1 * Second)]
        (stagePlanBeforeGate cluster)) := by
  unfold ensureResourcesAreDeployed stagePlanBeforeGate
  simp only [hd, hg, Bool.not_false, if_true]
  by_cases ha : mapIndex cluster.Annotations "kubermatic.io/openshift" = ""
  · simp only [ha, if_true]
    exact orReturn_runs cc _ _ _ _ _ _ (ensureServices_runs cc cluster data) <|
      orReturn_runs cc _ _ _ _ _ _ (ensureSecrets_runs cc cluster data) <|
      orReturn_runs cc _ _ _ _ _ _ (ensureStatefulSets_runs cc cluster data) <|
      requeue_runs cc _ cluster _
  · simp only [ha, if_false, orReturn_skip]
    exact orReturn_runs cc _ _ _ _ _ _ (ensureStatefulSets_runs cc cluster data) <|
      requeue_runs cc _ cluster _

theorem stageRun_calls {ok : ReconcileCall → Prop} {k : Kind} {evs : List Event}
    {res : Option GoError} (h : StageRun ok k evs res) (call : ReconcileCall)
    (r : Option GoError) (hm : Event.reconcile call r ∈ evs) :
    ok call ∧ call.kind = k ∧ (∀ e, r = some e → res = some (surfaced k e)) := by
  cases h with
  | reconciled call0 r0 h0 =>
    simp only [List.mem_singleton, Event.reconcile.injEq] at hm
    obtain ⟨rfl, rfl⟩ := hm
    exact ⟨h0, rfl, by rintro e rfl; rfl⟩
  | requested d s n call0 r0 h0 hk =>
    simp only [List.mem_cons, List.mem_singleton, Event.reconcile.injEq, false_or,
      List.not_mem_nil, or_false] at hm
    rcases hm with hm | ⟨h1, h2⟩
    · cases hm
    · subst h1 h2
      exact ⟨h0, hk, by rintro e rfl; rfl⟩
  | requestFailed d s n e e1 =>
    simp at hm

theorem stageRun_requeues {ok : ReconcileCall → Prop} {k : Kind} {evs : List Event}
    {res : Option GoError} (h : StageRun ok k evs res) : requeues evs = [] := by
  cases h <;> simp [requeues]

theorem stageRun_of_none {ok : ReconcileCall → Prop} {k : Kind} {evs : List Event}
    (h : StageRun ok k evs none) :
    (∀ ev ∈ evs, ev.err = none) ∧ reconcileKinds evs = [k] := by
  generalize hres : (none : Option GoError) = res at h
  cases h with
  | reconciled call0 r0 h0 =>
    cases r0 with
    | none => simp [reconcileKinds, Event.err, Event.kind?]
    | some e => simp at hres
  | requested d s n call0 r0 h0 hk =>
    subst hres
    simp [reconcileKinds, Event.err, Event.kind?, hk]
  | requestFailed d s n e e1 => simp at hres

theorem stageRun_of_some {ok : ReconcileCall → Prop} {k : Kind} {evs : List Event}
    {e : GoError} (h : StageRun ok k evs (some e)) :
    ∃ init last, evs = init ++ [last] ∧ (∀ ev ∈ init, ev.err = none) ∧ last.err ≠ none ∧
      (reconcileKinds evs = [k] ∨ reconcileKinds evs = []) := by
  generalize hres : some e = res at h
  cases h with
  | reconciled call0 r0 h0 =>
    cases r0 with
    | none => simp at hres
    | some e0 =>
      exact ⟨[], _, rfl, by simp, by simp [Event.err], Or.inl (by simp [reconcileKinds, Event.kind?])⟩
  | requested d s n call0 r0 h0 hk =>
    subst hres
    exact ⟨[_], _, rfl, by simp [Event.err], by simp [Event.err],
      Or.inl (by simp [reconcileKinds, Event.kind?, hk])⟩
  | requestFailed d s n e0 e1 =>
    exact ⟨[], _, rfl, by simp, by simp [Event.err], Or.inr (by simp [reconcileKinds, Event.kind?])⟩

theorem reconcileKinds_append (a b : List Event) :
    reconcileKinds (a ++ b) = reconcileKinds a ++ reconcileKinds b := by
  simp [reconcileKinds]

theorem requeues_append (a b : List Event) : requeues (a ++ b) = requeues a ++ requeues b := by
  simp [requeues]

theorem planRun_calls {ok : ReconcileCall → Prop} {tail : List Event} {ks : List Kind}
    {evs : List Event} {res : Option GoError} (h : PlanRun ok tail ks evs res)
    (htail : ∀ ev ∈ tail, ev.kind? = none)
    (call : ReconcileCall) (r : Option GoError) (hm : Event.reconcile call r ∈ evs) :
    ok call ∧ (∀ e, r = some e → res = some (surfaced call.kind e)) := by
  induction h with
  | done => have := htail _ hm; simp [Event.kind?] at this
  | abort k ks evs e h =>
    obtain ⟨h1, h2, h3⟩ := stageRun_calls h call r hm
    exact ⟨h1, by rw [h2]; exact h3⟩
  | next k ks evs evs2 res h h2 ih =>
    rcases List.mem_append.mp hm with hm | hm
    · obtain ⟨h1, _, h3⟩ := stageRun_calls h call r hm
      refine ⟨h1, ?_⟩
      intro e he
      have := h3 e he
      simp at this
    · exact ih hm

theorem planRun_of_succeeded {ok : ReconcileCall → Prop} {tail : List Event} {ks : List Kind}
    {evs : List Event} {res : Option GoError} (h : PlanRun ok tail ks evs res)
    (hs : ∀ ev ∈ evs, ev.err = none) :
    res = none ∧ reconcileKinds evs = ks ++ reconcileKinds tail ∧
      requeues evs = requeues tail := by
  induction h with
  | done => simp
  | abort k ks evs e h =>
    obtain ⟨init, last, rfl, _, hl, _⟩ := stageRun_of_some h
    exact absurd (hs last (by simp)) hl
  | next k ks evs evs2 res h h2 ih =>
    obtain ⟨h1, h3, h4⟩ := ih (fun ev hev => hs ev (List.mem_append.mpr (Or.inr hev)))
    refine ⟨h1, ?_, ?_⟩
    · rw [reconcileKinds_append, (stageRun_of_none h).2, h3]; rfl
    · rw [requeues_append, stageRun_requeues h, h4]; rfl

theorem planRun_of_none {ok : ReconcileCall → Prop} {tail : List Event} {ks : List Kind}
    {evs : List Event} {res : Option GoError} (h : PlanRun ok tail ks evs res)
    (hres : res = none)
    (htail : ∀ ev ∈ tail, ev.err = none) : ∀ ev ∈ evs, ev.err = none := by
  induction h with
  | done => exact htail
  | abort k ks evs e h => simp at hres
  | next k ks evs evs2 res h h2 ih =>
    intro ev hev
    rcases List.mem_append.mp hev with hm | hm
    · exact (stageRun_of_none h).1 ev hm
    · exact ih hres ev hm

theorem planRun_of_some {ok : ReconcileCall → Prop} {tail : List Event} {ks : List Kind}
    {evs : List Event} {e : GoError} (h : PlanRun ok tail ks evs (some e)) :
    ∃ init last, evs = init ++ [last] ∧ (∀ ev ∈ init, ev.err = none) ∧ last.err ≠ none ∧
      requeues evs = [] ∧ reconcileKinds evs <+: ks := by
  generalize hres : some e = res at h
  induction h with
  | done => simp at hres
  | abort k ks evs e0 h =>
    obtain ⟨init, last, h1, h2, h3, h4⟩ := stageRun_of_some h
    refine ⟨init, last, h1, h2, h3, stageRun_requeues h, ?_⟩
    rcases h4 with h4 | h4 <;> rw [h4]
    · exact ⟨ks, rfl⟩
    · exact List.nil_prefix
  | next k ks evs evs2 res h h2 ih =>
    obtain ⟨init, last, h1, h3, h4, h5, h6⟩ := ih hres
    refine ⟨evs ++ init, last, by rw [h1, List.append_assoc], ?_, h4, ?_, ?_⟩
    · intro ev hev
      rcases List.mem_append.mp hev with hm | hm
      · exact (stageRun_of_none h).1 ev hm
      · exact h3 ev hm
    · rw [requeues_append, stageRun_requeues h, h5]; rfl
    · rw [reconcileKinds_append, (stageRun_of_none h).2]
      exact (List.prefix_cons_inj k).mpr h6

theorem runs_from_empty {σ : Type} (cc : Controller σ) (f : Step σ)
    {R : List Event → Option GoError → Prop} (h : Runs cc f R) (st : σ) :
    (f { store := st, trace := [] }).2.store =
      replay cc (f { store := st, trace := [] }).2.trace st ∧
    R (f { store := st, trace := [] }).2.trace (f { store := st, trace := [] }).1 := by
  obtain ⟨evs, h1, h2, h3⟩ := h { store := st, trace := [] }
  simp only [List.nil_append] at h1
  rw [h1]
  exact ⟨h2, h3⟩

theorem planRun_ends_with_tail {ok : ReconcileCall → Prop} {tail : List Event}
    {ks : List Kind} {evs : List Event} {res : Option GoError}
    (h : PlanRun ok tail ks evs res) (hres : res = none) : ∃ init, evs = init ++ tail := by
  induction h with
  | done => exact ⟨[], rfl⟩
  | abort k ks evs e h => simp at hres
  | next k ks evs evs2 res h h2 ih =>
    obtain ⟨init, h1⟩ := ih hres
    exact ⟨evs ++ init, by rw [h1, List.append_assoc]⟩

theorem failing_event_is_last (evs init : List Event) (last : Event)
    (h : evs = init ++ [last]) (hinit : ∀ ev ∈ init, ev.err = none)
    (i : Nat) (ev : Event) (hi : evs[i]? = some ev) (he : ev.err ≠ none) :
    i + 1 = evs.length ∧ ∀ j ev1, j < i → evs[j]? = some ev1 → ev1.err = none := by
  subst h
  have hlt : ¬ i < init.length := by
    intro hlt
    rw [List.getElem?_append_left hlt] at hi
    exact he (hinit ev (List.getElem?_mem hi))
  have hle : i < (init ++ [last]).length := by
    by_contra hge
    rw [List.getElem?_eq_none (Nat.le_of_not_lt hge)] at hi
    cases hi
  simp only [List.length_append, List.length_singleton] at hle ⊢
  have hieq : i = init.length := by omega
  refine ⟨by omega, ?_⟩
  intro j ev1 hj hj1
  have hj2 : j < init.length := by omega
  rw [List.getElem?_append_left hj2] at hj1
  exact hinit ev1 (List.getElem?_mem hj1)

theorem pass_without_template_data {σ : Type} (cc : Controller σ) (cluster : Cluster)
    (s : PassState σ) (err : GoError) (hd : getClusterTemplateData cc cluster = .error err) :
    ensureResourcesAreDeployed cc cluster s = (some err, s) := by
  unfold ensureResourcesAreDeployed
  simp only [hd]

theorem stagePlanBeforeGate_prefix (cluster : Cluster) :
    stagePlanBeforeGate cluster <+: stagePlan cluster := by
  unfold stagePlanBeforeGate stagePlan
  split
  · exact ⟨[.ConfigMaps, .Deployments, .CronJobs, .PodDisruptionBudgets,
      .VerticalPodAutoscalers], rfl⟩
  · exact ⟨[.Deployments, .CronJobs, .PodDisruptionBudgets, .VerticalPodAutoscalers], rfl⟩

/-- Every pass is a run of a plan that is a prefix of the stages of the cluster, followed
by nothing or by one requeue. -/
theorem pass_runs {σ : Type} (cc : Controller σ) (cluster : Cluster) (st : σ)
    (data : TemplateData) (hd : getClusterTemplateData cc cluster = .ok data) :
    (ensureResourcesAreDeployed cc cluster { store := st, trace := [] }).2.store =
      replay cc (ensureResourcesAreDeployed cc cluster { store := st, trace := [] }).2.trace st ∧
    ∃ tail plan, (∀ ev ∈ tail, ev.err = none ∧ ev.kind? = none) ∧ plan <+: stagePlan cluster ∧
      PlanRun (ArgsOf cc cluster) tail plan
        (ensureResourcesAreDeployed cc cluster { store := st, trace := [] }).2.trace
        (ensureResourcesAreDeployed cc cluster { store := st, trace := [] }).1 := by
  cases hg : cluster.Status.Health.CloudProviderInfrastructure with
  | true =>
    obtain ⟨h1, h2⟩ := runs_from_empty cc _ (pass_runs_ready cc cluster data hd hg) st
    exact ⟨h1, [], _, by simp, List.prefix_refl _, h2⟩
  | false =>
    obtain ⟨h1, h2⟩ := runs_from_empty cc _ (pass_runs_waiting cc cluster data hd hg) st
    exact ⟨h1, _, _, by simp [Event.err, Event.kind?], stagePlanBeforeGate_prefix cluster, h2⟩

/-- With one range variable for the whole loop: after `k` iterations the first `k` entries of
the slice are function literals over that variable, the other entries are untouched, and the
variable holds the getter read last. -/
theorem rangeLoop_invariant (creators : List NamedVerticalPodAutoscalerCreatorGetter)
    (g0 : NamedVerticalPodAutoscalerCreatorGetter) (k : Nat) (hk : k ≤ creators.length) :
    ((List.range k).foldl (rangeIteration .perLoop)
        { creators := creators.map SliceEntry.getter,
          getNameAndCreator := fun _ => g0 }).creators =
      List.replicate k (SliceEntry.literal 0) ++ (creators.map SliceEntry.getter).drop k ∧
    ((List.range k).foldl (rangeIteration .perLoop)
        { creators := creators.map SliceEntry.getter,
          getNameAndCreator := fun _ => g0 }).getNameAndCreator 0 =
      (creators.take k).getLastD g0 := by
  induction k with
  | zero => simp
  | succ k ih =>
    obtain ⟨h1, h2⟩ := ih (by omega)
    have hlt : k < creators.length := by omega
    have hlt2 : k < (creators.map SliceEntry.getter).length := by simpa using hlt
    rw [List.range_succ, List.foldl_append]
    simp only [List.foldl_cons, List.foldl_nil]
    generalize (List.range k).foldl (rangeIteration .perLoop)
      { creators := creators.map SliceEntry.getter,
        getNameAndCreator := fun _ => g0 } = st at h1 h2 ⊢
    have hdrop : (creators.map SliceEntry.getter).drop k =
        SliceEntry.getter creators[k] :: (creators.map SliceEntry.getter).drop (k + 1) := by
      rw [List.drop_eq_getElem_cons hlt2, List.getElem_map]
    have hget : st.creators.get? k = some (SliceEntry.getter creators[k]) := by
      rw [h1, hdrop, List.get?_eq_getElem?,
        List.getElem?_append_right (by simp)]
      simp
    unfold rangeIteration
    rw [hget]
    simp only [rangeVariable, if_true]
    constructor
    · rw [h1, hdrop, List.set_append_right _ _ (by simp)]
      simp [List.replicate_succ']
    · rw [List.take_succ, List.getElem?_eq_getElem hlt]
      exact (List.getLastD_concat g0 creators[k] (creators.take k)).symm

/-- With the range variable shared by the function literals, every getter the loop leaves in
the slice resolves like the last getter of the registry: to its name and to
`disableVPAWrapper` of its creator. -/
theorem disableAll_eq (g : NamedVerticalPodAutoscalerCreatorGetter)
    (rest : List NamedVerticalPodAutoscalerCreatorGetter) :
    disableAll .perLoop (g :: rest) =
      List.replicate (rest.length + 1) (wrapLiteral ((g :: rest).getLastD g)) := by
  obtain ⟨h1, h2⟩ := rangeLoop_invariant (g :: rest) g (g :: rest).length (Nat.le_refl _)
  show List.map (SliceEntry.call ((List.range (g :: rest).length).foldl
      (rangeIteration .perLoop)
      { creators := (g :: rest).map SliceEntry.getter,
        getNameAndCreator := fun _ => g }).getNameAndCreator)
    ((List.range (g :: rest).length).foldl (rangeIteration .perLoop)
      { creators := (g :: rest).map SliceEntry.getter,
        getNameAndCreator := fun _ => g }).creators = _
  rw [h1]
  have hd : List.drop (g :: rest).length (List.map SliceEntry.getter (g :: rest)) = [] := by
    rw [List.drop_eq_nil_iff]
    simp
  rw [hd, List.append_nil, List.map_replicate]
  simp only [SliceEntry.call, h2, List.take_length]
  rfl

/-- C1: on a pass for a cluster whose cloud provider infrastructure is not ready, when the
template data is found and every call of the pass returns nil, the pass returns nil, it
requeues the cluster exactly once, with a delay of one second and as its last step, the
`Reconcile*` calls made are exactly those that come before the gate (Services, Secrets,
StatefulSets, or StatefulSets alone for a cluster with the openshift annotation), and none of
ConfigMaps, Deployments, CronJobs, PodDisruptionBudgets, VerticalPodAutoscalers is
reconciled. -/
theorem ensureResourcesAreDeployed_gate_unmet {σ : Type} (cc : Controller σ)
    (cluster : Cluster) (st : σ) (data : TemplateData)
    (hd : getClusterTemplateData cc cluster = .ok data)
    (hg : cluster.Status.Health.CloudProviderInfrastructure = false)
    (hs : ∀ ev ∈ (ensureResourcesAreDeployed cc cluster { store := st, trace := [] }).2.trace,
      ev.err = none) :
    (ensureResourcesAreDeployed cc cluster { store := st, trace := [] }).1 = none ∧
    requeues (ensureResourcesAreDeployed cc cluster { store := st, trace := [] }).2.trace =
      [(cluster, Second)] ∧
    (ensureResourcesAreDeployed cc cluster { store := st, trace := [] }).2.trace.getLast? =
      some (Event.enqueueAfter cluster Second) ∧
    reconcileKinds (ensureResourcesAreDeployed cc cluster { store := st, trace := [] }).2.trace =
      (if mapIndex cluster.Annotations "kubermatic.io/openshift" = "" then
        [Kind.Services, Kind.Secrets, Kind.StatefulSets]
       else [Kind.StatefulSets]) ∧
    (∀ k ∈ [Kind.ConfigMaps, Kind.Deployments, Kind.CronJobs, Kind.PodDisruptionBudgets,
        Kind.VerticalPodAutoscalers],
      k ∉ reconcileKinds
        (ensureResourcesAreDeployed cc cluster { store := st, trace := [] }).2.trace) := by
  obtain ⟨-, hrun⟩ := runs_from_empty cc _ (pass_runs_waiting cc cluster data hd hg) st
  obtain ⟨h1, h2, h3⟩ := planRun_of_succeeded hrun hs
  obtain ⟨init, h4⟩ := planRun_ends_with_tail hrun h1
  have hsec : (1 : Int) * Second = Second := one_mul _
  have hk : reconcileKinds
      (ensureResourcesAreDeployed cc cluster { store := st, trace := [] }).2.trace =
      (if mapIndex cluster.Annotations "kubermatic.io/openshift" = "" then
        [Kind.Services, Kind.Secrets, Kind.StatefulSets]
       else [Kind.StatefulSets]) := by
    rw [h2]
    simp [stagePlanBeforeGate, reconcileKinds, Event.kind?]
  refine ⟨h1, ?_, ?_, hk, ?_⟩
  · rw [h3]; simp [requeues, hsec]
  · rw [h4, hsec]; simp
  · rw [hk]
    split <;> decide

/-- Witness of C1: a cluster without openshift annotation whose infrastructure is not ready, on
a store where every call succeeds. -/
theorem ensureResourcesAreDeployed_gate_unmet_witness :
    (ensureResourcesAreDeployed (exampleController exampleResources) (exampleCluster [] false)
        { store := 0, trace := [] }).1 = none ∧
    requeues (ensureResourcesAreDeployed (exampleController exampleResources)
        (exampleCluster [] false) { store := 0, trace := [] }).2.trace =
      [(exampleCluster [] false, Second)] ∧
    (ensureResourcesAreDeployed (exampleController exampleResources) (exampleCluster [] false)
        { store := 0, trace := [] }).2.trace.getLast? =
      some (Event.enqueueAfter (exampleCluster [] false) Second) ∧
    reconcileKinds (ensureResourcesAreDeployed (exampleController exampleResources)
        (exampleCluster [] false) { store := 0, trace := [] }).2.trace =
      (if mapIndex (exampleCluster [] false).Annotations "kubermatic.io/openshift" = "" then
        [Kind.Services, Kind.Secrets, Kind.StatefulSets]
       else [Kind.StatefulSets]) ∧
    (∀ k ∈ [Kind.ConfigMaps, Kind.Deployments, Kind.CronJobs, Kind.PodDisruptionBudgets,
        Kind.VerticalPodAutoscalers],
      k ∉ reconcileKinds (ensureResourcesAreDeployed (exampleController exampleResources)
        (exampleCluster [] false) { store := 0, trace := [] }).2.trace) :=
  ensureResourcesAreDeployed_gate_unmet (exampleController exampleResources)
    (exampleCluster [] false) 0 (exampleTemplateData (exampleCluster [] false))
    rfl rfl (by decide)

/-- C2: on a pass for a cluster with an empty openshift annotation and a ready cloud provider
infrastructure, when the template data is found and every call of the pass returns nil, the
`Reconcile*` calls are exactly Services, Secrets, StatefulSets, ConfigMaps, Deployments,
CronJobs, PodDisruptionBudgets, VerticalPodAutoscalers, once each and in that order, nothing
is requeued and the pass returns nil. -/
theorem ensureResourcesAreDeployed_all_stages {σ : Type} (cc : Controller σ)
    (cluster : Cluster) (st : σ) (data : TemplateData)
    (hd : getClusterTemplateData cc cluster = .ok data)
    (ha : mapIndex cluster.Annotations "kubermatic.io/openshift" = "")
    (hg : cluster.Status.Health.CloudProviderInfrastructure = true)
    (hs : ∀ ev ∈ (ensureResourcesAreDeployed cc cluster { store := st, trace := [] }).2.trace,
      ev.err = none) :
    reconcileKinds (ensureResourcesAreDeployed cc cluster { store := st, trace := [] }).2.trace =
      [Kind.Services, Kind.Secrets, Kind.StatefulSets, Kind.ConfigMaps, Kind.Deployments,
       Kind.CronJobs, Kind.PodDisruptionBudgets, Kind.VerticalPodAutoscalers] ∧
    requeues (ensureResourcesAreDeployed cc cluster { store := st, trace := [] }).2.trace = [] ∧
    (ensureResourcesAreDeployed cc cluster { store := st, trace := [] }).1 = none := by
  obtain ⟨-, hrun⟩ := runs_from_empty cc _ (pass_runs_ready cc cluster data hd hg) st
  obtain ⟨h1, h2, h3⟩ := planRun_of_succeeded hrun hs
  refine ⟨?_, ?_, h1⟩
  · rw [h2]; simp [stagePlan, ha, reconcileKinds]
  · rw [h3]; rfl

/-- Witness of C2: a cluster without openshift annotation whose infrastructure is ready, on a
store where every call succeeds. -/
theorem ensureResourcesAreDeployed_all_stages_witness :
    reconcileKinds (ensureResourcesAreDeployed (exampleController exampleResources)
        (exampleCluster [] true) { store := 0, trace := [] }).2.trace =
      [Kind.Services, Kind.Secrets, Kind.StatefulSets, Kind.ConfigMaps, Kind.Deployments,
       Kind.CronJobs, Kind.PodDisruptionBudgets, Kind.VerticalPodAutoscalers] ∧
    requeues (ensureResourcesAreDeployed (exampleController exampleResources)
        (exampleCluster [] true) { store := 0, trace := [] }).2.trace = [] ∧
    (ensureResourcesAreDeployed (exampleController exampleResources) (exampleCluster [] true)
        { store := 0, trace := [] }).1 = none :=
  ensureResourcesAreDeployed_all_stages (exampleController exampleResources)
    (exampleCluster [] true) 0 (exampleTemplateData (exampleCluster [] true))
    rfl (by decide) rfl (by decide)

/-- C3: in every pass, when a call of a stage returns an error, that call is the last
step of the pass (no later stage is invoked), the pass returns a non-nil error, nothing is
requeued, every earlier call returned nil, the `Reconcile*` calls made are an initial part
of the stages of the cluster in their fixed order, and the store is the one these calls left
(nothing is undone). -/
theorem ensureResourcesAreDeployed_fail_fast {σ : Type} (cc : Controller σ)
    (cluster : Cluster) (st : σ) (i : Nat) (ev : Event)
    (hi : (ensureResourcesAreDeployed cc cluster { store := st, trace := [] }).2.trace[i]? =
      some ev)
    (he : ev.err ≠ none) :
    i + 1 = (ensureResourcesAreDeployed cc cluster { store := st, trace := [] }).2.trace.length ∧
    (ensureResourcesAreDeployed cc cluster { store := st, trace := [] }).1 ≠ none ∧
    requeues (ensureResourcesAreDeployed cc cluster { store := st, trace := [] }).2.trace = [] ∧
    (∀ j ev1, j < i →
      (ensureResourcesAreDeployed cc cluster { store := st, trace := [] }).2.trace[j]? = some ev1 →
      ev1.err = none) ∧
    reconcileKinds (ensureResourcesAreDeployed cc cluster { store := st, trace := [] }).2.trace
      <+: (if mapIndex cluster.Annotations "kubermatic.io/openshift" = "" then
            [Kind.Services, Kind.Secrets, Kind.StatefulSets, Kind.ConfigMaps, Kind.Deployments,
             Kind.CronJobs, Kind.PodDisruptionBudgets, Kind.VerticalPodAutoscalers]
           else
            [Kind.StatefulSets, Kind.Deployments, Kind.CronJobs, Kind.PodDisruptionBudgets,
             Kind.VerticalPodAutoscalers]) ∧
    (ensureResourcesAreDeployed cc cluster { store := st, trace := [] }).2.store =
      replay cc (ensureResourcesAreDeployed cc cluster { store := st, trace := [] }).2.trace
        st := by
  cases hd : getClusterTemplateData cc cluster with
  | error err =>
    rw [pass_without_template_data cc cluster _ err hd] at hi
    simp at hi
  | ok data =>
    obtain ⟨hstore, tail, plan, htail, hplan, hrun⟩ := pass_runs cc cluster st data hd
    cases hres : (ensureResourcesAreDeployed cc cluster { store := st, trace := [] }).1 with
    | none =>
      exact absurd (planRun_of_none hrun hres (fun ev hev => (htail ev hev).1) ev
        (List.getElem?_mem hi)) he
    | some e =>
      rw [hres] at hrun
      obtain ⟨init, last, h1, h2, -, h4, h5⟩ := planRun_of_some hrun
      obtain ⟨h6, h7⟩ := failing_event_is_last _ init last h1 h2 i ev hi he
      exact ⟨h6, by simp, h4, h7, h5.trans hplan, hstore⟩

/-- Witness of C3: the call for Deployments, the fifth of the pass, fails with a conflict. -/
theorem ensureResourcesAreDeployed_fail_fast_witness :
    ((ensureResourcesAreDeployed
        (exampleController (failingResources Kind.Deployments (GoError.status "Conflict"
          "the object has been modified")))
        (exampleCluster [] true) { store := 0, trace := [] }).2.trace[4]?).bind Event.err =
      some (GoError.status "Conflict" "the object has been modified") ∧
    (4 + 1 = (ensureResourcesAreDeployed
        (exampleController (failingResources Kind.Deployments (GoError.status "Conflict"
          "the object has been modified")))
        (exampleCluster [] true) { store := 0, trace := [] }).2.trace.length ∧
    (ensureResourcesAreDeployed
        (exampleController (failingResources Kind.Deployments (GoError.status "Conflict"
          "the object has been modified")))
        (exampleCluster [] true) { store := 0, trace := [] }).1 ≠ none ∧
    requeues (ensureResourcesAreDeployed
        (exampleController (failingResources Kind.Deployments (GoError.status "Conflict"
          "the object has been modified")))
        (exampleCluster [] true) { store := 0, trace := [] }).2.trace = [] ∧
    (∀ j ev1, j < 4 →
      (ensureResourcesAreDeployed
        (exampleController (failingResources Kind.Deployments (GoError.status "Conflict"
          "the object has been modified")))
        (exampleCluster [] true) { store := 0, trace := [] }).2.trace[j]? = some ev1 →
      ev1.err = none) ∧
    reconcileKinds (ensureResourcesAreDeployed
        (exampleController (failingResources Kind.Deployments (GoError.status "Conflict"
          "the object has been modified")))
        (exampleCluster [] true) { store := 0, trace := [] }).2.trace
      <+: (if mapIndex (exampleCluster [] true).Annotations "kubermatic.io/openshift" = "" then
            [Kind.Services, Kind.Secrets, Kind.StatefulSets, Kind.ConfigMaps, Kind.Deployments,
             Kind.CronJobs, Kind.PodDisruptionBudgets, Kind.VerticalPodAutoscalers]
           else
            [Kind.StatefulSets, Kind.Deployments, Kind.CronJobs, Kind.PodDisruptionBudgets,
             Kind.VerticalPodAutoscalers]) ∧
    (ensureResourcesAreDeployed
        (exampleController (failingResources Kind.Deployments (GoError.status "Conflict"
          "the object has been modified")))
        (exampleCluster [] true) { store := 0, trace := [] }).2.store =
      replay (exampleController (failingResources Kind.Deployments (GoError.status "Conflict"
          "the object has been modified")))
        (ensureResourcesAreDeployed
          (exampleController (failingResources Kind.Deployments (GoError.status "Conflict"
            "the object has been modified")))
          (exampleCluster [] true) { store := 0, trace := [] }).2.trace 0) :=
  ⟨by decide,
   ensureResourcesAreDeployed_fail_fast
    (exampleController (failingResources Kind.Deployments (GoError.status "Conflict"
      "the object has been modified")))
    (exampleCluster [] true) 0 4
    (Event.reconcile (ReconcileCall.Deployments
        (GetDeploymentCreators (exampleTemplateData (exampleCluster [] true))) "cluster-abcd"
        [ObjectModifier.OwnerRefWrapper (exampleResources.GetClusterRef (exampleCluster [] true))])
      (some (GoError.status "Conflict" "the object has been modified")))
    rfl (by decide)⟩

/-- C4 (as amended): when the `Reconcile*` call of a stage fails with an error `e`, the pass
returns `e` itself for the stages Services, StatefulSets, Deployments and
VerticalPodAutoscalers; for Secrets, ConfigMaps, CronJobs and PodDisruptionBudgets it returns
a new error whose message is a fixed text naming the stage followed by the message of `e`. -/
theorem ensureResourcesAreDeployed_surfaced_error {σ : Type} (cc : Controller σ)
    (cluster : Cluster) (st : σ) (call : ReconcileCall) (e : GoError)
    (h : Event.reconcile call (some e) ∈
      (ensureResourcesAreDeployed cc cluster { store := st, trace := [] }).2.trace) :
    (call.kind ∈ [Kind.Services, Kind.StatefulSets, Kind.Deployments,
        Kind.VerticalPodAutoscalers] →
      (ensureResourcesAreDeployed cc cluster { store := st, trace := [] }).1 = some e) ∧
    (call.kind = Kind.Secrets →
      (ensureResourcesAreDeployed cc cluster { store := st, trace := [] }).1 =
        some (GoError.errorString ("failed to ensure that the Secret exists: " ++ e.Error))) ∧
    (call.kind = Kind.ConfigMaps →
      (ensureResourcesAreDeployed cc cluster { store := st, trace := [] }).1 =
        some (GoError.errorString ("failed to ensure that the ConfigMap exists: " ++ e.Error))) ∧
    (call.kind = Kind.CronJobs →
      (ensureResourcesAreDeployed cc cluster { store := st, trace := [] }).1 =
        some (GoError.errorString ("failed to ensure that the CronJobs exists: " ++ e.Error))) ∧
    (call.kind = Kind.PodDisruptionBudgets →
      (ensureResourcesAreDeployed cc cluster { store := st, trace := [] }).1 =
        some (GoError.errorString
          ("failed to ensure that the PodDisruptionBudget exists: " ++ e.Error))) := by
  cases hd : getClusterTemplateData cc cluster with
  | error e =>
    rw [pass_without_template_data cc cluster _ e hd] at h
    simp at h
  | ok data =>
    obtain ⟨-, tail, plan, htail, -, hrun⟩ := pass_runs cc cluster st data hd
    have hres := (planRun_calls hrun (fun ev hev => (htail ev hev).2) call (some e) h).2 e rfl
    rw [hres]
    refine ⟨?_, ?_, ?_, ?_, ?_⟩
    · intro hk
      simp only [List.mem_cons, List.mem_singleton, List.not_mem_nil, or_false] at hk
      rcases hk with hk | hk | hk | hk <;> rw [hk] <;> rfl
    all_goals (intro hk; rw [hk]; rfl)

/-- C4 (counterexample): the `Reconcile*` call for Secrets fails with the store error
`ServiceUnavailable`; the pass does not return that error but a new one, built by
`fmt.Errorf`, that only holds a text ending in the message of the store error. -/
theorem ensureResourcesAreDeployed_error_not_unchanged :
    Event.reconcile
        (ReconcileCall.Secrets (GetSecretCreators "" (exampleTemplateData (exampleCluster [] true)))
          "cluster-abcd"
          [ObjectModifier.OwnerRefWrapper (exampleResources.GetClusterRef (exampleCluster [] true))])
        (some (GoError.status "ServiceUnavailable" "etcdserver: leader changed")) ∈
      (ensureResourcesAreDeployed
        (exampleController (failingResources Kind.Secrets
          (GoError.status "ServiceUnavailable" "etcdserver: leader changed")))
        (exampleCluster [] true) { store := 0, trace := [] }).2.trace ∧
    (ensureResourcesAreDeployed
        (exampleController (failingResources Kind.Secrets
          (GoError.status "ServiceUnavailable" "etcdserver: leader changed")))
        (exampleCluster [] true) { store := 0, trace := [] }).1 =
      some (GoError.errorString
        "failed to ensure that the Secret exists: etcdserver: leader changed") ∧
    (ensureResourcesAreDeployed
        (exampleController (failingResources Kind.Secrets
          (GoError.status "ServiceUnavailable" "etcdserver: leader changed")))
        (exampleCluster [] true) { store := 0, trace := [] }).1 ≠
      some (GoError.status "ServiceUnavailable" "etcdserver: leader changed") :=
  ⟨List.mem_iff_getElem?.mpr ⟨1, rfl⟩, by decide, by decide⟩

/-- Witness of C4 (as amended): the call for CronJobs fails with a timeout. -/
theorem ensureResourcesAreDeployed_surfaced_error_witness :
    (ensureResourcesAreDeployed
        (exampleController (failingResources Kind.CronJobs (GoError.errorString "timeout")))
        (exampleCluster [] true) { store := 0, trace := [] }).1 =
      some (GoError.errorString ("failed to ensure that the CronJobs exists: " ++
        (GoError.errorString "timeout").Error)) :=
  (ensureResourcesAreDeployed_surfaced_error
    (exampleController (failingResources Kind.CronJobs (GoError.errorString "timeout")))
    (exampleCluster [] true) 0
    (ReconcileCall.CronJobs (GetCronJobCreators (exampleTemplateData (exampleCluster [] true)))
      "cluster-abcd"
      [ObjectModifier.OwnerRefWrapper (exampleResources.GetClusterRef (exampleCluster [] true))])
    (GoError.errorString "timeout") (List.mem_iff_getElem?.mpr ⟨5, rfl⟩)).2.2.2.1 rfl

/-- C5: on a pass for a cluster with a non-empty openshift annotation and a ready cloud
provider infrastructure, when the template data is found and every call of the pass returns
nil, the `Reconcile*` calls are exactly StatefulSets, Deployments, CronJobs,
PodDisruptionBudgets, VerticalPodAutoscalers, once each and in that order; Services, Secrets
and ConfigMaps are not reconciled, and the pass returns nil. -/
theorem ensureResourcesAreDeployed_openshift_stages {σ : Type} (cc : Controller σ)
    (cluster : Cluster) (st : σ) (data : TemplateData)
    (hd : getClusterTemplateData cc cluster = .ok data)
    (ha : mapIndex cluster.Annotations "kubermatic.io/openshift" ≠ "")
    (hg : cluster.Status.Health.CloudProviderInfrastructure = true)
    (hs : ∀ ev ∈ (ensureResourcesAreDeployed cc cluster { store := st, trace := [] }).2.trace,
      ev.err = none) :
    reconcileKinds (ensureResourcesAreDeployed cc cluster { store := st, trace := [] }).2.trace =
      [Kind.StatefulSets, Kind.Deployments, Kind.CronJobs, Kind.PodDisruptionBudgets,
       Kind.VerticalPodAutoscalers] ∧
    (∀ k ∈ [Kind.Services, Kind.Secrets, Kind.ConfigMaps],
      k ∉ reconcileKinds
        (ensureResourcesAreDeployed cc cluster { store := st, trace := [] }).2.trace) ∧
    (ensureResourcesAreDeployed cc cluster { store := st, trace := [] }).1 = none := by
  obtain ⟨-, hrun⟩ := runs_from_empty cc _ (pass_runs_ready cc cluster data hd hg) st
  obtain ⟨h1, h2, h3⟩ := planRun_of_succeeded hrun hs
  have hk : reconcileKinds
      (ensureResourcesAreDeployed cc cluster { store := st, trace := [] }).2.trace =
      [Kind.StatefulSets, Kind.Deployments, Kind.CronJobs, Kind.PodDisruptionBudgets,
       Kind.VerticalPodAutoscalers] := by
    rw [h2]; simp [stagePlan, ha, reconcileKinds]
  refine ⟨hk, ?_, h1⟩
  rw [hk]
  decide

/-- Witness of C5: a cluster with the openshift annotation whose infrastructure is ready, on a
store where every call succeeds. -/
theorem ensureResourcesAreDeployed_openshift_stages_witness :
    reconcileKinds (ensureResourcesAreDeployed (exampleController exampleResources)
        (exampleCluster [("kubermatic.io/openshift", "true")] true)
        { store := 0, trace := [] }).2.trace =
      [Kind.StatefulSets, Kind.Deployments, Kind.CronJobs, Kind.PodDisruptionBudgets,
       Kind.VerticalPodAutoscalers] ∧
    (∀ k ∈ [Kind.Services, Kind.Secrets, Kind.ConfigMaps],
      k ∉ reconcileKinds (ensureResourcesAreDeployed (exampleController exampleResources)
        (exampleCluster [("kubermatic.io/openshift", "true")] true)
        { store := 0, trace := [] }).2.trace) ∧
    (ensureResourcesAreDeployed (exampleController exampleResources)
        (exampleCluster [("kubermatic.io/openshift", "true")] true)
        { store := 0, trace := [] }).1 = none :=
  ensureResourcesAreDeployed_openshift_stages (exampleController exampleResources)
    (exampleCluster [("kubermatic.io/openshift", "true")] true) 0
    (exampleTemplateData (exampleCluster [("kubermatic.io/openshift", "true")] true))
    rfl (by decide) rfl (by decide)

/-- C6: for template data with a non-nil cluster, `GetDeploymentCreators` returns exactly the
two getters openvpn and dns, in that order, when the openshift annotation of the cluster is
not empty, and these two followed by apiserver, scheduler, controller-manager,
machine-controller, machine-controller webhook, metrics-server and user-cluster controller,
in that order (nine in all), when the annotation is empty. -/
theorem GetDeploymentCreators_registry (data : TemplateData) (cluster : Cluster)
    (hc : data.Cluster = some cluster) :
    (mapIndex cluster.Annotations "kubermatic.io/openshift" ≠ "" →
      GetDeploymentCreators data =
        [NamedDeploymentCreatorGetter.openvpn_DeploymentCreator data,
         NamedDeploymentCreatorGetter.dns_DeploymentCreator data]) ∧
    (mapIndex cluster.Annotations "kubermatic.io/openshift" = "" →
      GetDeploymentCreators data =
        [NamedDeploymentCreatorGetter.openvpn_DeploymentCreator data,
         NamedDeploymentCreatorGetter.dns_DeploymentCreator data,
         NamedDeploymentCreatorGetter.apiserver_DeploymentCreator data,
         NamedDeploymentCreatorGetter.scheduler_DeploymentCreator data,
         NamedDeploymentCreatorGetter.controllermanager_DeploymentCreator data,
         NamedDeploymentCreatorGetter.machinecontroller_DeploymentCreator data,
         NamedDeploymentCreatorGetter.machinecontroller_WebhookDeploymentCreator data,
         NamedDeploymentCreatorGetter.metricsserver_DeploymentCreator data,
         NamedDeploymentCreatorGetter.usercluster_DeploymentCreator data false] ∧
      (GetDeploymentCreators data).length = 9) := by
  constructor
  · intro ha
    simp [GetDeploymentCreators, hc, ha]
  · intro ha
    simp [GetDeploymentCreators, hc, ha]

/-- Witness of C6: the registry for a cluster with the openshift annotation and the length of
the registry for a cluster without it. -/
theorem GetDeploymentCreators_registry_witness :
    GetDeploymentCreators
        (exampleTemplateData (exampleCluster [("kubermatic.io/openshift", "true")] true)) =
      [NamedDeploymentCreatorGetter.openvpn_DeploymentCreator
         (exampleTemplateData (exampleCluster [("kubermatic.io/openshift", "true")] true)),
       NamedDeploymentCreatorGetter.dns_DeploymentCreator
         (exampleTemplateData (exampleCluster [("kubermatic.io/openshift", "true")] true))] ∧
    (GetDeploymentCreators (exampleTemplateData (exampleCluster [] true))).length = 9 :=
  ⟨(GetDeploymentCreators_registry
      (exampleTemplateData (exampleCluster [("kubermatic.io/openshift", "true")] true))
      (exampleCluster [("kubermatic.io/openshift", "true")] true) rfl).1 (by decide),
   ((GetDeploymentCreators_registry (exampleTemplateData (exampleCluster [] true))
      (exampleCluster [] true) rfl).2 (by decide)).2⟩

/-- C7: when the inner creator returns a non-nil object and a nil error, the creator built
by `disableVPAWrapper` returns a nil error and the same object with `Spec.UpdatePolicy`
replaced by a policy whose update mode is `Off`: the mode the inner creator set is
overwritten, a nil update policy is replaced, and the metadata, the target reference, the
resource policy and the status are those of the inner result. -/
theorem disableVPAWrapper_forces_off (create : VerticalPodAutoscalerCreator)
    (input : Option VerticalPodAutoscaler) (vpa : VerticalPodAutoscaler)
    (h : create input = GoResult.ret (some vpa) none) :
    ∃ out : VerticalPodAutoscaler,
      disableVPAWrapper create input = GoResult.ret (some out) none ∧
      out.Spec.UpdatePolicy = some { UpdateMode := some UpdateMode.Off } ∧
      out.ObjectMeta = vpa.ObjectMeta ∧
      out.Spec.TargetRef = vpa.Spec.TargetRef ∧
      out.Spec.ResourcePolicy = vpa.Spec.ResourcePolicy ∧
      out.Status = vpa.Status :=
  ⟨{ vpa with Spec := { vpa.Spec with
        UpdatePolicy := some { UpdateMode := some UpdateMode.Off } } },
   by simp [disableVPAWrapper, h], rfl, rfl, rfl, rfl, rfl⟩

/-- Witness of C7: an inner creator that returns a policy with update mode `Auto`. -/
theorem disableVPAWrapper_forces_off_witness :
    ∃ out : VerticalPodAutoscaler,
      disableVPAWrapper (fun _ => GoResult.ret (some exampleVPA) none) none =
        GoResult.ret (some out) none ∧
      out.Spec.UpdatePolicy = some { UpdateMode := some UpdateMode.Off } ∧
      out.ObjectMeta = exampleVPA.ObjectMeta ∧
      out.Spec.TargetRef = exampleVPA.Spec.TargetRef ∧
      out.Spec.ResourcePolicy = exampleVPA.Spec.ResourcePolicy ∧
      out.Status = exampleVPA.Status :=
  disableVPAWrapper_forces_off (fun _ => GoResult.ret (some exampleVPA) none) none exampleVPA
    rfl

/-- C8: when the inner creator returns a non-nil error `e` (with whatever object), the
creator built by `disableVPAWrapper` returns a nil object and that same error `e`. -/
theorem disableVPAWrapper_propagates_error (create : VerticalPodAutoscalerCreator)
    (input : Option VerticalPodAutoscaler) (value : Option VerticalPodAutoscaler)
    (e : GoError) (h : create input = GoResult.ret value (some e)) :
    disableVPAWrapper create input = GoResult.ret none (some e) := by
  simp [disableVPAWrapper, h]

/-- Witness of C8: an inner creator that returns an object together with an error. -/
theorem disableVPAWrapper_propagates_error_witness :
    disableVPAWrapper
        (fun _ => GoResult.ret (some exampleVPA) (some (GoError.errorString "no target")))
        (some exampleVPA) =
      GoResult.ret none (some (GoError.errorString "no target")) :=
  disableVPAWrapper_propagates_error
    (fun _ => GoResult.ret (some exampleVPA) (some (GoError.errorString "no target")))
    (some exampleVPA) (some exampleVPA) (GoError.errorString "no target") rfl

/-- The method under the other scope rule: with one range variable for the whole loop
(a Go language version before 1.22), the feature switched off and a registry of the five
getters named dns-resolver, machine-controller, machine-controller-webhook, openvpn-server
and etcd, all five getters handed to `ReconcileVerticalPodAutoscalers` resolve to the name
etcd, the name of the last getter. -/
theorem ensureVerticalPodAutoscalers_perLoop_names :
    handedOverNames (ensureVerticalPodAutoscalers
        { exampleController exampleResources with rangeVarScope := .perLoop }
        (exampleCluster [("kubermatic.io/openshift", "true")] true)
        (exampleTemplateData (exampleCluster [("kubermatic.io/openshift", "true")] true))
        { store := 0, trace := [] }).2.trace =
      [["etcd", "etcd", "etcd", "etcd", "etcd"]] := by
  decide

/-- C10: every `Reconcile*` call made during a pass on a cluster is given the namespace
`cluster.Status.NamespaceName` of that cluster and exactly one object modifier, the
owner-reference wrapper built from `GetClusterRef` of that same cluster. -/
theorem ensureResourcesAreDeployed_call_arguments {σ : Type} (cc : Controller σ)
    (cluster : Cluster) (st : σ) (call : ReconcileCall) (err : Option GoError)
    (h : Event.reconcile call err ∈
      (ensureResourcesAreDeployed cc cluster { store := st, trace := [] }).2.trace) :
    call.namespaceArg = cluster.Status.NamespaceName ∧
    call.objectModifiers =
      [ObjectModifier.OwnerRefWrapper (cc.resources.GetClusterRef cluster)] := by
  cases hd : getClusterTemplateData cc cluster with
  | error e =>
    rw [pass_without_template_data cc cluster _ e hd] at h
    simp at h
  | ok data =>
    obtain ⟨-, tail, plan, htail, -, hrun⟩ := pass_runs cc cluster st data hd
    exact (planRun_calls hrun (fun ev hev => (htail ev hev).2) call err h).1

/-- Witness of C10: the call for Deployments of a pass on which every call succeeds. -/
theorem ensureResourcesAreDeployed_call_arguments_witness :
    (ReconcileCall.Deployments
        (GetDeploymentCreators (exampleTemplateData (exampleCluster [] true))) "cluster-abcd"
        [ObjectModifier.OwnerRefWrapper
          (exampleResources.GetClusterRef (exampleCluster [] true))]).namespaceArg =
      (exampleCluster [] true).Status.NamespaceName ∧
    (ReconcileCall.Deployments
        (GetDeploymentCreators (exampleTemplateData (exampleCluster [] true))) "cluster-abcd"
        [ObjectModifier.OwnerRefWrapper
          (exampleResources.GetClusterRef (exampleCluster [] true))]).objectModifiers =
      [ObjectModifier.OwnerRefWrapper
        ((exampleController exampleResources).resources.GetClusterRef (exampleCluster [] true))] :=
  ensureResourcesAreDeployed_call_arguments (exampleController exampleResources)
    (exampleCluster [] true) 0 _ none (List.mem_iff_getElem?.mpr ⟨4, rfl⟩)

/-! ## Lemmas on maps and on the OpenVPN ConfigMap creator -/

theorem lookup_mapSet (m : List (String × String)) (key value k : String) :
    (mapSet m key value).lookup k = if k = key then some value else m.lookup k := by
  induction m with
  | nil =>
    by_cases h : k = key
    · have hb : (k == key) = true := by simpa using h
      simp [mapSet, List.lookup, h]
    · have hb : (k == key) = false := by simpa using h
      simp [mapSet, List.lookup, h, hb]
  | cons p rest ih =>
    obtain ⟨k0, v0⟩ := p
    by_cases h0 : k0 = key
    · by_cases h : k = key
      · simp [mapSet, List.lookup, h0, h]
      · have hb : (k == key) = false := by simpa using h
        simp [mapSet, List.lookup, h0, h, hb]
    · by_cases h1 : k = k0
      · have h : ¬ k = key := by rw [h1]; exact h0
        simp [mapSet, List.lookup, h0, h1]
      · simp only [mapSet, h0, if_false, List.lookup]
        have hb : (k == k0) = false := by simpa using h1
        rw [hb]
        exact ih

theorem mapSet_mapSet (m : List (String × String)) (key value : String) :
    mapSet (mapSet m key value) key value = mapSet m key value := by
  induction m with
  | nil => simp [mapSet]
  | cons p rest ih =>
    obtain ⟨k0, v0⟩ := p
    by_cases h0 : k0 = key
    · simp [mapSet, h0]
    · simp [mapSet, h0, ih]

/-- The result of the OpenVPN ConfigMap creator on a non-nil ConfigMap, for a cluster with
at least one block of each kind, read off the three parse results. -/
theorem ServerClientConfigsConfigMapCreator_apply (consts : ResourceConstants) (net : NetText)
    (data : TemplateData) (cluster : Cluster) (cm : ConfigMap)
    (pod svc : String) (pods svcs : List String)
    (hc : data.Cluster = some cluster)
    (hp : cluster.Spec.ClusterNetwork.Pods.CIDRBlocks = pod :: pods)
    (hs : cluster.Spec.ClusterNetwork.Services.CIDRBlocks = svc :: svcs) :
    (ServerClientConfigsConfigMapCreator consts net data ()).2 (some cm) =
      match ParseCIDR net pod with
      | .error err => .ret none (some err)
      | .ok podNet =>
        match ParseCIDR net svc with
        | .error err => .ret none (some err)
        | .ok serviceNet =>
          match ParseCIDR net data.NodeAccessNetwork with
          | .error err =>
            .ret none (some (fmtErrorf ("failed to parse node access network " ++
              data.NodeAccessNetwork ++ ": ") err))
          | .ok nodeNet =>
            .ret (some
              { ObjectMeta := { cm.ObjectMeta with
                  Labels := consts.BaseAppLabel consts.openvpn_name none }
                Data := some (mapSet (cm.Data.getD []) "user-cluster-client"
                  (irouteLine net podNet ++ "\n" ++ irouteLine net serviceNet ++ "\n" ++
                   irouteLine net nodeNet ++ "\n"))
                BinaryData := cm.BinaryData }) none := by
  simp only [ServerClientConfigsConfigMapCreator, hc, hp, hs, List.length_cons, List.headD_cons]
  have h1 : ¬ (pods.length + 1 < 1) := by omega
  have h2 : ¬ (svcs.length + 1 < 1) := by omega
  simp only [h1, h2, if_false]
  cases ParseCIDR net pod with
  | error e => rfl
  | ok podNet =>
    cases ParseCIDR net svc with
    | error e => rfl
    | ok serviceNet =>
      cases ParseCIDR net data.NodeAccessNetwork with
      | error e => rfl
      | ok nodeNet =>
        simp only [List.nil_append, List.cons_append, String.intercalate,
          String.intercalate.go]
        cases hd : cm.Data <;> simp [String.append_assoc]

theorem keys_mapSet (m : List (String × String)) (key value k : String)
    (h : k ∈ (mapSet m key value).map Prod.fst) : k = key ∨ k ∈ m.map Prod.fst := by
  induction m with
  | nil => simpa [mapSet] using h
  | cons p rest ih =>
    obtain ⟨k0, v0⟩ := p
    by_cases h0 : k0 = key
    · simp only [mapSet, h0, if_true, List.map_cons, List.mem_cons] at h ⊢
      rcases h with h | h
      · exact Or.inl h
      · exact Or.inr (Or.inr h)
    · simp only [mapSet, h0, if_false, List.map_cons, List.mem_cons] at h ⊢
      rcases h with h | h
      · exact Or.inr (Or.inl h)
      · rcases ih h with h2 | h2
        · exact Or.inl h2
        · exact Or.inr (Or.inr h2)

/-- When the OpenVPN ConfigMap creator succeeds, the data it returns is the data of its input
with the entry `user-cluster-client` set. -/
theorem ServerClientConfigsConfigMapCreator_data (consts : ResourceConstants) (net : NetText)
    (data : TemplateData) (cm out : ConfigMap)
    (h : (ServerClientConfigsConfigMapCreator consts net data ()).2 (some cm) =
      GoResult.ret (some out) none) :
    ∃ value, out.Data = some (mapSet (cm.Data.getD []) "user-cluster-client" value) := by
  cases hc : data.Cluster with
  | none => simp [ServerClientConfigsConfigMapCreator, hc] at h
  | some cluster =>
    cases hp : cluster.Spec.ClusterNetwork.Pods.CIDRBlocks with
    | nil => simp [ServerClientConfigsConfigMapCreator, hc, hp] at h
    | cons pod pods =>
      have h1 : ¬ (pods.length + 1 < 1) := by omega
      cases hs : cluster.Spec.ClusterNetwork.Services.CIDRBlocks with
      | nil =>
        simp only [ServerClientConfigsConfigMapCreator, hc, hp, hs, List.length_cons, h1,
          if_false, List.headD_cons, List.length_nil] at h
        cases hpp : ParseCIDR net pod <;> simp [hpp] at h
      | cons svc svcs =>
        rw [ServerClientConfigsConfigMapCreator_apply consts net data cluster _ pod svc pods
          svcs hc hp hs] at h
        cases hpp : ParseCIDR net pod with
        | error e => simp [hpp] at h
        | ok podNet =>
          cases hss : ParseCIDR net svc with
          | error e => simp [hpp, hss] at h
          | ok serviceNet =>
            cases hnn : ParseCIDR net data.NodeAccessNetwork with
            | error e => simp [hpp, hss, hnn] at h
            | ok nodeNet =>
              simp only [hpp, hss, hnn, GoResult.ret.injEq, Option.some.injEq, and_true] at h
              subst h
              exact ⟨_, rfl⟩

theorem lookup_mapSetBytes_self (m : List (String × List Nat)) (key : String)
    (value : List Nat) : (mapSetBytes m key value).lookup key = some value := by
  induction m with
  | nil => simp [mapSetBytes, List.lookup]
  | cons p rest ih =>
    obtain ⟨k0, v0⟩ := p
    by_cases h0 : k0 = key
    · simp [mapSetBytes, List.lookup, h0]
    · have hb : (key == k0) = false := by
        simpa using fun h : key = k0 => h0 h.symm
      simp only [mapSetBytes, h0, if_false, List.lookup, hb]
      exact ih

/-! ## The claims on the creators -/

theorem ServerClientConfigsConfigMapCreator_idempotent (consts : ResourceConstants)
    (net : NetText) (data : TemplateData) (o : Option ConfigMap) (r : ConfigMap)
    (h : (ServerClientConfigsConfigMapCreator consts net data ()).2 o = .ret (some r) none) :
    (ServerClientConfigsConfigMapCreator consts net data ()).2 (some r) = .ret (some r) none := by
  cases o with
  | none => simp [ServerClientConfigsConfigMapCreator] at h
  | some cm =>
    cases hc : data.Cluster with
    | none => simp [ServerClientConfigsConfigMapCreator, hc] at h
    | some cluster =>
      cases hp : cluster.Spec.ClusterNetwork.Pods.CIDRBlocks with
      | nil => simp [ServerClientConfigsConfigMapCreator, hc, hp] at h
      | cons pod pods =>
        have h1 : ¬ (pods.length + 1 < 1) := by omega
        cases hs : cluster.Spec.ClusterNetwork.Services.CIDRBlocks with
        | nil =>
          simp only [ServerClientConfigsConfigMapCreator, hc, hp, hs, List.length_cons, h1,
            if_false, List.headD_cons, List.length_nil] at h
          cases hpp : ParseCIDR net pod with
          | error e => simp [hpp] at h
          | ok n => simp [hpp] at h
        | cons svc svcs =>
          rw [ServerClientConfigsConfigMapCreator_apply consts net data cluster _ pod svc pods
            svcs hc hp hs] at h ⊢
          cases hpp : ParseCIDR net pod with
          | error e => simp [hpp] at h
          | ok podNet =>
            cases hss : ParseCIDR net svc with
            | error e => simp [hpp, hss] at h
            | ok serviceNet =>
              cases hnn : ParseCIDR net data.NodeAccessNetwork with
              | error e => simp [hpp, hss, hnn] at h
              | ok nodeNet =>
                simp only [hpp, hss, hnn, GoResult.ret.injEq, Option.some.injEq, and_true] at h ⊢
                subst h
                simp [mapSet_mapSet]

/-- C11: for the OpenVPN client-config ConfigMap creator, the DNAT and metrics-server
ClusterRole creators and the four cluster-API CRD creators (Machine, MachineSet,
MachineDeployment, Cluster): when the creator succeeds on an input with the object `r`,
it succeeds on `r` again and returns an object equal to `r`. -/
theorem creators_idempotent (consts : ResourceConstants) (net : NetText)
    (data : TemplateData) :
    (∀ (o : Option ConfigMap) (r : ConfigMap),
      (ServerClientConfigsConfigMapCreator consts net data ()).2 o = .ret (some r) none →
      (ServerClientConfigsConfigMapCreator consts net data ()).2 (some r) =
        .ret (some r) none) ∧
    (∀ (o : Option ClusterRole) (r : ClusterRole),
      (dnatcontroller_ClusterRoleCreator consts ()).2 o = .ret (some r) none →
      (dnatcontroller_ClusterRoleCreator consts ()).2 (some r) = .ret (some r) none) ∧
    (∀ (o : Option ClusterRole) (r : ClusterRole),
      (metricsserver_ClusterRoleCreator consts ()).2 o = .ret (some r) none →
      (metricsserver_ClusterRoleCreator consts ()).2 (some r) = .ret (some r) none) ∧
    (∀ (o : Option CustomResourceDefinition) (r : CustomResourceDefinition),
      (MachineCRDCreator consts ()).2 o = .ret (some r) none →
      (MachineCRDCreator consts ()).2 (some r) = .ret (some r) none) ∧
    (∀ (o : Option CustomResourceDefinition) (r : CustomResourceDefinition),
      (MachineSetCRDCreator consts ()).2 o = .ret (some r) none →
      (MachineSetCRDCreator consts ()).2 (some r) = .ret (some r) none) ∧
    (∀ (o : Option CustomResourceDefinition) (r : CustomResourceDefinition),
      (MachineDeploymentCRDCreator consts ()).2 o = .ret (some r) none →
      (MachineDeploymentCRDCreator consts ()).2 (some r) = .ret (some r) none) ∧
    (∀ (o : Option CustomResourceDefinition) (r : CustomResourceDefinition),
      (ClusterCRDCreator consts ()).2 o = .ret (some r) none →
      (ClusterCRDCreator consts ()).2 (some r) = .ret (some r) none) := by
  refine ⟨ServerClientConfigsConfigMapCreator_idempotent consts net data, ?_, ?_, ?_, ?_, ?_, ?_⟩
  · intro o r h
    cases o with
    | none => simp [dnatcontroller_ClusterRoleCreator] at h
    | some cr =>
      simp only [dnatcontroller_ClusterRoleCreator, GoResult.ret.injEq, Option.some.injEq,
        and_true] at h ⊢
      subst h
      rfl
  · intro o r h
    cases o with
    | none => simp [metricsserver_ClusterRoleCreator] at h
    | some cr =>
      simp only [metricsserver_ClusterRoleCreator, GoResult.ret.injEq, Option.some.injEq,
        and_true] at h ⊢
      subst h
      rfl
  · intro o r h
    cases o with
    | none => simp [MachineCRDCreator] at h
    | some crd =>
      simp only [MachineCRDCreator, GoResult.ret.injEq, Option.some.injEq, and_true] at h ⊢
      subst h
      rfl
  · intro o r h
    cases o with
    | none => simp [MachineSetCRDCreator] at h
    | some crd =>
      simp only [MachineSetCRDCreator, GoResult.ret.injEq, Option.some.injEq, and_true] at h ⊢
      subst h
      rfl
  · intro o r h
    cases o with
    | none => simp [MachineDeploymentCRDCreator] at h
    | some crd =>
      simp only [MachineDeploymentCRDCreator, GoResult.ret.injEq, Option.some.injEq,
        and_true] at h ⊢
      subst h
      rfl
  · intro o r h
    cases o with
    | none => simp [ClusterCRDCreator] at h
    | some crd =>
      simp only [ClusterCRDCreator, GoResult.ret.injEq, Option.some.injEq, and_true] at h ⊢
      subst h
      rfl

/-- Witness of C11: the OpenVPN ConfigMap creator, the DNAT ClusterRole creator and the
Machine CRD creator, each run again on the object it returned for a stored object. -/
theorem creators_idempotent_witness :
    (ServerClientConfigsConfigMapCreator exampleConstants exampleNet exampleNetworkData ()).2
        (some exampleConfigMapResult) = GoResult.ret (some exampleConfigMapResult) none ∧
    (dnatcontroller_ClusterRoleCreator exampleConstants ()).2
        (some { exampleClusterRole with Rules := [
          { APIGroups := [""], Resources := ["nodes"], Verbs := ["list", "get", "watch"],
            ResourceNames := [], NonResourceURLs := [] }] }) =
      GoResult.ret (some { exampleClusterRole with Rules := [
          { APIGroups := [""], Resources := ["nodes"], Verbs := ["list", "get", "watch"],
            ResourceNames := [], NonResourceURLs := [] }] }) none :=
  ⟨(creators_idempotent exampleConstants exampleNet exampleNetworkData).1
      (some exampleConfigMap) exampleConfigMapResult rfl,
   (creators_idempotent exampleConstants exampleNet exampleNetworkData).2.1
      (some exampleClusterRole) _ rfl⟩

/-- C12: for every data provider (so for every root CA), common name and list of
organisations, on the modelled creator of an internal kubeconfig: when a run on an absent
secret returns the secret `se1`, a run on a copy of `se1`, with whatever the random source
then gives, returns `se1` again, so the payload under the kubeconfig key is the same byte
for byte: the material is kept, not generated again. -/
theorem GetInternalKubeconfigCreator_keeps_payload (helpers : KubeconfigHelpers)
    (name commonName : String) (organizations : List String) (data : SecretDataProvider)
    (random1 random2 : List Nat) (se1 : Secret)
    (h1 : GetInternalKubeconfigCreator helpers name commonName organizations data none
      random1 = GoResult.ret (some se1) none) :
    ∃ se2, GetInternalKubeconfigCreator helpers name commonName organizations data (some se1)
        random2 = GoResult.ret (some se2) none ∧
      se2 = se1 ∧
      kubeconfigPayload helpers se2 = kubeconfigPayload helpers se1 ∧
      ∃ fresh, helpers.generateKubeconfig data commonName organizations random1 = .ok fresh ∧
        kubeconfigPayload helpers se1 = fresh := by
  simp only [GetInternalKubeconfigCreator, List.lookup] at h1
  cases hb : helpers.generateKubeconfig data commonName organizations random1 with
  | error e => simp [hb] at h1
  | ok fresh =>
    simp only [hb, GoResult.ret.injEq, Option.some.injEq, and_true] at h1
    subst h1
    refine ⟨_, ?_, rfl, rfl, fresh, rfl, ?_⟩
    · simp only [GetInternalKubeconfigCreator, lookup_mapSetBytes_self]
    · simp [kubeconfigPayload, lookup_mapSetBytes_self]

/-- Witness of C12: the data provider of the test with a root CA, no organisations, and two
runs with different random bytes; a run on an absent secret with the second random bytes
would have generated another payload. -/
theorem GetInternalKubeconfigCreator_keeps_payload_witness :
    (∃ se2, GetInternalKubeconfigCreator exampleKubeconfigHelpers "test-creator"
        "test-creator-cn" [] (fakeDataProvider exampleCA) (some exampleSecret)
        [9, 9, 9] = GoResult.ret (some se2) none ∧
      se2 = exampleSecret ∧
      kubeconfigPayload exampleKubeconfigHelpers se2 =
        kubeconfigPayload exampleKubeconfigHelpers exampleSecret ∧
      ∃ fresh, exampleKubeconfigHelpers.generateKubeconfig (fakeDataProvider exampleCA)
          "test-creator-cn" [] [7, 7] = .ok fresh ∧
        kubeconfigPayload exampleKubeconfigHelpers exampleSecret = fresh) ∧
    kubeconfigPayload exampleKubeconfigHelpers exampleSecret = [48, 130, 5, 120, 7, 7] ∧
    exampleKubeconfigHelpers.generateKubeconfig (fakeDataProvider exampleCA)
      "test-creator-cn" [] [9, 9, 9] = .ok [48, 130, 5, 120, 9, 9, 9] :=
  ⟨GetInternalKubeconfigCreator_keeps_payload exampleKubeconfigHelpers "test-creator"
    "test-creator-cn" [] (fakeDataProvider exampleCA) [7, 7] [9, 9, 9] exampleSecret rfl,
   by decide, rfl⟩

/-- C13: on a non-nil ConfigMap and for template data with a cluster, the OpenVPN
client-config ConfigMap creator returns an error, and then no object, exactly when the list of
pod CIDR blocks is empty, or its first block is not parsable, or the list of service CIDR
blocks is empty, or its first block is not parsable, or the node access network is not
parsable; in every other case it returns an object and no error. -/
theorem ServerClientConfigsConfigMapCreator_fails_iff (consts : ResourceConstants)
    (net : NetText) (data : TemplateData) (cluster : Cluster) (cm : ConfigMap)
    (hc : data.Cluster = some cluster) :
    ((∃ e, (ServerClientConfigsConfigMapCreator consts net data ()).2 (some cm) =
        GoResult.ret none (some e)) ↔
      (cluster.Spec.ClusterNetwork.Pods.CIDRBlocks = [] ∨
       (∃ pod pods e, cluster.Spec.ClusterNetwork.Pods.CIDRBlocks = pod :: pods ∧
          ParseCIDR net pod = .error e) ∨
       cluster.Spec.ClusterNetwork.Services.CIDRBlocks = [] ∨
       (∃ svc svcs e, cluster.Spec.ClusterNetwork.Services.CIDRBlocks = svc :: svcs ∧
          ParseCIDR net svc = .error e) ∨
       (∃ e, ParseCIDR net data.NodeAccessNetwork = .error e))) ∧
    ((∃ out, (ServerClientConfigsConfigMapCreator consts net data ()).2 (some cm) =
        GoResult.ret (some out) none) ↔
      ¬ (cluster.Spec.ClusterNetwork.Pods.CIDRBlocks = [] ∨
       (∃ pod pods e, cluster.Spec.ClusterNetwork.Pods.CIDRBlocks = pod :: pods ∧
          ParseCIDR net pod = .error e) ∨
       cluster.Spec.ClusterNetwork.Services.CIDRBlocks = [] ∨
       (∃ svc svcs e, cluster.Spec.ClusterNetwork.Services.CIDRBlocks = svc :: svcs ∧
          ParseCIDR net svc = .error e) ∨
       (∃ e, ParseCIDR net data.NodeAccessNetwork = .error e))) := by
  cases hp : cluster.Spec.ClusterNetwork.Pods.CIDRBlocks with
  | nil => simp [ServerClientConfigsConfigMapCreator, hc, hp]
  | cons pod pods =>
    have h1 : ¬ (pods.length + 1 < 1) := by omega
    cases hs : cluster.Spec.ClusterNetwork.Services.CIDRBlocks with
    | nil =>
      simp only [ServerClientConfigsConfigMapCreator, hc, hp, hs, List.length_cons, h1,
        if_false, List.headD_cons, List.length_nil]
      cases hpp : ParseCIDR net pod <;> simp [hpp]
    | cons svc svcs =>
      rw [ServerClientConfigsConfigMapCreator_apply consts net data cluster _ pod svc pods
        svcs hc hp hs]
      cases hpp : ParseCIDR net pod with
      | error e => simp [hpp]
      | ok podNet =>
        cases hss : ParseCIDR net svc with
        | error e => simp [hpp, hss]
        | ok serviceNet =>
          cases hnn : ParseCIDR net data.NodeAccessNetwork with
          | error e => simp [hpp, hss, hnn]
          | ok nodeNet => simp [hpp, hss, hnn]

/-- Witness of C13: a cluster without pod CIDR blocks; the creator returns an error and no
object. -/
theorem ServerClientConfigsConfigMapCreator_fails_iff_witness :
    ∃ e, (ServerClientConfigsConfigMapCreator exampleConstants exampleNet
        (exampleTemplateData (exampleNetworkCluster [] ["10.10.10.0/24"])) ()).2
        (some exampleConfigMap) = GoResult.ret none (some e) :=
  (ServerClientConfigsConfigMapCreator_fails_iff exampleConstants exampleNet
    (exampleTemplateData (exampleNetworkCluster [] ["10.10.10.0/24"]))
    (exampleNetworkCluster [] ["10.10.10.0/24"]) exampleConfigMap rfl).1.mpr (Or.inl rfl)

/-- C15: `ensureVerticalPodAutoscalers` first asks for the getters of the autoscaler
policies, once: for the deployments dns-resolver, machine-controller,
machine-controller-webhook and openvpn-server and the stateful set etcd when the openshift
annotation of the cluster is not empty, and for these deployments followed by apiserver,
controller-manager, scheduler and metrics-server when it is empty; every later call is a
`Reconcile*` call; and when building the getters fails, nothing is reconciled and an error is
returned. -/
theorem ensureVerticalPodAutoscalers_requests {σ : Type} (cc : Controller σ) (c : Cluster)
    (data : TemplateData) (st : σ) :
    (mapIndex c.Annotations "kubermatic.io/openshift" ≠ "" →
      ∃ err rest,
        (ensureVerticalPodAutoscalers cc c data { store := st, trace := [] }).2.trace =
          Event.getVerticalPodAutoscalersForAll
            ["dns-resolver", "machine-controller", "machine-controller-webhook",
             "openvpn-server"]
            ["etcd"] c.Status.NamespaceName err :: rest ∧
        ∀ ev ∈ rest, ev.kind? = some Kind.VerticalPodAutoscalers) ∧
    (mapIndex c.Annotations "kubermatic.io/openshift" = "" →
      ∃ err rest,
        (ensureVerticalPodAutoscalers cc c data { store := st, trace := [] }).2.trace =
          Event.getVerticalPodAutoscalersForAll
            ["dns-resolver", "machine-controller", "machine-controller-webhook",
             "openvpn-server", "apiserver", "controller-manager", "scheduler",
             "metrics-server"]
            ["etcd"] c.Status.NamespaceName err :: rest ∧
        ∀ ev ∈ rest, ev.kind? = some Kind.VerticalPodAutoscalers) ∧
    (∀ d s n e, Event.getVerticalPodAutoscalersForAll d s n (some e) ∈
        (ensureVerticalPodAutoscalers cc c data { store := st, trace := [] }).2.trace →
      reconcileKinds
        (ensureVerticalPodAutoscalers cc c data { store := st, trace := [] }).2.trace = [] ∧
      (ensureVerticalPodAutoscalers cc c data { store := st, trace := [] }).1 =
        some (GoError.errorString
          ("failed to create the functions to handle VPA resources: " ++ e.Error))) := by
  refine ⟨?_, ?_, ?_⟩
  · intro ha
    simp only [ensureVerticalPodAutoscalers, ha, if_false]
    generalize cc.resources.GetVerticalPodAutoscalersForAll _ _ _ _ = r
    rcases r with ⟨gs, _ | e⟩
    · refine ⟨none, _, rfl, ?_⟩
      simp [Event.kind?, ReconcileCall.kind]
    · exact ⟨some e, [], rfl, by simp⟩
  · intro ha
    simp only [ensureVerticalPodAutoscalers, ha, if_true]
    generalize cc.resources.GetVerticalPodAutoscalersForAll _ _ _ _ = r
    rcases r with ⟨gs, _ | e⟩
    · refine ⟨none, _, rfl, ?_⟩
      simp [Event.kind?, ReconcileCall.kind]
    · exact ⟨some e, [], rfl, by simp⟩
  · intro d s n e
    simp only [ensureVerticalPodAutoscalers]
    generalize (if mapIndex c.Annotations "kubermatic.io/openshift" = "" then _ else _) = names
    generalize cc.resources.GetVerticalPodAutoscalersForAll _ _ _ _ = r
    rcases r with ⟨gs, _ | e1⟩
    · simp [callReconcile]
    · intro h
      simp only [List.nil_append, List.mem_singleton,
        Event.getVerticalPodAutoscalersForAll.injEq, Option.some.injEq] at h
      obtain ⟨-, -, -, rfl⟩ := h
      simp [reconcileKinds, Event.kind?, fmtErrorf]

/-- Witness of C15: a cluster with the openshift annotation, then a cluster without it on a
store where building the getters fails. -/
theorem ensureVerticalPodAutoscalers_requests_witness :
    (∃ err rest,
      (ensureVerticalPodAutoscalers (exampleController exampleResources)
          (exampleCluster [("kubermatic.io/openshift", "true")] true)
          (exampleTemplateData (exampleCluster [("kubermatic.io/openshift", "true")] true))
          { store := 0, trace := [] }).2.trace =
        Event.getVerticalPodAutoscalersForAll
          ["dns-resolver", "machine-controller", "machine-controller-webhook",
           "openvpn-server"]
          ["etcd"] (exampleCluster [("kubermatic.io/openshift", "true")] true).Status.NamespaceName
          err :: rest ∧
      ∀ ev ∈ rest, ev.kind? = some Kind.VerticalPodAutoscalers) ∧
    (reconcileKinds
        (ensureVerticalPodAutoscalers
          (exampleController (failingGetterResources (GoError.errorString "cache not synced")))
          (exampleCluster [] true) (exampleTemplateData (exampleCluster [] true))
          { store := 0, trace := [] }).2.trace = [] ∧
      (ensureVerticalPodAutoscalers
          (exampleController (failingGetterResources (GoError.errorString "cache not synced")))
          (exampleCluster [] true) (exampleTemplateData (exampleCluster [] true))
          { store := 0, trace := [] }).1 =
        some (GoError.errorString
          ("failed to create the functions to handle VPA resources: " ++
            (GoError.errorString "cache not synced").Error))) :=
  ⟨(ensureVerticalPodAutoscalers_requests (exampleController exampleResources)
      (exampleCluster [("kubermatic.io/openshift", "true")] true)
      (exampleTemplateData (exampleCluster [("kubermatic.io/openshift", "true")] true)) 0).1
      (by decide),
   (ensureVerticalPodAutoscalers_requests
      (exampleController (failingGetterResources (GoError.errorString "cache not synced")))
      (exampleCluster [] true) (exampleTemplateData (exampleCluster [] true)) 0).2.2
      _ _ _ _ (List.mem_iff_getElem?.mpr ⟨0, rfl⟩)⟩

/-! ## Lemmas on networks: what `ParseCIDR` computes is the network of the block -/

/-- A byte combined by a bitwise and with a byte whose leading bits are set keeps its
leading bits and loses the others. -/
theorem byte_land_mask (a m : Nat) (ha : a < 256)
    (hm : m ∈ [0, 128, 192, 224, 240, 248, 252, 254, 255]) :
    a &&& m = a - a % (256 - m) := by
  simp only [List.mem_cons, List.mem_singleton, List.not_mem_nil, or_false] at hm
  rcases hm with rfl | rfl | rfl | rfl | rfl | rfl | rfl | rfl | rfl <;>
    interval_cases a <;> rfl

/-- The mask `net.CIDRMask(n, 32)` is the netmask of the prefix length `n`. -/
theorem CIDRMask_eq_specNetmask (n : Nat) (hn : n ≤ 32) :
    CIDRMask n (8 * 4) = specNetmask n := by
  interval_cases n <;> rfl

/-- Masking an IPv4 address with the mask of a prefix length clears its host bits; the
proof goes through the prefix lengths, in five parts. -/
theorem IP_Mask_eq_spec_0_6 (a b c d n : Nat) (ha : a < 256)
    (hb : b < 256) (hc : c < 256) (hd : d < 256) (hlo : 0 ≤ n) (hhi : n ≤ 6) :
    IP_Mask [a, b, c, d] (CIDRMask n (8 * 4)) = specNetworkAddress [a, b, c, d] n := by
  have la := fun m hm => byte_land_mask a m ha hm
  have lb := fun m hm => byte_land_mask b m hb hm
  have lc := fun m hm => byte_land_mask c m hc hm
  have ld := fun m hm => byte_land_mask d m hd hm
  interval_cases n <;>
    simp [CIDRMask, cidrMaskBytes, IP_Mask, specNetworkAddress, ipv4Bytes, ipv4Value,
      la, lb, lc, ld] <;>
    omega

theorem IP_Mask_eq_spec_7_13 (a b c d n : Nat) (ha : a < 256)
    (hb : b < 256) (hc : c < 256) (hd : d < 256) (hlo : 7 ≤ n) (hhi : n ≤ 13) :
    IP_Mask [a, b, c, d] (CIDRMask n (8 * 4)) = specNetworkAddress [a, b, c, d] n := by
  have la := fun m hm => byte_land_mask a m ha hm
  have lb := fun m hm => byte_land_mask b m hb hm
  have lc := fun m hm => byte_land_mask c m hc hm
  have ld := fun m hm => byte_land_mask d m hd hm
  interval_cases n <;>
    simp [CIDRMask, cidrMaskBytes, IP_Mask, specNetworkAddress, ipv4Bytes, ipv4Value,
      la, lb, lc, ld] <;>
    omega

theorem IP_Mask_eq_spec_14_20 (a b c d n : Nat) (ha : a < 256)
    (hb : b < 256) (hc : c < 256) (hd : d < 256) (hlo : 14 ≤ n) (hhi : n ≤ 20) :
    IP_Mask [a, b, c, d] (CIDRMask n (8 * 4)) = specNetworkAddress [a, b, c, d] n := by
  have la := fun m hm => byte_land_mask a m ha hm
  have lb := fun m hm => byte_land_mask b m hb hm
  have lc := fun m hm => byte_land_mask c m hc hm
  have ld := fun m hm => byte_land_mask d m hd hm
  interval_cases n <;>
    simp [CIDRMask, cidrMaskBytes, IP_Mask, specNetworkAddress, ipv4Bytes, ipv4Value,
      la, lb, lc, ld] <;>
    omega

theorem IP_Mask_eq_spec_21_27 (a b c d n : Nat) (ha : a < 256)
    (hb : b < 256) (hc : c < 256) (hd : d < 256) (hlo : 21 ≤ n) (hhi : n ≤ 27) :
    IP_Mask [a, b, c, d] (CIDRMask n (8 * 4)) = specNetworkAddress [a, b, c, d] n := by
  have la := fun m hm => byte_land_mask a m ha hm
  have lb := fun m hm => byte_land_mask b m hb hm
  have lc := fun m hm => byte_land_mask c m hc hm
  have ld := fun m hm => byte_land_mask d m hd hm
  interval_cases n <;>
    simp [CIDRMask, cidrMaskBytes, IP_Mask, specNetworkAddress, ipv4Bytes, ipv4Value,
      la, lb, lc, ld] <;>
    omega

theorem IP_Mask_eq_spec_28_32 (a b c d n : Nat) (ha : a < 256)
    (hb : b < 256) (hc : c < 256) (hd : d < 256) (hlo : 28 ≤ n) (hhi : n ≤ 32) :
    IP_Mask [a, b, c, d] (CIDRMask n (8 * 4)) = specNetworkAddress [a, b, c, d] n := by
  have la := fun m hm => byte_land_mask a m ha hm
  have lb := fun m hm => byte_land_mask b m hb hm
  have lc := fun m hm => byte_land_mask c m hc hm
  have ld := fun m hm => byte_land_mask d m hd hm
  interval_cases n <;>
    simp [CIDRMask, cidrMaskBytes, IP_Mask, specNetworkAddress, ipv4Bytes, ipv4Value,
      la, lb, lc, ld] <;>
    omega

/-- Masking an IPv4 address with the mask of a prefix length gives the network address of the
block. -/
theorem IP_Mask_eq_specNetworkAddress (a b c d n : Nat) (ha : a < 256) (hb : b < 256)
    (hc : c < 256) (hd : d < 256) (hn : n ≤ 32) :
    IP_Mask [a, b, c, d] (CIDRMask n (8 * 4)) = specNetworkAddress [a, b, c, d] n := by
  by_cases h1 : n ≤ 6
  · exact IP_Mask_eq_spec_0_6 a b c d n ha hb hc hd (by omega) h1
  by_cases h2 : n ≤ 13
  · exact IP_Mask_eq_spec_7_13 a b c d n ha hb hc hd (by omega) h2
  by_cases h3 : n ≤ 20
  · exact IP_Mask_eq_spec_14_20 a b c d n ha hb hc hd (by omega) h3
  by_cases h4 : n ≤ 27
  · exact IP_Mask_eq_spec_21_27 a b c d n ha hb hc hd (by omega) h4
  exact IP_Mask_eq_spec_28_32 a b c d n ha hb hc hd (by omega) hn

/-- The line written for an IPv4 block `ip/n`: the dotted network address of the block and
its dotted netmask. -/
theorem irouteLine_ipv4 (net : NetText) (ip : List Nat) (n : Nat) (hl : ip.length = 4)
    (hb : ∀ b ∈ ip, b < 256) (hn : n ≤ 32) :
    irouteLine net { IP := IP_Mask ip (CIDRMask n (8 * ip.length)),
                     Mask := CIDRMask n (8 * ip.length) } =
      "iroute " ++ dottedDecimal (specNetworkAddress ip n) ++ " " ++
        dottedDecimal (specNetmask n) := by
  rcases ip with _ | ⟨a, _ | ⟨b, _ | ⟨c, _ | ⟨d, _ | ⟨e, t⟩⟩⟩⟩⟩ <;>
    simp only [List.length_cons, List.length_nil] at hl <;> try omega
  have ha := hb a (by simp)
  have hb2 := hb b (by simp)
  have hc := hb c (by simp)
  have hd := hb d (by simp)
  show irouteLine net { IP := IP_Mask [a, b, c, d] (CIDRMask n (8 * 4)),
                        Mask := CIDRMask n (8 * 4) } = _
  rw [IP_Mask_eq_specNetworkAddress a b c d n ha hb2 hc hd hn, CIDRMask_eq_specNetmask n hn]
  rfl

/-- C17: whenever the OpenVPN client-config ConfigMap creator succeeds, the entry
`user-cluster-client` of the data it returns is three lines, each ended by a newline, of the
form `iroute <address> <mask>`, for the first pod CIDR block, the first service CIDR block and
the node access network, in that order, and the blocks after the first play no part.  For
what `net.ParseCIDR` has read from a block (address bytes `ip`, prefix length `n`) the line
holds `ip` combined with the mask of `n` by a bitwise and, and that mask.  When the three
blocks are IPv4 blocks (four bytes below 256, prefix length at most 32), the address written
is the network address of the block, the 32-bit number of `ip` with its last `32 - n` bits
cleared, and the mask written is the 32-bit number whose first `n` bits are set, both in
dotted decimal form. -/
theorem ServerClientConfigsConfigMapCreator_iroutes (consts : ResourceConstants)
    (net : NetText) (data : TemplateData) (cluster : Cluster) (cm out : ConfigMap)
    (hc : data.Cluster = some cluster)
    (h : (ServerClientConfigsConfigMapCreator consts net data ()).2 (some cm) =
      GoResult.ret (some out) none) :
    ∃ pod pods svc svcs ip1 n1 ip2 n2 ip3 n3,
      cluster.Spec.ClusterNetwork.Pods.CIDRBlocks = pod :: pods ∧
      cluster.Spec.ClusterNetwork.Services.CIDRBlocks = svc :: svcs ∧
      net.parse pod = .ok (ip1, n1) ∧
      net.parse svc = .ok (ip2, n2) ∧
      net.parse data.NodeAccessNetwork = .ok (ip3, n3) ∧
      (out.Data.getD []).lookup "user-cluster-client" = some
        ("iroute " ++ IP_String net (IP_Mask ip1 (CIDRMask n1 (8 * ip1.length))) ++ " " ++
            IP_String net (CIDRMask n1 (8 * ip1.length)) ++ "\n" ++
         "iroute " ++ IP_String net (IP_Mask ip2 (CIDRMask n2 (8 * ip2.length))) ++ " " ++
            IP_String net (CIDRMask n2 (8 * ip2.length)) ++ "\n" ++
         "iroute " ++ IP_String net (IP_Mask ip3 (CIDRMask n3 (8 * ip3.length))) ++ " " ++
            IP_String net (CIDRMask n3 (8 * ip3.length)) ++ "\n") ∧
      ((ip1.length = 4 ∧ (∀ b ∈ ip1, b < 256) ∧ n1 ≤ 32) →
       (ip2.length = 4 ∧ (∀ b ∈ ip2, b < 256) ∧ n2 ≤ 32) →
       (ip3.length = 4 ∧ (∀ b ∈ ip3, b < 256) ∧ n3 ≤ 32) →
        (out.Data.getD []).lookup "user-cluster-client" = some
          ("iroute " ++ dottedDecimal (specNetworkAddress ip1 n1) ++ " " ++
              dottedDecimal (specNetmask n1) ++ "\n" ++
           "iroute " ++ dottedDecimal (specNetworkAddress ip2 n2) ++ " " ++
              dottedDecimal (specNetmask n2) ++ "\n" ++
           "iroute " ++ dottedDecimal (specNetworkAddress ip3 n3) ++ " " ++
              dottedDecimal (specNetmask n3) ++ "\n")) := by
  cases hp : cluster.Spec.ClusterNetwork.Pods.CIDRBlocks with
  | nil => simp [ServerClientConfigsConfigMapCreator, hc, hp] at h
  | cons pod pods =>
    have h1 : ¬ (pods.length + 1 < 1) := by omega
    cases hs : cluster.Spec.ClusterNetwork.Services.CIDRBlocks with
    | nil =>
      simp only [ServerClientConfigsConfigMapCreator, hc, hp, hs, List.length_cons, h1,
        if_false, List.headD_cons, List.length_nil] at h
      cases hpp : ParseCIDR net pod <;> simp [hpp] at h
    | cons svc svcs =>
      rw [ServerClientConfigsConfigMapCreator_apply consts net data cluster _ pod svc pods
        svcs hc hp hs] at h
      unfold ParseCIDR at h
      cases hpp : net.parse pod with
      | error e => simp [hpp] at h
      | ok p1 =>
        obtain ⟨ip1, n1⟩ := p1
        cases hss : net.parse svc with
        | error e => simp [hpp, hss] at h
        | ok p2 =>
          obtain ⟨ip2, n2⟩ := p2
          cases hnn : net.parse data.NodeAccessNetwork with
          | error e => simp [hpp, hss, hnn] at h
          | ok p3 =>
            obtain ⟨ip3, n3⟩ := p3
            simp only [hpp, hss, hnn, GoResult.ret.injEq, Option.some.injEq, and_true] at h
            subst h
            refine ⟨pod, pods, svc, svcs, ip1, n1, ip2, n2, ip3, n3, rfl, rfl, hpp, hss, rfl,
              ?_, ?_⟩
            · simp only [Option.getD_some, lookup_mapSet, if_true, irouteLine,
                String.append_assoc]
            · intro ⟨hl1, hb1, hn1⟩ ⟨hl2, hb2, hn2⟩ ⟨hl3, hb3, hn3⟩
              simp only [Option.getD_some, lookup_mapSet, if_true,
                irouteLine_ipv4 net ip1 n1 hl1 hb1 hn1, irouteLine_ipv4 net ip2 n2 hl2 hb2 hn2,
                irouteLine_ipv4 net ip3 n3 hl3 hb3 hn3, String.append_assoc]

/-- Witness of C17: the first pod block is `192.168.77.5/13`, followed by a text that is not
a block, the first service block is `10.10.10.77/27` and the node access network is
`172.31.203.9/21`; the lines written are `iroute 192.168.0.0 255.248.0.0`,
`iroute 10.10.10.64 255.255.255.224` and `iroute 172.31.200.0 255.255.248.0`, and the
network address and the netmask of `192.168.77.5/13` are `192.168.0.0` and `255.248.0.0`. -/
theorem ServerClientConfigsConfigMapCreator_iroutes_witness :
    (∃ pod pods svc svcs ip1 n1 ip2 n2 ip3 n3,
      (exampleNetworkCluster ["192.168.77.5/13", "not a block"]
        ["10.10.10.77/27"]).Spec.ClusterNetwork.Pods.CIDRBlocks = pod :: pods ∧
      (exampleNetworkCluster ["192.168.77.5/13", "not a block"]
        ["10.10.10.77/27"]).Spec.ClusterNetwork.Services.CIDRBlocks = svc :: svcs ∧
      exampleNet.parse pod = .ok (ip1, n1) ∧
      exampleNet.parse svc = .ok (ip2, n2) ∧
      exampleNet.parse exampleOddNetworkData.NodeAccessNetwork = .ok (ip3, n3) ∧
      (exampleOddConfigMapResult.Data.getD []).lookup "user-cluster-client" = some
        ("iroute " ++ IP_String exampleNet (IP_Mask ip1 (CIDRMask n1 (8 * ip1.length))) ++ " " ++
            IP_String exampleNet (CIDRMask n1 (8 * ip1.length)) ++ "\n" ++
         "iroute " ++ IP_String exampleNet (IP_Mask ip2 (CIDRMask n2 (8 * ip2.length))) ++ " " ++
            IP_String exampleNet (CIDRMask n2 (8 * ip2.length)) ++ "\n" ++
         "iroute " ++ IP_String exampleNet (IP_Mask ip3 (CIDRMask n3 (8 * ip3.length))) ++ " " ++
            IP_String exampleNet (CIDRMask n3 (8 * ip3.length)) ++ "\n") ∧
      ((ip1.length = 4 ∧ (∀ b ∈ ip1, b < 256) ∧ n1 ≤ 32) →
       (ip2.length = 4 ∧ (∀ b ∈ ip2, b < 256) ∧ n2 ≤ 32) →
       (ip3.length = 4 ∧ (∀ b ∈ ip3, b < 256) ∧ n3 ≤ 32) →
        (exampleOddConfigMapResult.Data.getD []).lookup "user-cluster-client" = some
          ("iroute " ++ dottedDecimal (specNetworkAddress ip1 n1) ++ " " ++
              dottedDecimal (specNetmask n1) ++ "\n" ++
           "iroute " ++ dottedDecimal (specNetworkAddress ip2 n2) ++ " " ++
              dottedDecimal (specNetmask n2) ++ "\n" ++
           "iroute " ++ dottedDecimal (specNetworkAddress ip3 n3) ++ " " ++
              dottedDecimal (specNetmask n3) ++ "\n"))) ∧
    (exampleOddConfigMapResult.Data.getD []).lookup "user-cluster-client" = some
      "iroute 192.168.0.0 255.248.0.0\niroute 10.10.10.64 255.255.255.224\niroute 172.31.200.0 255.255.248.0\n" ∧
    exampleNet.parse "192.168.77.5/13" = .ok ([192, 168, 77, 5], 13) ∧
    specNetworkAddress [192, 168, 77, 5] 13 = [192, 168, 0, 0] ∧
    specNetmask 13 = [255, 248, 0, 0] ∧
    dottedDecimal (specNetmask 13) = "255.248.0.0" :=
  ⟨ServerClientConfigsConfigMapCreator_iroutes exampleConstants exampleNet
    exampleOddNetworkData
    (exampleNetworkCluster ["192.168.77.5/13", "not a block"] ["10.10.10.77/27"])
    exampleConfigMap exampleOddConfigMapResult rfl rfl, by decide, rfl, by decide, by decide,
    by decide⟩

/-- C18: for every input ClusterRole, whatever rules it holds, the DNAT-controller
ClusterRole creator returns exactly one rule (core API group, resource nodes, verbs list, get,
watch) and the metrics-server ClusterRole creator returns exactly its two fixed rules; the
rules returned do not depend on the input, and every verb they grant is get, list or
watch. -/
theorem ClusterRoleCreators_rules (consts : ResourceConstants) (cr : ClusterRole) :
    (∃ out, (dnatcontroller_ClusterRoleCreator consts ()).2 (some cr) =
        GoResult.ret (some out) none ∧
      out.Rules =
        [{ APIGroups := [""], Resources := ["nodes"], Verbs := ["list", "get", "watch"],
           ResourceNames := [], NonResourceURLs := [] }] ∧
      ∀ rule ∈ out.Rules, ∀ v ∈ rule.Verbs, v = "get" ∨ v = "list" ∨ v = "watch") ∧
    (∃ out, (metricsserver_ClusterRoleCreator consts ()).2 (some cr) =
        GoResult.ret (some out) none ∧
      out.Rules =
        [{ APIGroups := [""], Resources := ["pods", "nodes", "nodes/stats", "namespaces"],
           Verbs := ["get", "list", "watch"], ResourceNames := [], NonResourceURLs := [] },
         { APIGroups := ["extensions"], Resources := ["deployments"],
           Verbs := ["get", "list", "watch"], ResourceNames := [], NonResourceURLs := [] }] ∧
      ∀ rule ∈ out.Rules, ∀ v ∈ rule.Verbs, v = "get" ∨ v = "list" ∨ v = "watch") := by
  constructor
  · exact ⟨_, rfl, rfl, by simp⟩
  · exact ⟨_, rfl, rfl, by simp⟩

/-- C19 (the code at every input): `PatchCurrentUserSettings` submits exactly one operation
to the transport, with the ID `patchCurrentUserSettings`, the given params (the default
params for nil params) and the given auth info; the HTTP method of that operation is `GET`,
not `PATCH`, and its path is `/api/v1/me`; and when the transport returns an error, the
error is returned as it is, with a nil result. -/
theorem PatchCurrentUserSettings_operation {τ : Type} (a : SettingsClient τ)
    (params : Option PatchCurrentUserSettingsParams) (authInfo : Option String) (t : τ) :
    (PatchCurrentUserSettings a params authInfo { transport := t, submitted := [] }).2.submitted =
      [{ ID := "patchCurrentUserSettings",
         Method := "GET",
         PathPattern := "/api/v1/me",
         ProducesMediaTypes := ["application/json"],
         ConsumesMediaTypes := ["application/json"],
         Schemes := ["https"],
         Params := params.getD a.NewPatchCurrentUserSettingsParams,
         Reader := a.formats,
         AuthInfo := authInfo,
         Context := (params.getD a.NewPatchCurrentUserSettingsParams).Context,
         Client := (params.getD a.NewPatchCurrentUserSettingsParams).HTTPClient }] ∧
    (PatchCurrentUserSettings a params authInfo
        { transport := t, submitted := [] }).2.submitted.map ClientOperation.Method ≠
      ["PATCH"] ∧
    (PatchCurrentUserSettings a params authInfo { transport := t, submitted := [] }).1 =
      (match (a.transport_Submit
          { ID := "patchCurrentUserSettings",
            Method := "GET",
            PathPattern := "/api/v1/me",
            ProducesMediaTypes := ["application/json"],
            ConsumesMediaTypes := ["application/json"],
            Schemes := ["https"],
            Params := params.getD a.NewPatchCurrentUserSettingsParams,
            Reader := a.formats,
            AuthInfo := authInfo,
            Context := (params.getD a.NewPatchCurrentUserSettingsParams).Context,
            Client := (params.getD a.NewPatchCurrentUserSettingsParams).HTTPClient } t).1 with
       | (_, some err) => SettingsOutcome.ret none (some err)
       | (some (SubmitValue.patchCurrentUserSettingsOK payload), none) =>
         SettingsOutcome.ret (some payload) none
       | (_, none) => SettingsOutcome.typeAssertionFailed) := by
  cases params with
  | none =>
    simp only [PatchCurrentUserSettings, Option.getD_none]
    generalize a.transport_Submit _ t = r
    rcases r with ⟨⟨_ | ⟨payload | ty⟩, _ | err⟩, t1⟩ <;>
      exact ⟨rfl, by simp, rfl⟩
  | some p =>
    simp only [PatchCurrentUserSettings, Option.getD_some]
    generalize a.transport_Submit _ t = r
    rcases r with ⟨⟨_ | ⟨payload | ty⟩, _ | err⟩, t1⟩ <;>
      exact ⟨rfl, by simp, rfl⟩

/-- C20: whenever the OpenVPN client-config ConfigMap creator succeeds on a ConfigMap with
data map `d` (a nil map counts as empty), the data map it returns has the key
`user-cluster-client`, and every other key reads in it exactly as it reads in `d`: the other
entries are kept with their values and no other key is added. -/
theorem ServerClientConfigsConfigMapCreator_data_frame (consts : ResourceConstants)
    (net : NetText) (data : TemplateData) (cm out : ConfigMap)
    (h : (ServerClientConfigsConfigMapCreator consts net data ()).2 (some cm) =
      GoResult.ret (some out) none) :
    ∃ (m : List (String × String)) (value : String),
      out.Data = some m ∧
      m.lookup "user-cluster-client" = some value ∧
      (∀ k, k ≠ "user-cluster-client" → m.lookup k = (cm.Data.getD []).lookup k) ∧
      (∀ k, k ∈ m.map Prod.fst → k = "user-cluster-client" ∨ k ∈ (cm.Data.getD []).map Prod.fst) := by
  obtain ⟨value, hv⟩ := ServerClientConfigsConfigMapCreator_data consts net data cm out h
  refine ⟨_, value, hv, ?_, ?_, ?_⟩
  · simp [lookup_mapSet]
  · intro k hk
    simp [lookup_mapSet, hk]
  · intro k hk
    exact keys_mapSet _ _ _ k hk

/-- Witness of C20: a stored ConfigMap with an outdated entry `user-cluster-client` and an
entry `other`. -/
theorem ServerClientConfigsConfigMapCreator_data_frame_witness :
    (∃ (m : List (String × String)) (value : String),
      exampleConfigMapResult.Data = some m ∧
      m.lookup "user-cluster-client" = some value ∧
      (∀ k, k ≠ "user-cluster-client" → m.lookup k = (exampleConfigMap.Data.getD []).lookup k) ∧
      (∀ k, k ∈ m.map Prod.fst →
        k = "user-cluster-client" ∨ k ∈ (exampleConfigMap.Data.getD []).map Prod.fst)) ∧
    (exampleConfigMapResult.Data.getD []).lookup "other" = some "kept" :=
  ⟨ServerClientConfigsConfigMapCreator_data_frame exampleConstants exampleNet
    exampleNetworkData exampleConfigMap exampleConfigMapResult rfl, by decide⟩

/-! ## Lemmas on the Deployment of the Kubermatic API -/

/-- The shape of the result of the creator of `APIDeploymentCreator`: one container; the
volume names and the mount names are `kubeconfig` followed by the names of the optional
sources whose configuration field is non-empty; every mount is read-only; the arguments
are the twelve fixed ones, then the four of the feature gate `OIDCKubeCfgEndpoint` if it is
on, then those of the optional sources. -/
theorem APIDeploymentCreator_shape (pkg : KubermaticPackage) (ns : String)
    (cfg : KubermaticConfiguration) (d : Deployment) :
    ∃ out c,
      (APIDeploymentCreator pkg ns (some cfg) ()).2 (some d) = .ret (some out) none ∧
      out.Spec.Template.Spec.Containers = [c] ∧
      out.Spec.Template.Spec.Volumes.map (fun v => v.Name) =
        ["kubeconfig"] ++ (if cfg.Spec.MasterFiles ≠ [] then ["master-files"] else [])
          ++ (if cfg.Spec.UI.Presets ≠ "" then ["presets"] else [])
          ++ (if cfg.Spec.Datacenters ≠ "" then ["datacenters"] else []) ∧
      c.VolumeMounts.map (fun m => m.Name) =
        ["kubeconfig"] ++ (if cfg.Spec.MasterFiles ≠ [] then ["master-files"] else [])
          ++ (if cfg.Spec.UI.Presets ≠ "" then ["presets"] else [])
          ++ (if cfg.Spec.Datacenters ≠ "" then ["datacenters"] else []) ∧
      (∀ m ∈ c.VolumeMounts, m.ReadOnly = true) ∧
      c.Args =
        (["-v=2", "-logtostderr", "-address=0.0.0.0:8080", "-internal-address=0.0.0.0:8085",
          "-kubeconfig=/opt/.kube/kubeconfig",
          "-oidc-url=" ++ cfg.Spec.Auth.TokenIssuer,
          "-oidc-authenticator-client-id=" ++ cfg.Spec.Auth.ClientID,
          "-oidc-skip-tls-verify=" ++ sprintBool cfg.Spec.Auth.SkipTokenIssuerTLSVerify,
          "-domain=" ++ cfg.Spec.Domain,
          "-service-account-signing-key=" ++ cfg.Spec.Auth.ServiceAccountKey,
          "-expose-strategy=" ++ cfg.Spec.ExposeStrategy,
          "-feature-gates=" ++ pkg.featureGates cfg]
          ++ (if mapIndexBool cfg.Spec.FeatureGates "OIDCKubeCfgEndpoint" = true then
            ["-oidc-issuer-redirect-uri=" ++ cfg.Spec.Auth.IssuerRedirectURL,
             "-oidc-issuer-client-id=" ++ cfg.Spec.Auth.IssuerClientID,
             "-oidc-issuer-client-secret=" ++ cfg.Spec.Auth.IssuerClientSecret,
             "-oidc-issuer-cookie-hash-key=" ++ cfg.Spec.Auth.IssuerCookieKey]
            else []))
          ++ (if cfg.Spec.MasterFiles ≠ [] then
            ["-versions=/opt/master-files/versions.yaml",
             "-updates=/opt/master-files/updates.yaml",
             "-master-resources=/opt/master-files"] else [])
          ++ (if cfg.Spec.UI.Presets ≠ "" then ["-presets=/opt/presets/presets.yaml"] else [])
          ++ (if cfg.Spec.Datacenters ≠ "" then
            ["-datacenters=/opt/datacenters/datacenters.yaml"] else []) := by
  by_cases hm : cfg.Spec.MasterFiles = [] <;>
  by_cases hp : cfg.Spec.UI.Presets = "" <;>
  by_cases hd : cfg.Spec.Datacenters = "" <;>
  by_cases ho : mapIndexBool cfg.Spec.FeatureGates "OIDCKubeCfgEndpoint" = true <;>
  · apply Exists.intro
    apply Exists.intro
    refine ⟨?h1, ?h2, ?h3, ?h4, ?h5, ?h6⟩
    case h1 =>
      simp only [APIDeploymentCreator, List.length_pos, List.length_nil, Nat.lt_irrefl, ne_eq,
        hm, hp, hd, ho, if_true, if_false, not_true_eq_false, not_false_eq_true]
      rfl
    case h2 => rfl
    case h3 => simp [hm, hp, hd]
    case h4 => simp [hm, hp, hd]
    case h5 => simp
    case h6 => simp [hm, hp, hd, ho]

/-- Looking for a flag in two lists of arguments put one after the other. -/
theorem hasFlag_append (xs ys : List String) (name : String) :
    hasFlag (xs ++ ys) name = (hasFlag xs name || hasFlag ys name) := by
  simp [hasFlag, List.any_append]

/-- None of the fixed arguments and none of the arguments of the feature gate
`OIDCKubeCfgEndpoint` sets a flag of an optional source, whatever text the configuration
holds. -/
theorem fixedArgs_no_sourceFlag (x1 x2 x3 x4 x5 x6 x7 y1 y2 y3 y4 : String) (b : Prop)
    [Decidable b] (name : String)
    (hname : name ∈ ["versions", "updates", "master-resources", "presets", "datacenters"]) :
    hasFlag
      (["-v=2", "-logtostderr", "-address=0.0.0.0:8080", "-internal-address=0.0.0.0:8085",
        "-kubeconfig=/opt/.kube/kubeconfig", "-oidc-url=" ++ x1,
        "-oidc-authenticator-client-id=" ++ x2, "-oidc-skip-tls-verify=" ++ x3,
        "-domain=" ++ x4, "-service-account-signing-key=" ++ x5, "-expose-strategy=" ++ x6,
        "-feature-gates=" ++ x7]
        ++ (if b then
          ["-oidc-issuer-redirect-uri=" ++ y1, "-oidc-issuer-client-id=" ++ y2,
           "-oidc-issuer-client-secret=" ++ y3, "-oidc-issuer-cookie-hash-key=" ++ y4]
          else [])) name = false := by
  simp only [List.mem_cons, List.mem_singleton, List.not_mem_nil, or_false] at hname
  refine Bool.eq_false_iff.mpr ?_
  rcases hname with rfl | rfl | rfl | rfl | rfl <;> by_cases hb : b <;> simp [hasFlag, hb]

/-- The flags of the optional sources in a list of arguments made of arguments that set
none of them, followed by the arguments of the sources that are switched on. -/
theorem optionalFlags_iff (fixed : List String)
    (hfixed : ∀ name ∈ ["versions", "updates", "master-resources", "presets", "datacenters"],
      hasFlag fixed name = false)
    (bm bp bd : Prop) [Decidable bm] [Decidable bp] [Decidable bd] (args : List String)
    (hargs : args = fixed
      ++ (if bm then
        ["-versions=/opt/master-files/versions.yaml",
         "-updates=/opt/master-files/updates.yaml",
         "-master-resources=/opt/master-files"] else [])
      ++ (if bp then ["-presets=/opt/presets/presets.yaml"] else [])
      ++ (if bd then ["-datacenters=/opt/datacenters/datacenters.yaml"] else [])) :
    (("-versions=/opt/master-files/versions.yaml" ∈ args ↔ bm) ∧
      ("-updates=/opt/master-files/updates.yaml" ∈ args ↔ bm) ∧
      ("-master-resources=/opt/master-files" ∈ args ↔ bm) ∧
      (hasFlag args "versions" = true ↔ bm) ∧
      (hasFlag args "updates" = true ↔ bm) ∧
      (hasFlag args "master-resources" = true ↔ bm)) ∧
    (("-presets=/opt/presets/presets.yaml" ∈ args ↔ bp) ∧
      (hasFlag args "presets" = true ↔ bp)) ∧
    (("-datacenters=/opt/datacenters/datacenters.yaml" ∈ args ↔ bd) ∧
      (hasFlag args "datacenters" = true ↔ bd)) := by
  have f1 := hfixed "versions" (by simp)
  have f2 := hfixed "updates" (by simp)
  have f3 := hfixed "master-resources" (by simp)
  have f4 := hfixed "presets" (by simp)
  have f5 := hfixed "datacenters" (by simp)
  have key : ∀ (t name : String), hasFlag [t] name = true → hasFlag fixed name = false →
      t ∉ fixed := by
    intro t name ht hf hmem
    have : hasFlag fixed name = true := by
      simp only [hasFlag, List.any_eq_true, List.any_cons, List.any_nil, Bool.or_false] at ht ⊢
      exact ⟨t, hmem, ht⟩
    rw [hf] at this
    exact Bool.false_ne_true this
  have e1 := key "-versions=/opt/master-files/versions.yaml" "versions" (by decide) f1
  have e2 := key "-updates=/opt/master-files/updates.yaml" "updates" (by decide) f2
  have e3 := key "-master-resources=/opt/master-files" "master-resources" (by decide) f3
  have e4 := key "-presets=/opt/presets/presets.yaml" "presets" (by decide) f4
  have e5 := key "-datacenters=/opt/datacenters/datacenters.yaml" "datacenters" (by decide) f5
  subst hargs
  simp only [hasFlag_append, f1, f2, f3, f4, f5, List.mem_append, e1, e2, e3, e4, e5,
    false_or, Bool.false_or]
  by_cases hm : bm <;> by_cases hp : bp <;> by_cases hd : bd <;>
    simp [hasFlag, hm, hp, hd]

/-- The volume names `kubeconfig` followed by the names of the optional sources that are
switched on: no name twice, `kubeconfig` among them, each other name exactly when its
source is on. -/
theorem optionalVolumes_iff (bm bp bd : Prop) [Decidable bm] [Decidable bp] [Decidable bd]
    (names : List String)
    (hnames : names = ["kubeconfig"] ++ (if bm then ["master-files"] else [])
      ++ (if bp then ["presets"] else []) ++ (if bd then ["datacenters"] else [])) :
    names.Nodup ∧ "kubeconfig" ∈ names ∧ ("master-files" ∈ names ↔ bm) ∧
      ("presets" ∈ names ↔ bp) ∧ ("datacenters" ∈ names ↔ bd) := by
  subst hnames
  by_cases hm : bm <;> by_cases hp : bp <;> by_cases hd : bd <;> simp [hm, hp, hd]

/-! ## The claims on the Kubermatic API -/

/-- C21: for every configuration and every stored Deployment, the creator of
`APIDeploymentCreator` returns a Deployment `out` with a single container `c` such that
the names of the volume mounts of `c` are the names of the pod volumes, in the same order
and without repetition (the i-th mount names the i-th volume), every mount is read-only,
the volume `kubeconfig` is present, and for each optional source the volume, the mount and
the command-line flags are present exactly when the configuration field is non-empty:
`master-files` with `-versions`, `-updates`, `-master-resources` for `Spec.MasterFiles`,
`presets` with `-presets` for `Spec.UI.Presets`, `datacenters` with `-datacenters` for
`Spec.Datacenters`.  A flag is looked for both as the exact argument that api.go writes and
as any argument of the form `-name=value`. -/
theorem APIDeploymentCreator_volumes_mounts_flags (pkg : KubermaticPackage) (ns : String)
    (cfg : KubermaticConfiguration) (d : Deployment) :
    ∃ out c,
      (APIDeploymentCreator pkg ns (some cfg) ()).2 (some d) = .ret (some out) none ∧
      out.Spec.Template.Spec.Containers = [c] ∧
      c.VolumeMounts.map (fun m => m.Name)
        = out.Spec.Template.Spec.Volumes.map (fun v => v.Name) ∧
      (out.Spec.Template.Spec.Volumes.map (fun v => v.Name)).Nodup ∧
      (∀ m ∈ c.VolumeMounts, m.ReadOnly = true) ∧
      "kubeconfig" ∈ out.Spec.Template.Spec.Volumes.map (fun v => v.Name) ∧
      "kubeconfig" ∈ c.VolumeMounts.map (fun m => m.Name) ∧
      (("master-files" ∈ out.Spec.Template.Spec.Volumes.map (fun v => v.Name)
          ↔ cfg.Spec.MasterFiles ≠ []) ∧
        ("master-files" ∈ c.VolumeMounts.map (fun m => m.Name) ↔ cfg.Spec.MasterFiles ≠ []) ∧
        ("-versions=/opt/master-files/versions.yaml" ∈ c.Args ↔ cfg.Spec.MasterFiles ≠ []) ∧
        ("-updates=/opt/master-files/updates.yaml" ∈ c.Args ↔ cfg.Spec.MasterFiles ≠ []) ∧
        ("-master-resources=/opt/master-files" ∈ c.Args ↔ cfg.Spec.MasterFiles ≠ []) ∧
        (hasFlag c.Args "versions" = true ↔ cfg.Spec.MasterFiles ≠ []) ∧
        (hasFlag c.Args "updates" = true ↔ cfg.Spec.MasterFiles ≠ []) ∧
        (hasFlag c.Args "master-resources" = true ↔ cfg.Spec.MasterFiles ≠ [])) ∧
      (("presets" ∈ out.Spec.Template.Spec.Volumes.map (fun v => v.Name)
          ↔ cfg.Spec.UI.Presets ≠ "") ∧
        ("presets" ∈ c.VolumeMounts.map (fun m => m.Name) ↔ cfg.Spec.UI.Presets ≠ "") ∧
        ("-presets=/opt/presets/presets.yaml" ∈ c.Args ↔ cfg.Spec.UI.Presets ≠ "") ∧
        (hasFlag c.Args "presets" = true ↔ cfg.Spec.UI.Presets ≠ "")) ∧
      (("datacenters" ∈ out.Spec.Template.Spec.Volumes.map (fun v => v.Name)
          ↔ cfg.Spec.Datacenters ≠ "") ∧
        ("datacenters" ∈ c.VolumeMounts.map (fun m => m.Name) ↔ cfg.Spec.Datacenters ≠ "") ∧
        ("-datacenters=/opt/datacenters/datacenters.yaml" ∈ c.Args
          ↔ cfg.Spec.Datacenters ≠ "") ∧
        (hasFlag c.Args "datacenters" = true ↔ cfg.Spec.Datacenters ≠ "")) := by
  obtain ⟨out, c, h1, h2, hv, hmn, hro, hargs⟩ := APIDeploymentCreator_shape pkg ns cfg d
  obtain ⟨v1, v2, v3, v4, v5⟩ := optionalVolumes_iff _ _ _ _ hv
  obtain ⟨⟨a1, a2, a3, a4, a5, a6⟩, ⟨a7, a8⟩, a9, a10⟩ :=
    optionalFlags_iff _ (fixedArgs_no_sourceFlag _ _ _ _ _ _ _ _ _ _ _ _) _ _ _ _ hargs
  refine ⟨out, c, h1, h2, hmn.trans hv.symm, v1, hro, v2, ?_,
    ⟨v3, ?_, a1, a2, a3, a4, a5, a6⟩, ⟨v4, ?_, a7, a8⟩, ⟨v5, ?_, a9, a10⟩⟩
  · rw [hmn.trans hv.symm]; exact v2
  · rw [hmn.trans hv.symm]; exact v3
  · rw [hmn.trans hv.symm]; exact v4
  · rw [hmn.trans hv.symm]; exact v5

/-- On a stored Deployment and a configuration the creator of `APIDeploymentCreator`
returns a Deployment with two replicas whose selector and whose pod template labels are
`apiPodLabels`. -/
theorem APIDeploymentCreator_labels (pkg : KubermaticPackage) (ns : String)
    (cfg : KubermaticConfiguration) (d : Deployment) :
    ∃ out,
      (APIDeploymentCreator pkg ns (some cfg) ()).2 (some d) = .ret (some out) none ∧
      out.Spec.Selector = some { MatchLabels := apiPodLabels pkg, MatchExpressions := [] } ∧
      out.Spec.Template.Labels = apiPodLabels pkg ∧
      out.Spec.Replicas = some 2 := by
  by_cases hm : cfg.Spec.MasterFiles = [] <;>
  by_cases hp : cfg.Spec.UI.Presets = "" <;>
  by_cases hd : cfg.Spec.Datacenters = "" <;>
  by_cases ho : mapIndexBool cfg.Spec.FeatureGates "OIDCKubeCfgEndpoint" = true <;>
  · apply Exists.intro
    refine ⟨?h1, ?h2, ?h3, ?h4⟩
    case h1 =>
      simp only [APIDeploymentCreator, List.length_pos, List.length_nil, Nat.lt_irrefl, ne_eq,
        hm, hp, hd, ho, if_true, if_false, not_true_eq_false, not_false_eq_true]
      rfl
    case h2 => rfl
    case h3 => rfl
    case h4 => rfl

/-- The run of the three creators on the fixtures: the Deployment gets the volumes
`kubeconfig`, `presets`, `datacenters` and the arguments of the example configuration, and
the Deployment, the PodDisruptionBudget and the Service select the same labels. -/
theorem apiCreators_example :
    ∃ dOut pdbOut sOut,
      (APIDeploymentCreator examplePackage "kubermatic" (some exampleConfiguration) ()).2
        (some exampleDeployment) = .ret (some dOut) none ∧
      (APIPDBCreator examplePackage "kubermatic" (some exampleConfiguration) ()).2
        (some examplePodDisruptionBudget) = .ret (some pdbOut) none ∧
      (APIServiceCreator examplePackage "kubermatic" (some exampleConfiguration) ()).2
        (some exampleService) = .ret (some sOut) none ∧
      dOut.Spec.Template.Spec.Volumes.map (fun v => v.Name)
        = ["kubeconfig", "presets", "datacenters"] ∧
      dOut.Spec.Template.Spec.Containers.map (fun c => c.Args) =
        [["-v=2", "-logtostderr", "-address=0.0.0.0:8080", "-internal-address=0.0.0.0:8085",
          "-kubeconfig=/opt/.kube/kubeconfig", "-oidc-url=https://example.com/dex",
          "-oidc-authenticator-client-id=kubermatic", "-oidc-skip-tls-verify=false",
          "-domain=example.com", "-service-account-signing-key=key",
          "-expose-strategy=NodePort", "-feature-gates=",
          "-presets=/opt/presets/presets.yaml",
          "-datacenters=/opt/datacenters/datacenters.yaml"]] ∧
      dOut.Spec.Template.Labels
        = [("app.kubernetes.io/name", "kubermatic-api"), ("app.kubernetes.io/version", "v1")] ∧
      pdbOut.Spec.Selector = dOut.Spec.Selector ∧
      sOut.Spec.Selector = dOut.Spec.Template.Labels ∧
      sOut.Spec.Ports.map (fun p => (p.Name, p.Port)) = [("http", 80), ("metrics", 8085)] :=
  ⟨_, _, _, rfl, rfl, rfl, by decide, by decide, by decide, by decide, by decide, by decide⟩

/-- C22: for every configuration and all stored objects, the three creators of api.go
return (without error) a Deployment, a PodDisruptionBudget and a Service such that the
matchLabels of the Deployment selector, the labels of the pod template, the matchLabels of
the PodDisruptionBudget selector and the selector of the Service are all `apiPodLabels`
(the two label selectors have no other requirement), and the `minAvailable` of the
PodDisruptionBudget is the integer 1, the replica count of the Deployment is 2, and
1 < 2: every label required by the budget is a label of the API pods, and one pod may be
disrupted. -/
theorem api_selectors_agree (pkg : KubermaticPackage) (ns : String)
    (cfg : KubermaticConfiguration) (d : Deployment) (pdb : PodDisruptionBudget)
    (s : Service) :
    ∃ dOut pdbOut sOut dSel pdbSel minAvailable replicas,
      (APIDeploymentCreator pkg ns (some cfg) ()).2 (some d) = .ret (some dOut) none ∧
      (APIPDBCreator pkg ns (some cfg) ()).2 (some pdb) = .ret (some pdbOut) none ∧
      (APIServiceCreator pkg ns (some cfg) ()).2 (some s) = .ret (some sOut) none ∧
      dOut.Spec.Selector = some dSel ∧ pdbOut.Spec.Selector = some pdbSel ∧
      dSel.MatchLabels = apiPodLabels pkg ∧ dSel.MatchExpressions = [] ∧
      dOut.Spec.Template.Labels = apiPodLabels pkg ∧
      pdbSel.MatchLabels = apiPodLabels pkg ∧ pdbSel.MatchExpressions = [] ∧
      sOut.Spec.Selector = apiPodLabels pkg ∧
      (∀ kv ∈ pdbSel.MatchLabels, kv ∈ dOut.Spec.Template.Labels) ∧
      pdbOut.Spec.MinAvailable = some (.int minAvailable) ∧
      dOut.Spec.Replicas = some replicas ∧
      minAvailable = 1 ∧ replicas = 2 ∧ minAvailable < replicas := by
  obtain ⟨dOut, hd1, hd2, hd3, hd4⟩ := APIDeploymentCreator_labels pkg ns cfg d
  refine ⟨dOut, _, _, _, _, 1, 2, hd1, rfl, rfl, hd2, rfl, rfl, rfl, hd3, rfl, rfl, rfl, ?_,
    rfl, hd4, rfl, rfl, by decide⟩
  intro kv hkv
  rw [hd3]
  exact hkv


end Kubermatic
